import Mathlib

/-!
# MAVCam camera device abstraction: embedding of `CameraImpl`

Shallow embedding of `src/mav_server/plugins/camera/camera_impl.cpp` together with the
types of `src/mid_server/plugins/camera/camera.h`.

* The object state of `CameraImpl` is the record `CameraImpl`; every member function is a
  function from a state to an `Outcome`, which is either a fault that ends the process
  (a call through a null pointer, an uncaught C++ exception, undefined behaviour) or the
  returned value together with the next state.
* The two hardware backends are abstract state machines: `MavCamera β F` is the virtual
  interface of the primary backend over an arbitrary backend state `β`, `BosonApi γ` the
  function table of the thermal backend over an arbitrary state `γ`.  Quantifying over
  them quantifies over every backend behaviour.
* `CameraImpl.calls` is instrumentation: the list of backend calls issued so far, oldest
  first.  It is never read by the embedded code.
* Floating point values are kept abstract (type `F` with the operations of `FloatLib`).
-/

namespace mavcam

/-! ## Types of camera.h -/

/-- Camera mode type, `Camera::Mode` (camera.h 47-51). -/
inductive Camera.Mode
  | Unknown
  | Photo
  | Video
  deriving DecidableEq, Repr

/-- Possible results returned for camera commands, `Camera::Result` (camera.h 78-89). -/
inductive Camera.Result
  | Unknown
  | Success
  | InProgress
  | Busy
  | Denied
  | Error
  | Timeout
  | WrongArgument
  | NoSystem
  | ProtocolUnsupported
  deriving DecidableEq, Repr

/-- Photos range type, `Camera::PhotosRange` (camera.h 63-66). -/
inductive Camera.PhotosRange
  | All
  | SinceConnection
  deriving DecidableEq, Repr

/-- Storage status, `Camera::Status::StorageStatus` (camera.h 306-312). -/
inductive Camera.Status.StorageStatus
  | NotAvailable
  | Unformatted
  | Formatted
  | NotSupported
  deriving DecidableEq, Repr

/-- Storage type, `Camera::Status::StorageType` (camera.h 325-332). -/
inductive Camera.Status.StorageType
  | Unknown
  | UsbStick
  | Sd
  | Microsd
  | Hd
  | Other
  deriving DecidableEq, Repr

/-- Camera status record, `Camera::Status` (camera.h 302-353). -/
structure Camera.Status (F : Type) where
  video_on : Bool
  photo_interval_on : Bool
  used_storage_mib : F
  available_storage_mib : F
  total_storage_mib : F
  recording_time_s : F
  media_folder_name : String
  storage_status : Camera.Status.StorageStatus
  storage_id : Nat
  storage_type : Camera.Status.StorageType
  deriving DecidableEq, Repr

/-- Selected option of a setting, `Camera::Option` (camera.h 372-375). -/
structure Camera.Option where
  option_id : String
  option_description : String
  deriving DecidableEq, Repr

/-- Named setting with its selected option, `Camera::Setting` (camera.h 394-402). -/
structure Camera.Setting where
  setting_id : String
  setting_description : String
  option : Camera.Option
  is_range : Bool
  deriving DecidableEq, Repr

/-- Capability flags, `Camera::Information::CameraCapFlags` (camera.h 452-474). -/
inductive Camera.Information.CameraCapFlags
  | CaptureVideo
  | CaptureImage
  | HasModes
  | CanCaptureImageInVideoMode
  | CanCaptureVideoInImageMode
  | HasImageSurveyMode
  | HasBasicZoom
  | HasBasicFocus
  | HasVideoStream
  | HasTrackingPoint
  | HasTrackingRectangle
  | HasTrackingGeoStatus
  deriving DecidableEq, Repr

/-- Descriptive record of the camera, `Camera::Information` (camera.h 448-500). -/
structure Camera.Information (F : Type) where
  vendor_name : String
  model_name : String
  firmware_version : String
  focal_length_mm : F
  horizontal_sensor_size_mm : F
  vertical_sensor_size_mm : F
  horizontal_resolution_px : Nat
  vertical_resolution_px : Nat
  lens_id : Nat
  definition_file_version : Nat
  definition_file_uri : String
  camera_cap_flags : List Camera.Information.CameraCapFlags
  deriving DecidableEq, Repr

/-- Position type in global coordinates, `Camera::Position` (camera.h 101-106). -/
structure Camera.Position (F : Type) where
  latitude_deg : F
  longitude_deg : F
  absolute_altitude_m : F
  relative_altitude_m : F
  deriving DecidableEq, Repr

/-- Quaternion type, `Camera::Quaternion` (camera.h 132-137). -/
structure Camera.Quaternion (F : Type) where
  w : F
  x : F
  y : F
  z : F
  deriving DecidableEq, Repr

/-- Euler angle type, `Camera::EulerAngle` (camera.h 161-165). -/
structure Camera.EulerAngle (F : Type) where
  roll_deg : F
  pitch_deg : F
  yaw_deg : F
  deriving DecidableEq, Repr

/-- Information about a picture just captured, `Camera::CaptureInfo` (camera.h 184-194). -/
structure Camera.CaptureInfo (F : Type) where
  position : Camera.Position F
  attitude_quaternion : Camera.Quaternion F
  attitude_euler_angle : Camera.EulerAngle F
  time_utc_us : Nat
  is_success : Bool
  index : Int
  file_url : String
  deriving DecidableEq, Repr

/-! ## Types of the primary backend (header `mav_camera.h`, not part of the sources) -/

/-- Modelled from the spec: the outcome codes of the primary backend, declared in the absent
header mav_camera.h; they are the nine codes enumerated by the switch of
`convert_camera_result_to_mav_result` (camera_impl.cpp 765-793). -/
inductive mav_camera.Result
  | Success
  | Denied
  | Busy
  | Error
  | InProgress
  | NoSystem
  | Timeout
  | Unknown
  | WrongArgument
  deriving DecidableEq, Repr

/-- Modelled from the spec: the backend's capture mode, declared in the absent header
mav_camera.h; the sources use exactly the values Photo and Video. -/
inductive mav_camera.Mode
  | Photo
  | Video
  deriving DecidableEq, Repr

/-- Modelled from the spec: the preview routing of the absent header mav_camera.h, with the
four values that `get_camera_display_mode` switches over (camera_impl.cpp 580-593). -/
inductive mav_camera.PreivewStreamOutputType
  | RGBStreamOnly
  | InfraredStreamOnly
  | MixSideBySide
  | MixPIP
  deriving DecidableEq, Repr

/-- Modelled from the spec: storage status of the absent header mav_camera.h, with the four
values that `status` switches over (camera_impl.cpp 364-377). -/
inductive mav_camera.StorageInformation.StorageStatus
  | Formatted
  | Unformatted
  | NotAvailable
  | NotSupported
  deriving DecidableEq, Repr

/-- Modelled from the spec: storage type of the absent header mav_camera.h, with the six
values that `status` switches over (camera_impl.cpp 379-398). -/
inductive mav_camera.StorageType
  | Hd
  | Microsd
  | Other
  | Sd
  | Unknown
  | UsbStick
  deriving DecidableEq, Repr

/-- Modelled from the spec: the storage snapshot pushed by the backend (absent header
mav_camera.h), with the five fields that `status` reads (camera_impl.cpp 361-379). -/
structure mav_camera.StorageInformation (F : Type) where
  available_storage_mib : F
  total_storage_mib : F
  storage_id : Nat
  storage_status : mav_camera.StorageInformation.StorageStatus
  storage_type : mav_camera.StorageType
  deriving DecidableEq, Repr

/-- Modelled from the spec: the backend's information record (absent header mav_camera.h),
with the six fields that `information` copies (camera_impl.cpp 282-287). -/
structure mav_camera.Information (F : Type) where
  focal_length_mm : F
  horizontal_sensor_size_mm : F
  vertical_sensor_size_mm : F
  horizontal_resolution_px : Nat
  vertical_resolution_px : Nat
  lens_id : Nat
  deriving DecidableEq, Repr

/-- Modelled from the spec: the options record handed to the backend's open call (absent
header mav_camera.h), with the fields that `prepare` assigns (camera_impl.cpp 82-121). -/
structure mav_camera.Options where
  preview_drm_output : Bool
  preview_v4l2_output : Bool
  preview_weston_output : Bool
  init_mode : mav_camera.Mode
  preview_width : Int
  preview_height : Int
  snapshot_width : Int
  snapshot_height : Int
  video_width : Int
  video_height : Int
  framerate : Int
  debug_calc_fps : Bool
  store_prefix : Option String
  deriving DecidableEq, Repr

/-! ## Constants of camera_impl.cpp (14-40) -/

def kCameraDisplayModeName : String := "CAM_DISPLAY_MODE"
def kCameraModeName : String := "CAM_MODE"
def kPhotoResolution : String := "CAM_PHOTO_RES"
def kVideoResolution : String := "CAM_VIDRES"
def kVideoFormat : String := "CAM_VIDFMT"
def kWhitebalanceModeName : String := "CAM_WBMODE"
def kExposureMode : String := "CAM_EXPMODE"
def kEVName : String := "CAM_EV"
def kISOName : String := "CAM_ISO"
def kShutterSpeedName : String := "CAM_SHUTTERSPD"
def kIrCamPalette : String := "IRCAM_PALETTE"
def kIrCamFFC : String := "IRCAM_FFC"

def kPreviewWidth : Int := 1920
def kPreviewPhotoHeight : Int := 1440
def kPreviewVideoHeight : Int := 1080
def kSnapshotWidth : Int := 9248
def kSnapshotHeight : Int := 6944
def kSnapshotHalfWidth : Int := 4624
def kSnapshotHalfHeight : Int := 3472
def kVideoWidth : Int := 3840
def kVideoHeight : Int := 2160

def QCOM_CAMERA_LIBERAY : String := "libqcom_camera.so"
def BOSON_CAMERA_LIBRARY : String := "libboson-sdk-clientfiles_64.so"

/-! ## The two backends as abstract state machines -/

/-- Modelled from the spec: the capability surface of the primary backend, the abstract class
`mav_camera::MavCamera` of the absent header mav_camera.h, with the member functions that
camera_impl.cpp calls.  Each member takes the backend's state and returns what the call
reports together with the backend's next state. -/
structure MavCamera (β F : Type) where
  set_log_path : β → String → β
  open_ : β → mav_camera.Options → mav_camera.Result × β
  close : β → β
  subscribe_storage_information : β → β
  take_photo : β → mav_camera.Result × β
  start_video : β → mav_camera.Result × β
  stop_video : β → mav_camera.Result × β
  set_mode : β → mav_camera.Mode → mav_camera.Result × β
  get_information : β → (mav_camera.Result × mav_camera.Information F) × β
  get_preview_resolution : β → (mav_camera.Result × Int × Int) × β
  set_preview_stream_output_type :
    β → mav_camera.PreivewStreamOutputType → mav_camera.Result × β
  get_preview_stream_output_type :
    β → (mav_camera.Result × mav_camera.PreivewStreamOutputType) × β
  set_snapshot_resolution : β → Int → Int → mav_camera.Result × β
  set_white_balance : β → Int → mav_camera.Result × β
  get_white_balance : β → (mav_camera.Result × Int) × β
  set_exposure_value : β → F → mav_camera.Result × β
  get_exposure_value : β → (mav_camera.Result × F) × β
  set_iso : β → Int → mav_camera.Result × β
  get_iso : β → (mav_camera.Result × Int) × β
  set_shutter_speed : β → String → mav_camera.Result × β
  get_shutter_speed : β → (mav_camera.Result × String) × β
  set_video_resolution : β → Int → Int → mav_camera.Result × β
  get_video_resolution : β → (mav_camera.Result × Int × Int) × β
  set_framerate : β → Int → mav_camera.Result × β
  get_framerate : β → (mav_camera.Result × Int) × β
  format_storage : β → Int → mav_camera.Result × β
  set_timestamp : β → Int → β

/-- Modelled from the spec: the function table of the thermal backend,
`struct boson_extension_api` of the absent Boson SDK header, with the entries that
camera_impl.cpp calls.  The integer is the status the entry returns (0 for success); the
second component, where present, is what the entry writes through its out pointer. -/
structure BosonApi (γ : Type) where
  uart_boson_initialize : γ → Int → Int → Int × γ
  uart_boson_close : γ → γ
  get_boson_camera_sn : γ → (Int × Nat) × γ
  get_boson_camera_pn : γ → (Int × String) × γ
  get_boson_color_mode : γ → (Int × Int) × γ
  set_boson_color_mode : γ → Int → Int × γ
  process_boson_run_ffc : γ → Int × γ

/-- Floating point operations of the C++ library that the sources use, kept abstract:
`stof` is `std::stof` (`none` when it throws), `fixed1` is streaming with
`std::fixed << std::setprecision(1)`, `div` is float division, `to_string` is
`std::to_string(float)`, `zero` the literal 0 and `ofInt` the conversion of an integer. -/
structure FloatLib (F : Type) where
  zero : F
  ofInt : Int → F
  stof : String → Option F
  fixed1 : F → String
  div : F → F → F
  to_string : F → String

/-- Everything outside `CameraImpl` that its member functions depend on: the member
functions of the two backends, the floating point library, the constant
`mav_camera::kAutoWhitebalanceValue` of the absent header mav_camera.h, and the values that
reads of a local without initialiser yield: `indeterminate_result n` is what the read number
`n` finds in the uninitialised `mav_camera::Result result` of `set_whitebalance_mode`. -/
structure Deps (β γ F : Type) where
  cam : MavCamera β F
  ir : BosonApi γ
  fl : FloatLib F
  kAutoWhitebalanceValue : Int
  indeterminate_result : Nat → mav_camera.Result

/-- The dynamic loader and the process environment as one call of `prepare` sees them:
`dlopen` yields a module handle or fails, `dlsym` tells whether a symbol resolves in a
module, the two factories yield an instance (its initial state) or null, `getenv` reads an
environment variable. -/
structure Platform (β γ : Type) where
  dlopen : String → Option Nat
  dlsym : Nat → String → Bool
  create_qcom_camera : Option β
  create_boson_extension_api : Option γ
  getenv : String → Option String

/-- Instrumentation: one call issued to a backend, with its arguments.  The constructors
with the `ir_` mark are entries of the thermal backend. -/
inductive BackendCall (F : Type)
  | set_log_path (path : String)
  | open_ (options : mav_camera.Options)
  | close
  | subscribe_storage_information
  | take_photo
  | start_video
  | stop_video
  | set_mode (mode : mav_camera.Mode)
  | get_information
  | get_preview_resolution
  | set_preview_stream_output_type (t : mav_camera.PreivewStreamOutputType)
  | get_preview_stream_output_type
  | set_snapshot_resolution (width height : Int)
  | set_white_balance (value : Int)
  | get_white_balance
  | set_exposure_value (value : F)
  | get_exposure_value
  | set_iso (value : Int)
  | get_iso
  | set_shutter_speed (value : String)
  | get_shutter_speed
  | set_video_resolution (width height : Int)
  | get_video_resolution
  | set_framerate (framerate : Int)
  | get_framerate
  | format_storage (storage_id : Int)
  | set_timestamp (timestamp : Int)
  | ir_uart_boson_init (a b : Int)
  | ir_uart_boson_close
  | ir_get_boson_camera_sn
  | ir_get_boson_camera_pn
  | ir_get_boson_color_mode
  | ir_set_boson_color_mode (mode : Int)
  | ir_process_boson_run_ffc
  deriving DecidableEq, Repr

/-- Instrumentation: what a backend call reported back: an outcome code of the primary
backend, a status integer of the thermal backend (0 for success), or nothing for a call
whose return type is void. -/
inductive Reported
  | result (r : mav_camera.Result)
  | status (code : Int)
  | nothing
  deriving DecidableEq, Repr

/-- A backend call counts as accepted when it reported Success (primary backend) or status 0
(thermal backend); a call that reports nothing is accepted. -/
def Reported.accepted : Reported → Bool
  | .result r => decide (r = mav_camera.Result.Success)
  | .status code => decide (code = 0)
  | .nothing => true

/-- Ways in which a member function ends the process instead of returning. -/
inductive Fault
  | null_dereference
  | exception
  | undefined_behaviour
  | out_of_fuel
  deriving DecidableEq, Repr

/-! ## State of `CameraImpl` -/

/-- The data members of `CameraImpl` that camera_impl.cpp reads or writes, plus two
instrumentation fields: `calls` (the backend calls issued so far, oldest first, each with
what the backend reported) and `indeterminate_reads` (how often a local without initialiser
has been read so far).  A null pointer is `none`; a live backend instance is `some` of the
backend's state. -/
structure CameraImpl (β γ F : Type) where
  _plugin_handle : Option Nat
  _mav_camera : Option β
  _current_mode : Camera.Mode
  _framerate : Int
  _settings : List Camera.Setting
  _status : Camera.Status F
  _start_video_time : Nat
  _current_storage_information : mav_camera.StorageInformation F
  _ir_camera_handle : Option Nat
  _ir_camera : Option γ
  calls : List (BackendCall F × Reported)
  indeterminate_reads : Nat
  deriving DecidableEq

/-- Result of running a member function: a fault, or the returned value and the next
state. -/
abbrev Outcome (β γ F α : Type) : Type := Except Fault (α × CameraImpl β γ F)

/-- Modelled from the spec: the object right after construction.  The constructor
(camera_impl.cpp 44-49) assigns the first four members; camera_impl.h, which declares the
others, is absent: the registry starts empty, the status record zeroed (camera.h gives every
field a `{}` initialiser), the thermal pointers null as the first test of `init_ir_camera`
presumes, and the storage snapshot is whatever `storage0` the backend type default-constructs. -/
def CameraImpl.new {β γ F : Type} (fl : FloatLib F)
    (storage0 : mav_camera.StorageInformation F) : CameraImpl β γ F :=
  { _plugin_handle := none
    _mav_camera := none
    _current_mode := Camera.Mode.Unknown
    _framerate := 30
    _settings := []
    _status :=
      { video_on := false
        photo_interval_on := false
        used_storage_mib := fl.zero
        available_storage_mib := fl.zero
        total_storage_mib := fl.zero
        recording_time_s := fl.zero
        media_folder_name := ""
        storage_status := Camera.Status.StorageStatus.NotAvailable
        storage_id := 0
        storage_type := Camera.Status.StorageType.Unknown }
    _start_video_time := 0
    _current_storage_information := storage0
    _ir_camera_handle := none
    _ir_camera := none
    calls := []
    indeterminate_reads := 0 }

section ops

variable {β γ F : Type}

/-- A call `_mav_camera->f(...)`: a fault when the pointer is null, otherwise the backend
answers, moves to its next state, and the call is recorded with what it reported (`rep`
extracts that from the answer). -/
def callCam {R : Type} (rep : R → Reported) (c : BackendCall F) (f : β → R × β)
    (s : CameraImpl β γ F) : Outcome β γ F R :=
  match s._mav_camera with
  | none => .error Fault.null_dereference
  | some b =>
    .ok ((f b).1,
      { s with _mav_camera := some (f b).2, calls := s.calls ++ [(c, rep (f b).1)] })

/-- A call `_ir_camera->f(...)`: a fault when the pointer is null, otherwise the thermal
backend answers, moves to its next state, and the call is recorded with what it reported. -/
def callIr {R : Type} (rep : R → Reported) (c : BackendCall F) (f : γ → R × γ)
    (s : CameraImpl β γ F) : Outcome β γ F R :=
  match s._ir_camera with
  | none => .error Fault.null_dereference
  | some g =>
    .ok ((f g).1,
      { s with _ir_camera := some (f g).2, calls := s.calls ++ [(c, rep (f g).1)] })

/-- What a getter of the primary backend reported: the outcome code in front of the value. -/
def repGet {A : Type} (r : mav_camera.Result × A) : Reported :=
  Reported.result r.1

/-- What a getter of the thermal backend reported: the status in front of the value. -/
def repIrGet {A : Type} (r : Int × A) : Reported :=
  Reported.status r.1

/-- What a call without a return value reported: nothing. -/
def repVoid (_r : Unit) : Reported :=
  Reported.nothing

/-- The test `result == mav_camera::Result::Success` applied to the outcome of a call. -/
def isSuccess (x : Outcome β γ F mav_camera.Result) : Outcome β γ F Bool :=
  match x with
  | .error e => .error e
  | .ok (r, s) => .ok (decide (r = mav_camera.Result.Success), s)

/-- Sequencing of two steps: a fault of the first step ends the run, otherwise the second
step continues from the value and the state that the first one produced. -/
def andThen {A B : Type} (x : Outcome β γ F A)
    (k : A → CameraImpl β γ F → Outcome β γ F B) : Outcome β γ F B :=
  match x with
  | .error e => .error e
  | .ok (a, s) => k a s

/-- Member function `CameraImpl::convert_camera_result_to_mav_result` (camera_impl.cpp 763-795). -/
def convert_camera_result_to_mav_result : mav_camera.Result → Camera.Result
  | .Success => .Success
  | .Denied => .Denied
  | .Busy => .Busy
  | .Error => .Error
  | .InProgress => .InProgress
  | .NoSystem => .NoSystem
  | .Timeout => .Timeout
  | .Unknown => .Unknown
  | .WrongArgument => .WrongArgument

/-- Member function `CameraImpl::build_setting` (camera_impl.cpp 549-554): a default-constructed
setting with the id and the option id filled in. -/
def build_setting (name value : String) : Camera.Setting :=
  { setting_id := name
    setting_description := ""
    option := { option_id := value, option_description := "" }
    is_range := false }

/-- The C function `isspace` in the "C" locale. -/
def isspace (c : Char) : Bool :=
  c.toNat = 32 || (9 ≤ c.toNat && c.toNat ≤ 13)

/-- The C++ library function `std::stoi(str)` with base 10: leading white space is skipped,
an optional sign and the longest run of decimal digits are read, what follows is ignored.
`none` stands for the exception it throws: `std::invalid_argument` when there is no digit,
`std::out_of_range` when the value does not fit a 32-bit `int`. -/
def stoi (str : String) : Option Int :=
  let cs := str.toList.dropWhile isspace
  let neg : Bool := cs.head? = some '-'
  let ds := if cs.head? = some '-' ∨ cs.head? = some '+' then cs.tail else cs
  let digits := ds.takeWhile Char.isDigit
  let n : Int := digits.foldl (fun a c => 10 * a + ((c.toNat : Int) - 48)) 0
  let v : Int := if neg then -n else n
  if digits = [] then none
  else if v < -2147483648 ∨ 2147483647 < v then none
  else some v

/-! ## Settings registry: backend dispatch helpers -/

/-- Member function `CameraImpl::set_camera_display_mode` (camera_impl.cpp 556-573). For a mode
outside "0".."3" no call is made and `result` keeps its initial value Unknown. -/
def set_camera_display_mode (W : Deps β γ F) (mode : String) (s : CameraImpl β γ F) :
    Outcome β γ F Bool :=
  if mode = "0" then
    isSuccess (callCam Reported.result (.set_preview_stream_output_type .RGBStreamOnly)
      (fun b => W.cam.set_preview_stream_output_type b .RGBStreamOnly) s)
  else if mode = "1" then
    isSuccess (callCam Reported.result (.set_preview_stream_output_type .InfraredStreamOnly)
      (fun b => W.cam.set_preview_stream_output_type b .InfraredStreamOnly) s)
  else if mode = "2" then
    isSuccess (callCam Reported.result (.set_preview_stream_output_type .MixSideBySide)
      (fun b => W.cam.set_preview_stream_output_type b .MixSideBySide) s)
  else if mode = "3" then
    isSuccess (callCam Reported.result (.set_preview_stream_output_type .MixPIP)
      (fun b => W.cam.set_preview_stream_output_type b .MixPIP) s)
  else .ok (false, s)

/-- Member function `CameraImpl::set_whitebalance_mode` (camera_impl.cpp 607-625). The local
`result` has no initialiser: for a mode outside "0".."5" no call is made, and the function
returns the comparison of the value that happens to be there with Success. -/
def set_whitebalance_mode (W : Deps β γ F) (mode : String) (s : CameraImpl β γ F) :
    Outcome β γ F Bool :=
  if mode = "0" then
    isSuccess (callCam Reported.result (.set_white_balance W.kAutoWhitebalanceValue)
      (fun b => W.cam.set_white_balance b W.kAutoWhitebalanceValue) s)
  else if mode = "1" then
    isSuccess (callCam Reported.result (.set_white_balance 5500)
      (fun b => W.cam.set_white_balance b 5500) s)
  else if mode = "2" then
    isSuccess (callCam Reported.result (.set_white_balance 6500)
      (fun b => W.cam.set_white_balance b 6500) s)
  else if mode = "3" then
    isSuccess (callCam Reported.result (.set_white_balance 7500)
      (fun b => W.cam.set_white_balance b 7500) s)
  else if mode = "4" then
    isSuccess (callCam Reported.result (.set_white_balance 2700)
      (fun b => W.cam.set_white_balance b 2700) s)
  else if mode = "5" then
    isSuccess (callCam Reported.result (.set_white_balance 4000)
      (fun b => W.cam.set_white_balance b 4000) s)
  else
    .ok (decide (W.indeterminate_result s.indeterminate_reads = mav_camera.Result.Success),
      { s with indeterminate_reads := s.indeterminate_reads + 1 })

/-- The width, height and frame rate that `set_video_resolution` selects for an option id
(camera_impl.cpp 730-749); all three stay 0 for an id outside "0".."3". -/
def video_resolution_of (value : String) : Int × Int × Int :=
  if value = "0" then (3840, 2160, 60)
  else if value = "1" then (3840, 2160, 30)
  else if value = "2" then (1920, 1080, 60)
  else if value = "3" then (1920, 1080, 30)
  else (0, 0, 0)

/-- Member function `CameraImpl::set_video_resolution` (camera_impl.cpp 729-761): the resolution
call, then the frame rate call whatever the first one reported; the value returned is the
success of the frame rate call. -/
def set_video_resolution (W : Deps β γ F) (value : String) (s : CameraImpl β γ F) :
    Outcome β γ F Bool :=
  let set_width := (video_resolution_of value).1
  let set_height := (video_resolution_of value).2.1
  let set_framerate := (video_resolution_of value).2.2
  match callCam Reported.result (.set_video_resolution set_width set_height)
      (fun b => W.cam.set_video_resolution b set_width set_height) s with
  | .error e => .error e
  | .ok (_, s1) =>
    isSuccess (callCam Reported.result (.set_framerate set_framerate)
      (fun b => W.cam.set_framerate b set_framerate) s1)

/-- Member function `CameraImpl::set_ir_palette` (camera_impl.cpp 872-879): `std::stoi` runs
first, then the thermal call is made only when the thermal instance is there. -/
def set_ir_palette (W : Deps β γ F) (color_mode : String) (s : CameraImpl β γ F) :
    Outcome β γ F Bool :=
  match stoi color_mode with
  | none => .error Fault.exception
  | some convert_mode =>
    match s._ir_camera with
    | some _ =>
      match callIr Reported.status (.ir_set_boson_color_mode convert_mode)
          (fun g => W.ir.set_boson_color_mode g convert_mode) s with
      | .error e => .error e
      | .ok (result, s1) => .ok (decide (result = 0), s1)
    | none => .ok (false, s)

/-- Member function `CameraImpl::set_ir_FFC` (camera_impl.cpp 881-887). -/
def set_ir_FFC (W : Deps β γ F) (_ignore : String) (s : CameraImpl β γ F) :
    Outcome β γ F Bool :=
  match s._ir_camera with
  | some _ =>
    match callIr Reported.status .ir_process_boson_run_ffc
        (fun g => W.ir.process_boson_run_ffc g) s with
    | .error e => .error e
    | .ok (result, s1) => .ok (decide (result = 0), s1)
  | none => .ok (false, s)

/-- The update loop of `set_setting` (camera_impl.cpp 477-482): every entry whose id equals
the id of `setting` gets the option id and the option description of `setting`. -/
def update_settings (settings : List Camera.Setting) (setting : Camera.Setting) :
    List Camera.Setting :=
  settings.map (fun it =>
    if it.setting_id = setting.setting_id then
      { it with option :=
          { option_id := setting.option.option_id
            option_description := setting.option.option_description } }
    else it)

/-- The dispatch of `set_setting` (camera_impl.cpp 432-474): runs the branch selected by the
setting id and yields the final value of the local `set_success`.  The parameter `set_mode`
is the member function `set_mode`, which the first branch calls. -/
def set_setting_dispatch (W : Deps β γ F)
    (set_mode : Camera.Mode → CameraImpl β γ F → Outcome β γ F Camera.Result)
    (setting : Camera.Setting) (s : CameraImpl β γ F) : Outcome β γ F Bool :=
  if setting.setting_id = kCameraModeName then
    match (if setting.option.option_id = "0" then set_mode .Photo s else set_mode .Video s) with
    | .error e => .error e
    | .ok (_, s1) => .ok (false, s1)
  else if setting.setting_id = kCameraDisplayModeName then
    set_camera_display_mode W setting.option.option_id s
  else if setting.setting_id = kPhotoResolution then
    if setting.option.option_id = "0" then
      isSuccess (callCam Reported.result (.set_snapshot_resolution kSnapshotWidth kSnapshotHeight)
        (fun b => W.cam.set_snapshot_resolution b kSnapshotWidth kSnapshotHeight) s)
    else if setting.option.option_id = "1" then
      isSuccess (callCam Reported.result
        (.set_snapshot_resolution kSnapshotHalfWidth kSnapshotHalfHeight)
        (fun b => W.cam.set_snapshot_resolution b kSnapshotHalfWidth kSnapshotHalfHeight) s)
    else .ok (false, s)
  else if setting.setting_id = kWhitebalanceModeName then
    set_whitebalance_mode W setting.option.option_id s
  else if setting.setting_id = kExposureMode then
    .ok (true, s)
  else if setting.setting_id = kEVName then
    match W.fl.stof setting.option.option_id with
    | none => .error Fault.exception
    | some v => isSuccess (callCam Reported.result (.set_exposure_value v)
        (fun b => W.cam.set_exposure_value b v) s)
  else if setting.setting_id = kISOName then
    match stoi setting.option.option_id with
    | none => .error Fault.exception
    | some v => isSuccess (callCam Reported.result (.set_iso v) (fun b => W.cam.set_iso b v) s)
  else if setting.setting_id = kShutterSpeedName then
    isSuccess (callCam Reported.result (.set_shutter_speed setting.option.option_id)
      (fun b => W.cam.set_shutter_speed b setting.option.option_id) s)
  else if setting.setting_id = kVideoResolution then
    set_video_resolution W setting.option.option_id s
  else if setting.setting_id = kIrCamPalette then
    set_ir_palette W setting.option.option_id s
  else if setting.setting_id = kIrCamFFC then
    set_ir_FFC W setting.option.option_id s
  else .ok (false, s)

/-- Member function `CameraImpl::set_setting` (camera_impl.cpp 429-485) over a given `set_mode`:
the dispatch, then the update loop when `set_success` is true; the value returned is always
Success. -/
def set_setting_with (W : Deps β γ F)
    (set_mode : Camera.Mode → CameraImpl β γ F → Outcome β γ F Camera.Result)
    (setting : Camera.Setting) (s : CameraImpl β γ F) : Outcome β γ F Camera.Result :=
  match set_setting_dispatch W set_mode setting s with
  | .error e => .error e
  | .ok (set_success, s1) =>
    if set_success then
      .ok (Camera.Result.Success, { s1 with _settings := update_settings s1._settings setting })
    else .ok (Camera.Result.Success, s1)

/-- Member function `CameraImpl::set_mode` (camera_impl.cpp 222-245) with a bound on the depth
of the mutual recursion with `set_setting`: `fuel` is the number of nested activations of
`set_mode` that may still be entered. -/
def set_mode_fuel (W : Deps β γ F) :
    Nat → Camera.Mode → CameraImpl β γ F → Outcome β γ F Camera.Result
  | 0, _, _ => .error Fault.out_of_fuel
  | fuel + 1, mode, s =>
    if s._current_mode = mode then .ok (Camera.Result.Success, s)
    else if mode = Camera.Mode.Photo then
      match set_setting_with W (set_mode_fuel W fuel) (build_setting kCameraModeName "0")
          { s with _current_mode := mode } with
      | .error e => .error e
      | .ok (_, s2) =>
        match callCam Reported.result (.set_mode .Photo) (fun b => W.cam.set_mode b .Photo) s2 with
        | .error e => .error e
        | .ok (result, s3) => .ok (convert_camera_result_to_mav_result result, s3)
    else
      match set_setting_with W (set_mode_fuel W fuel) (build_setting kCameraModeName "1")
          { s with _current_mode := mode } with
      | .error e => .error e
      | .ok (_, s2) =>
        match callCam Reported.result (.set_mode .Video) (fun b => W.cam.set_mode b .Video) s2 with
        | .error e => .error e
        | .ok (result, s3) => .ok (convert_camera_result_to_mav_result result, s3)

/-- Member function `CameraImpl::set_mode` (camera_impl.cpp 222-245). Three nested activations
are the most the recursion ever enters (`set_mode_fuel_stable` below), so the bound is never
met. -/
def set_mode (W : Deps β γ F) (mode : Camera.Mode) (s : CameraImpl β γ F) :
    Outcome β γ F Camera.Result :=
  set_mode_fuel W 3 mode s

/-- Member function `CameraImpl::set_setting` (camera_impl.cpp 429-485). -/
def set_setting (W : Deps β γ F) (setting : Camera.Setting) (s : CameraImpl β γ F) :
    Outcome β γ F Camera.Result :=
  set_setting_with W (set_mode W) setting s

/-- The lookup loop of `get_setting` (camera_impl.cpp 489-496): the first entry with the id
of `setting` fills its option; WrongArgument when the loop ends without a match. -/
def get_setting_loop :
    List Camera.Setting → Camera.Setting → Camera.Result × Camera.Setting
  | [], setting => (Camera.Result.WrongArgument, setting)
  | it :: rest, setting =>
    if it.setting_id = setting.setting_id then
      (Camera.Result.Success,
        { setting with option :=
            { option_id := it.option.option_id
              option_description := it.option.option_description } })
    else get_setting_loop rest setting

/-- Member function `CameraImpl::get_setting` (camera_impl.cpp 487-497). -/
def get_setting (setting : Camera.Setting) (s : CameraImpl β γ F) :
    Outcome β γ F (Camera.Result × Camera.Setting) :=
  .ok (get_setting_loop s._settings setting, s)

/-- Member function `CameraImpl::mode` (camera_impl.cpp 259-261). -/
def mode (s : CameraImpl β γ F) : Camera.Mode :=
  s._current_mode

/-- Member function `CameraImpl::current_settings` (camera_impl.cpp 415-417). -/
def current_settings (s : CameraImpl β γ F) : List Camera.Setting :=
  s._settings

/-! ## Registry codecs: reading the current values from the backend -/

/-- Member function `CameraImpl::get_camera_display_mode` (camera_impl.cpp 575-596). When the
query does not succeed the function executes `return 0;`, which builds a `std::string` from
a null pointer. -/
def get_camera_display_mode (W : Deps β γ F) (s : CameraImpl β γ F) : Outcome β γ F String :=
  match callCam repGet .get_preview_stream_output_type
      (fun b => W.cam.get_preview_stream_output_type b) s with
  | .error e => .error e
  | .ok (r, s1) =>
    if r.1 = mav_camera.Result.Success then
      match r.2 with
      | .RGBStreamOnly => .ok ("0", s1)
      | .InfraredStreamOnly => .ok ("1", s1)
      | .MixSideBySide => .ok ("2", s1)
      | .MixPIP => .ok ("3", s1)
    else .error Fault.undefined_behaviour

/-- Member function `CameraImpl::get_whitebalance_mode` (camera_impl.cpp 627-649). -/
def get_whitebalance_mode (W : Deps β γ F) (s : CameraImpl β γ F) : Outcome β γ F String :=
  match callCam repGet .get_white_balance (fun b => W.cam.get_white_balance b) s with
  | .error e => .error e
  | .ok (r, s1) =>
    if r.1 ≠ mav_camera.Result.Success then .ok ("0", s1)
    else if r.2 = W.kAutoWhitebalanceValue then .ok ("0", s1)
    else if r.2 = 5500 then .ok ("1", s1)
    else if r.2 = 6500 then .ok ("2", s1)
    else if r.2 = 7500 then .ok ("3", s1)
    else if r.2 = 2700 then .ok ("4", s1)
    else if r.2 = 4000 then .ok ("5", s1)
    else .ok ("0", s1)

/-- Member function `CameraImpl::get_ev_value` (camera_impl.cpp 651-662). -/
def get_ev_value (W : Deps β γ F) (s : CameraImpl β γ F) : Outcome β γ F String :=
  match callCam repGet .get_exposure_value (fun b => W.cam.get_exposure_value b) s with
  | .error e => .error e
  | .ok (r, s1) =>
    if r.1 ≠ mav_camera.Result.Success then .ok ("0.0", s1)
    else .ok (W.fl.fixed1 r.2, s1)

/-- Member function `CameraImpl::get_iso_value` (camera_impl.cpp 664-671). -/
def get_iso_value (W : Deps β γ F) (s : CameraImpl β γ F) : Outcome β γ F String :=
  match callCam repGet .get_iso (fun b => W.cam.get_iso b) s with
  | .error e => .error e
  | .ok (r, s1) =>
    if r.1 ≠ mav_camera.Result.Success then .ok ("100", s1)
    else .ok (toString r.2, s1)

/-- Member function `CameraImpl::get_shutter_speed_value` (camera_impl.cpp 673-698): a value
with a slash is split at the first slash, both parts go through `std::stof` (which may
throw) and the quotient is printed; a value without a slash is returned as it is. -/
def get_shutter_speed_value (W : Deps β γ F) (s : CameraImpl β γ F) : Outcome β γ F String :=
  match callCam repGet .get_shutter_speed (fun b => W.cam.get_shutter_speed b) s with
  | .error e => .error e
  | .ok (r, s1) =>
    if r.1 ≠ mav_camera.Result.Success then .ok ("0.01", s1)
    else
      let num_str := r.2.toList.takeWhile (fun c => c ≠ '/')
      let rest := r.2.toList.dropWhile (fun c => c ≠ '/')
      if rest = [] then .ok (r.2, s1)
      else
        match W.fl.stof (String.mk num_str), W.fl.stof (String.mk rest.tail) with
        | some numerator, some denominator =>
          .ok (W.fl.to_string (W.fl.div numerator denominator), s1)
        | _, _ => .error Fault.exception

/-- The option id that `get_video_resolution` selects for a reported width, height and frame
rate (camera_impl.cpp 714-726). -/
def video_resolution_id (width height framerate : Int) : String :=
  if width = 3840 ∧ height = 2160 ∧ framerate = 60 then "0"
  else if width = 3840 ∧ height = 2160 ∧ framerate = 30 then "1"
  else if width = 1920 ∧ height = 1080 ∧ framerate = 60 then "2"
  else if width = 1920 ∧ height = 1080 ∧ framerate = 30 then "3"
  else "0"

/-- Member function `CameraImpl::get_video_resolution` (camera_impl.cpp 700-727). -/
def get_video_resolution (W : Deps β γ F) (s : CameraImpl β γ F) : Outcome β γ F String :=
  match callCam repGet .get_video_resolution (fun b => W.cam.get_video_resolution b) s with
  | .error e => .error e
  | .ok (r, s1) =>
    if r.1 ≠ mav_camera.Result.Success then .ok ("0", s1)
    else
      match callCam repGet .get_framerate (fun b => W.cam.get_framerate b) s1 with
      | .error e => .error e
      | .ok (r2, s2) =>
        if r2.1 ≠ mav_camera.Result.Success then .ok ("0", s2)
        else .ok (video_resolution_id r.2.1 r.2.2 r2.2, s2)

/-! ## Backend loader -/

/-- Member function `CameraImpl::close_camera` (camera_impl.cpp 537-547): a live primary
instance is closed and deleted, a held module handle is released. -/
def close_camera (s : CameraImpl β γ F) : CameraImpl β γ F :=
  let s1 : CameraImpl β γ F :=
    match s._mav_camera with
    | some _ =>
      { s with
        _mav_camera := none
        calls := s.calls ++ [(BackendCall.close, Reported.nothing)] }
    | none => s
  { s1 with _plugin_handle := none }

/-- Member function `CameraImpl::init_ir_camera` (camera_impl.cpp 801-858). After the factory
call a null instance is only logged; the next statement calls through the pointer. -/
def init_ir_camera (W : Deps β γ F) (P : Platform β γ) (s : CameraImpl β γ F) :
    Outcome β γ F Bool :=
  match s._ir_camera with
  | some _ => .ok (true, s)
  | none =>
    match P.dlopen BOSON_CAMERA_LIBRARY with
    | none => .ok (false, { s with _ir_camera_handle := none })
    | some h =>
      if P.dlsym h "create_boson_extension_api" = false then
        .ok (false, { s with _ir_camera_handle := none })
      else
        match callIr Reported.status (.ir_uart_boson_init 16 921600)
            (fun g => BosonApi.uart_boson_initialize W.ir g 16 921600)
            { s with _ir_camera_handle := some h,
                     _ir_camera := P.create_boson_extension_api } with
        | .error e => .error e
        | .ok (r1, s1) =>
          if r1 ≠ 0 then .ok (false, { s1 with _ir_camera := none })
          else
            match callIr repIrGet .ir_get_boson_camera_sn
                (fun g => W.ir.get_boson_camera_sn g) s1 with
            | .error e => .error e
            | .ok (r2, s2) =>
              if r2.1 ≠ 0 then .ok (false, { s2 with _ir_camera := none })
              else
                match callIr repIrGet .ir_get_boson_camera_pn
                    (fun g => W.ir.get_boson_camera_pn g) s2 with
                | .error e => .error e
                | .ok (r3, s3) =>
                  if r3.1 ≠ 0 then .ok (false, { s3 with _ir_camera := none })
                  else .ok (true, s3)

/-- The initial mode that `prepare` selects from the value of the environment variable
MAVCAM_INIT_CAMERA_MODE (camera_impl.cpp 87-97): `strncmp(v, "0", 1)` and
`strncmp(v, "1", 1)` compare the first character only. -/
def init_camera_mode (init_camera_mode_env : Option String) : mav_camera.Mode :=
  match init_camera_mode_env with
  | none => mav_camera.Mode.Photo
  | some v =>
    if v.toList.head? = some '0' then mav_camera.Mode.Photo
    else if v.toList.head? = some '1' then mav_camera.Mode.Video
    else mav_camera.Mode.Photo

/-- The options record that `prepare` builds (camera_impl.cpp 82-121). -/
def prepare_options (P : Platform β γ) (s : CameraImpl β γ F) : mav_camera.Options :=
  { preview_drm_output := false
    preview_v4l2_output := false
    preview_weston_output := true
    init_mode := init_camera_mode (P.getenv "MAVCAM_INIT_CAMERA_MODE")
    preview_width := kPreviewWidth
    preview_height :=
      if init_camera_mode (P.getenv "MAVCAM_INIT_CAMERA_MODE") = mav_camera.Mode.Photo then
        kPreviewPhotoHeight
      else kPreviewPhotoHeight
    snapshot_width := kSnapshotHalfWidth
    snapshot_height := kSnapshotHalfHeight
    video_width := kVideoWidth
    video_height := kVideoHeight
    framerate := s._framerate
    debug_calc_fps := false
    store_prefix := P.getenv "MAVCAM_DEFAULT_STORE_PREFIX" }

/-- The statement `_settings.emplace_back(setting)`: the entry is appended, whatever the
registry already holds. -/
def emplace_back (setting : Camera.Setting) (s : CameraImpl β γ F) : CameraImpl β γ F :=
  { s with _settings := s._settings ++ [setting] }

/-- The thermal entries that `prepare` adds when `init_ir_camera` reported true
(camera_impl.cpp 159-165).  The colour mode printed is what the thermal backend wrote
through the out pointer; its status is not looked at. -/
def prepare_ir_settings (W : Deps β γ F) (s : CameraImpl β γ F) :
    Outcome β γ F Camera.Result :=
  andThen (callIr repIrGet .ir_get_boson_color_mode (fun g => W.ir.get_boson_color_mode g) s)
    fun color_mode s1 =>
  .ok (Camera.Result.Success,
    emplace_back (build_setting kIrCamFFC "0")
      (emplace_back (build_setting kIrCamPalette (toString color_mode.2)) s1))

/-- The part of `prepare` after the primary instance exists (camera_impl.cpp 80-172). -/
def prepare_configure (W : Deps β γ F) (P : Platform β γ) (s : CameraImpl β γ F) :
    Outcome β γ F Camera.Result :=
  andThen (callCam repVoid (.set_log_path "/data/camera/qcom_cam.log")
    (fun b => ((), W.cam.set_log_path b "/data/camera/qcom_cam.log")) s) fun _ s0 =>
  andThen (callCam Reported.result (.open_ (prepare_options P s0))
    (fun b => W.cam.open_ b (prepare_options P s0)) s0) fun _ s1 =>
  andThen (callCam repVoid .subscribe_storage_information
    (fun b => ((), W.cam.subscribe_storage_information b))
    (if (prepare_options P s0).init_mode = mav_camera.Mode.Photo then
      emplace_back (build_setting kCameraModeName "0") s1
    else emplace_back (build_setting kCameraModeName "1") s1)) fun _ s2 =>
  andThen (get_camera_display_mode W s2) fun display_mode s3 =>
  andThen (get_whitebalance_mode W
    (emplace_back (build_setting kPhotoResolution "1")
      (emplace_back (build_setting kCameraDisplayModeName display_mode) s3)))
    fun wb_mode s4 =>
  andThen (get_ev_value W
    (emplace_back (build_setting kExposureMode "0")
      (emplace_back (build_setting kWhitebalanceModeName wb_mode) s4))) fun ev_value s5 =>
  andThen (get_iso_value W (emplace_back (build_setting kEVName ev_value) s5))
    fun iso_value s6 =>
  andThen (get_shutter_speed_value W (emplace_back (build_setting kISOName iso_value) s6))
    fun shutter_speed_value s7 =>
  andThen (get_video_resolution W
    (emplace_back (build_setting kVideoFormat "1")
      (emplace_back (build_setting kShutterSpeedName shutter_speed_value) s7)))
    fun video_resolution s8 =>
  andThen (init_ir_camera W P (emplace_back (build_setting kVideoResolution video_resolution) s8))
    fun ir_result s9 =>
  if ir_result then prepare_ir_settings W s9
  else .ok (Camera.Result.Success, s9)

/-- Member function `CameraImpl::prepare` (camera_impl.cpp 53-172). -/
def prepare (W : Deps β γ F) (P : Platform β γ) (s : CameraImpl β γ F) :
    Outcome β γ F Camera.Result :=
  match P.dlopen QCOM_CAMERA_LIBERAY with
  | none => .ok (Camera.Result.Error, { close_camera s with _plugin_handle := none })
  | some h =>
    if P.dlsym h "create_qcom_camera" = false then
      .ok (Camera.Result.Error, { close_camera s with _plugin_handle := none })
    else
      match P.create_qcom_camera with
      | none =>
        .ok (Camera.Result.Error,
          { close_camera s with _plugin_handle := none, _mav_camera := none })
      | some b0 =>
        prepare_configure W P
          { close_camera s with _plugin_handle := some h, _mav_camera := some b0 }

/-- Member function `CameraImpl::reset_settings` (camera_impl.cpp 510-527). -/
def reset_settings (W : Deps β γ F) (s : CameraImpl β γ F) : Outcome β γ F Camera.Result :=
  andThen (set_mode W Camera.Mode.Photo s) fun _ s0 =>
  andThen (set_camera_display_mode W "0" s0) fun _ s1 =>
  andThen (set_setting W (build_setting kCameraDisplayModeName "0") s1) fun _ s2 =>
  andThen (set_whitebalance_mode W "0" s2) fun _ s3 =>
  andThen (set_setting W (build_setting kWhitebalanceModeName "0") s3) fun _ s4 =>
  andThen (set_setting W (build_setting "CAM_EXPMODE" "0") s4) fun _ s5 =>
  andThen (set_setting W (build_setting "CAM_EV" "0") s5) fun _ s6 =>
  andThen (set_setting W (build_setting "CAM_ISO" "125") s6) fun _ s7 =>
  andThen (set_setting W (build_setting "CAM_SHUTTERSPD" "1/100") s7) fun _ s8 =>
  andThen (set_setting W (build_setting "CAM_VIDFMT" "1") s8) fun _ s9 =>
  andThen (set_setting W (build_setting "CAM_VIDRES" "0") s9) fun _ s10 =>
  .ok (Camera.Result.Success, s10)

/-! ## The remaining facade operations -/

/-- Member function `CameraImpl::take_photo` (camera_impl.cpp 174-177). -/
def take_photo (W : Deps β γ F) (s : CameraImpl β γ F) : Outcome β γ F Camera.Result :=
  match callCam Reported.result .take_photo (fun b => W.cam.take_photo b) s with
  | .error e => .error e
  | .ok (result, s1) => .ok (convert_camera_result_to_mav_result result, s1)

/-- Member function `CameraImpl::start_photo_interval` (camera_impl.cpp 179-182). -/
def start_photo_interval (_interval_s : F) (s : CameraImpl β γ F) :
    Outcome β γ F Camera.Result :=
  .ok (Camera.Result.ProtocolUnsupported, s)

/-- Member function `CameraImpl::stop_photo_interval` (camera_impl.cpp 184-187). -/
def stop_photo_interval (s : CameraImpl β γ F) : Outcome β γ F Camera.Result :=
  .ok (Camera.Result.ProtocolUnsupported, s)

/-- Member function `CameraImpl::start_video` (camera_impl.cpp 189-198); `now` is the reading of
`std::chrono::steady_clock::now()`, in nanoseconds. -/
def start_video (W : Deps β γ F) (now : Nat) (s : CameraImpl β γ F) :
    Outcome β γ F Camera.Result :=
  match callCam Reported.result .start_video (fun b => W.cam.start_video b) s with
  | .error e => .error e
  | .ok (result, s1) =>
    if convert_camera_result_to_mav_result result = Camera.Result.Success then
      .ok (convert_camera_result_to_mav_result result,
        { s1 with _status := { s1._status with video_on := true }, _start_video_time := now })
    else .ok (convert_camera_result_to_mav_result result, s1)

/-- Member function `CameraImpl::stop_video` (camera_impl.cpp 200-210). -/
def stop_video (W : Deps β γ F) (s : CameraImpl β γ F) : Outcome β γ F Camera.Result :=
  match callCam Reported.result .stop_video (fun b => W.cam.stop_video b) s with
  | .error e => .error e
  | .ok (result, s1) =>
    if convert_camera_result_to_mav_result result = Camera.Result.Success then
      .ok (convert_camera_result_to_mav_result result,
        { s1 with _status := { s1._status with video_on := false } })
    else .ok (convert_camera_result_to_mav_result result, s1)

/-- Member function `CameraImpl::start_video_streaming` (camera_impl.cpp 212-215). -/
def start_video_streaming (_stream_id : Int) (s : CameraImpl β γ F) :
    Outcome β γ F Camera.Result :=
  .ok (Camera.Result.ProtocolUnsupported, s)

/-- Member function `CameraImpl::stop_video_streaming` (camera_impl.cpp 217-220). -/
def stop_video_streaming (_stream_id : Int) (s : CameraImpl β γ F) :
    Outcome β γ F Camera.Result :=
  .ok (Camera.Result.ProtocolUnsupported, s)

/-- Member function `CameraImpl::list_photos` (camera_impl.cpp 247-252). -/
def list_photos (_photos_range : Camera.PhotosRange) (s : CameraImpl β γ F) :
    Outcome β γ F (Camera.Result × List (Camera.CaptureInfo F)) :=
  .ok ((Camera.Result.ProtocolUnsupported, []), s)

/-- Member function `CameraImpl::select_camera` (camera_impl.cpp 505-508). -/
def select_camera (_camera_id : Int) (s : CameraImpl β γ F) : Outcome β γ F Camera.Result :=
  .ok (Camera.Result.ProtocolUnsupported, s)

/-- Member function `CameraImpl::format_storage` (camera_impl.cpp 499-503). -/
def format_storage (W : Deps β γ F) (storage_id : Int) (s : CameraImpl β γ F) :
    Outcome β γ F Camera.Result :=
  match callCam Reported.result (.format_storage storage_id)
      (fun b => W.cam.format_storage b storage_id) s with
  | .error e => .error e
  | .ok (result, s1) => .ok (convert_camera_result_to_mav_result result, s1)

/-- Member function `CameraImpl::set_timestamp` (camera_impl.cpp 529-535). -/
def set_timestamp (W : Deps β γ F) (timestamp : Int) (s : CameraImpl β γ F) :
    Outcome β γ F Camera.Result :=
  match s._mav_camera with
  | some _ =>
    match callCam repVoid (.set_timestamp timestamp)
        (fun b => ((), W.cam.set_timestamp b timestamp)) s with
    | .error e => .error e
    | .ok (_, s1) => .ok (Camera.Result.Success, s1)
  | none => .ok (Camera.Result.Success, s)

/-- The capability flags that `information` appends (camera_impl.cpp 306-309). -/
def information_cap_flags : List Camera.Information.CameraCapFlags :=
  [Camera.Information.CameraCapFlags.CaptureImage,
    Camera.Information.CameraCapFlags.CaptureVideo,
    Camera.Information.CameraCapFlags.HasModes,
    Camera.Information.CameraCapFlags.HasVideoStream]

/-- The record that `information` fills when the query succeeded
(camera_impl.cpp 279-290). -/
def information_of (in_info : mav_camera.Information F) : Camera.Information F :=
  { vendor_name := "Aeroratech"
    model_name := "D64TR"
    firmware_version := "0.6.0"
    focal_length_mm := in_info.focal_length_mm
    horizontal_sensor_size_mm := in_info.horizontal_sensor_size_mm
    vertical_sensor_size_mm := in_info.vertical_sensor_size_mm
    horizontal_resolution_px := in_info.horizontal_resolution_px
    vertical_resolution_px := in_info.vertical_resolution_px
    lens_id := in_info.lens_id
    definition_file_version := 5
    definition_file_uri := "mftp://definition/D64TR.xml"
    camera_cap_flags := information_cap_flags }

/-- The record that `information` fills when there is no instance or the query did not
succeed (camera_impl.cpp 293-303). -/
def information_fallback (fl : FloatLib F) : Camera.Information F :=
  { vendor_name := "Unknown"
    model_name := "Unknown"
    firmware_version := "0.0.0"
    focal_length_mm := fl.zero
    horizontal_sensor_size_mm := fl.zero
    vertical_sensor_size_mm := fl.zero
    horizontal_resolution_px := 0
    vertical_resolution_px := 0
    lens_id := 0
    definition_file_version := 0
    definition_file_uri := ""
    camera_cap_flags := information_cap_flags }

/-- Member function `CameraImpl::information` (camera_impl.cpp 270-312). -/
def information (W : Deps β γ F) (s : CameraImpl β γ F) :
    Outcome β γ F (Camera.Information F) :=
  match s._mav_camera with
  | some _ =>
    match callCam repGet .get_information (fun b => W.cam.get_information b) s with
    | .error e => .error e
    | .ok (r, s1) =>
      if r.1 = mav_camera.Result.Success then .ok (information_of r.2, s1)
      else .ok (information_fallback W.fl, s1)
  | none => .ok (information_fallback W.fl, s)

/-- The first switch of `status` (camera_impl.cpp 364-377). -/
def convert_storage_status :
    mav_camera.StorageInformation.StorageStatus → Camera.Status.StorageStatus
  | .Formatted => .Formatted
  | .Unformatted => .Unformatted
  | .NotAvailable => .NotAvailable
  | .NotSupported => .NotSupported

/-- The second switch of `status` (camera_impl.cpp 379-398). -/
def convert_storage_type : mav_camera.StorageType → Camera.Status.StorageType
  | .Hd => .Hd
  | .Microsd => .Microsd
  | .Other => .Other
  | .Sd => .Sd
  | .Unknown => .Unknown
  | .UsbStick => .UsbStick

/-- Member function `CameraImpl::status` (camera_impl.cpp 359-408); `now` is the reading of
`std::chrono::steady_clock::now()`, in nanoseconds, and the recording time is the difference
to the start time cast to whole seconds. The function writes the mutable member `_status`
and returns it. -/
def status (W : Deps β γ F) (now : Nat) (s : CameraImpl β γ F) :
    Outcome β γ F (Camera.Status F) :=
  let st : Camera.Status F :=
    { s._status with
      available_storage_mib := s._current_storage_information.available_storage_mib
      total_storage_mib := s._current_storage_information.total_storage_mib
      storage_id := s._current_storage_information.storage_id
      storage_status := convert_storage_status s._current_storage_information.storage_status
      storage_type := convert_storage_type s._current_storage_information.storage_type
      recording_time_s :=
        if s._status.video_on then
          W.fl.ofInt (Int.tdiv ((now : Int) - (s._start_video_time : Int)) 1000000000)
        else W.fl.zero }
  .ok (st, { s with _status := st })

/-- The storage subscription callback that `prepare` registers (camera_impl.cpp 134-138):
the pushed snapshot replaces the stored one. -/
def storage_information_callback (storage_information : mav_camera.StorageInformation F)
    (s : CameraImpl β γ F) : CameraImpl β γ F :=
  { s with _current_storage_information := storage_information }

end ops

/-! ## Concrete backends and platforms, used to evaluate the embedding -/

/-- A small stand-in for the floating point library over the integers: `stof` reads an
integer the way `stoi` does, printing is decimal, division is integer division. -/
def intFloat : FloatLib Int :=
  { zero := 0
    ofInt := fun n => n
    stof := stoi
    fixed1 := fun v => toString v
    div := fun a b => a / b
    to_string := fun v => toString v }

/-- A stateless primary backend driven by a policy: every call reports the outcome code that
`policy` assigns to it; the getters report fixed values (RGB preview, white balance 5500,
exposure value 0, ISO 100, shutter speed "1/100", 3840x2160 at frame rate 30). -/
def policyCam (policy : BackendCall Int → mav_camera.Result) : MavCamera Unit Int :=
  { set_log_path := fun b _ => b
    open_ := fun b o => (policy (.open_ o), b)
    close := fun b => b
    subscribe_storage_information := fun b => b
    take_photo := fun b => (policy .take_photo, b)
    start_video := fun b => (policy .start_video, b)
    stop_video := fun b => (policy .stop_video, b)
    set_mode := fun b m => (policy (.set_mode m), b)
    get_information := fun b =>
      ((policy .get_information,
        { focal_length_mm := 0
          horizontal_sensor_size_mm := 0
          vertical_sensor_size_mm := 0
          horizontal_resolution_px := 0
          vertical_resolution_px := 0
          lens_id := 0 }), b)
    get_preview_resolution := fun b => ((policy .get_preview_resolution, 1920, 1440), b)
    set_preview_stream_output_type := fun b t => (policy (.set_preview_stream_output_type t), b)
    get_preview_stream_output_type := fun b =>
      ((policy .get_preview_stream_output_type,
        mav_camera.PreivewStreamOutputType.RGBStreamOnly), b)
    set_snapshot_resolution := fun b w h => (policy (.set_snapshot_resolution w h), b)
    set_white_balance := fun b v => (policy (.set_white_balance v), b)
    get_white_balance := fun b => ((policy .get_white_balance, 5500), b)
    set_exposure_value := fun b v => (policy (.set_exposure_value v), b)
    get_exposure_value := fun b => ((policy .get_exposure_value, 0), b)
    set_iso := fun b v => (policy (.set_iso v), b)
    get_iso := fun b => ((policy .get_iso, 100), b)
    set_shutter_speed := fun b v => (policy (.set_shutter_speed v), b)
    get_shutter_speed := fun b => ((policy .get_shutter_speed, "1/100"), b)
    set_video_resolution := fun b w h => (policy (.set_video_resolution w h), b)
    get_video_resolution := fun b => ((policy .get_video_resolution, 3840, 2160), b)
    set_framerate := fun b v => (policy (.set_framerate v), b)
    get_framerate := fun b => ((policy .get_framerate, 30), b)
    format_storage := fun b i => (policy (.format_storage i), b)
    set_timestamp := fun b _ => b }

/-- A stateless thermal backend: every entry returns the status `code`; the colour mode it
reports is 3. -/
def constIr (code : Int) : BosonApi Unit :=
  { uart_boson_initialize := fun g _ _ => (code, g)
    uart_boson_close := fun g => g
    get_boson_camera_sn := fun g => ((code, 1234), g)
    get_boson_camera_pn := fun g => ((code, "PN"), g)
    get_boson_color_mode := fun g => ((code, 3), g)
    set_boson_color_mode := fun g _ => (code, g)
    process_boson_run_ffc := fun g => (code, g) }

/-- Both backends accept every call.  In this world and in the following ones a read of an
uninitialised result finds Unknown, unless the description says otherwise. -/
def acceptAll : Deps Unit Unit Int :=
  { cam := policyCam (fun _ => mav_camera.Result.Success)
    ir := constIr 0
    fl := intFloat
    kAutoWhitebalanceValue := -1
    indeterminate_result := fun _ => mav_camera.Result.Unknown }

/-- The primary backend answers every query with Success and rejects every other call with
Error; the thermal backend rejects every call. -/
def rejectSetters : Deps Unit Unit Int :=
  { cam := policyCam (fun c =>
      match c with
      | .get_information => mav_camera.Result.Success
      | .get_preview_resolution => mav_camera.Result.Success
      | .get_preview_stream_output_type => mav_camera.Result.Success
      | .get_white_balance => mav_camera.Result.Success
      | .get_exposure_value => mav_camera.Result.Success
      | .get_iso => mav_camera.Result.Success
      | .get_shutter_speed => mav_camera.Result.Success
      | .get_video_resolution => mav_camera.Result.Success
      | .get_framerate => mav_camera.Result.Success
      | _ => mav_camera.Result.Error)
    ir := constIr 1
    fl := intFloat
    kAutoWhitebalanceValue := -1
    indeterminate_result := fun _ => mav_camera.Result.Unknown }

/-- The primary backend rejects the video resolution call with Error and accepts every other
call. -/
def rejectResolution : Deps Unit Unit Int :=
  { cam := policyCam (fun c =>
      match c with
      | .set_video_resolution _ _ => mav_camera.Result.Error
      | _ => mav_camera.Result.Success)
    ir := constIr 0
    fl := intFloat
    kAutoWhitebalanceValue := -1
    indeterminate_result := fun _ => mav_camera.Result.Unknown }

/-- A platform on which both modules open, both factory symbols resolve and both factories
yield an instance; no environment variable is set. -/
def platformBoth : Platform Unit Unit :=
  { dlopen := fun _ => some 1
    dlsym := fun _ _ => true
    create_qcom_camera := some ()
    create_boson_extension_api := some ()
    getenv := fun _ => none }

/-- A platform on which the primary module loads and the thermal module cannot be opened. -/
def platformNoThermal : Platform Unit Unit :=
  { dlopen := fun name => if name = QCOM_CAMERA_LIBERAY then some 1 else none
    dlsym := fun _ _ => true
    create_qcom_camera := some ()
    create_boson_extension_api := none
    getenv := fun _ => none }

/-- A platform on which the primary module loads, the thermal module opens and its factory
symbol resolves, and the thermal factory yields no instance. -/
def platformNullThermal : Platform Unit Unit :=
  { dlopen := fun _ => some 1
    dlsym := fun _ _ => true
    create_qcom_camera := some ()
    create_boson_extension_api := none
    getenv := fun _ => none }

/-- A storage snapshot to construct the object with. -/
def storage0 : mav_camera.StorageInformation Int :=
  { available_storage_mib := 0
    total_storage_mib := 0
    storage_id := 0
    storage_status := mav_camera.StorageInformation.StorageStatus.NotAvailable
    storage_type := mav_camera.StorageType.Unknown }

/-- The object right after construction, over the concrete backends. -/
def fresh : CameraImpl Unit Unit Int :=
  CameraImpl.new intFloat storage0

/-- The calls that were issued between an earlier state and a later one. -/
def issued {β γ F : Type} (s s1 : CameraImpl β γ F) : List (BackendCall F × Reported) :=
  s1.calls.drop s.calls.length

/-- The option id that `get_setting` reports for a setting id, and its result code. -/
def lookup {β γ F : Type} (id : String) (s : CameraImpl β γ F) : Camera.Result × String :=
  ((get_setting_loop s._settings (build_setting id "")).1,
    (get_setting_loop s._settings (build_setting id "")).2.option.option_id)

/-- The state that a run ended in, or `d` when the run ended in a fault. -/
def afterOk {β γ F A : Type} (o : Outcome β γ F A) (d : CameraImpl β γ F) :
    CameraImpl β γ F :=
  match o with
  | .ok (_, s) => s
  | .error _ => d

/-- The object after `prepare` with an accepting primary backend and a thermal module that
cannot be opened. -/
def prepared : CameraImpl Unit Unit Int :=
  afterOk (prepare acceptAll platformNoThermal fresh) fresh

/-- The object after `prepare` with a primary backend that answers the queries and rejects
everything else, and a thermal module that cannot be opened. -/
def preparedRejecting : CameraImpl Unit Unit Int :=
  afterOk (prepare rejectSetters platformNoThermal fresh) fresh

/-- The number of mode-switch calls (`_mav_camera->set_mode`) in a list of recorded calls. -/
def mode_switch_calls {F : Type} (calls : List (BackendCall F × Reported)) : Nat :=
  (calls.filter (fun c =>
    match c.1 with
    | .set_mode _ => true
    | _ => false)).length

/-- The eleven setting ids that the dispatch of `set_setting` recognises
(camera_impl.cpp 434-470). -/
def dispatched_ids : List String :=
  [kCameraModeName, kCameraDisplayModeName, kPhotoResolution, kWhitebalanceModeName,
    kExposureMode, kEVName, kISOName, kShutterSpeedName, kVideoResolution, kIrCamPalette,
    kIrCamFFC]

/-- The backend mode that corresponds to the facade modes Photo and Video; `set_mode` takes
its second branch, the one of Video, for every mode other than Photo
(camera_impl.cpp 232-242). -/
def backend_mode : Camera.Mode → mav_camera.Mode
  | .Photo => mav_camera.Mode.Photo
  | _ => mav_camera.Mode.Video

/-! ## Specification vocabulary -/

/-- The acceptance of the last call of a list of recorded calls, or `e` when the list is
empty. -/
def lastAccepted {F : Type} (new : List (BackendCall F × Reported)) (e : Bool) : Bool :=
  new.foldl (fun _ c => c.2.accepted) e

/-- A run from `s` to `s1` that leaves the registry untouched and issues exactly the calls
`new`. -/
def Frame {β γ F : Type} (s s1 : CameraImpl β γ F) (new : List (BackendCall F × Reported)) :
    Prop :=
  s1._settings = s._settings ∧ s1.calls = s.calls ++ new

/-- What one run of a dispatch branch of `set_setting` leaves behind: the registry is
untouched, and the flag `b` is the acceptance of the last call issued, or `e` when no call
was issued. -/
def Post {β γ F : Type} (s s1 : CameraImpl β γ F) (b e : Bool) : Prop :=
  ∃ new : List (BackendCall F × Reported), Frame s s1 new ∧ b = lastAccepted new e

/-! ## Further concrete inputs and vocabulary -/

/-- A platform like `platformNoThermal` on which the environment variable
MAVCAM_INIT_CAMERA_MODE is set to "1". -/
def platformVideoInit : Platform Unit Unit :=
  { dlopen := fun name => if name = QCOM_CAMERA_LIBERAY then some 1 else none
    dlsym := fun _ _ => true
    create_qcom_camera := some ()
    create_boson_extension_api := none
    getenv := fun name => if name = "MAVCAM_INIT_CAMERA_MODE" then some "1" else none }

/-- The primary backend accepts every call; every entry of the thermal backend returns the
failure status 1. -/
def thermalFailing : Deps Unit Unit Int :=
  { cam := policyCam (fun _ => mav_camera.Result.Success)
    ir := constIr 1
    fl := intFloat
    kAutoWhitebalanceValue := -1
    indeterminate_result := fun _ => mav_camera.Result.Unknown }

/-- The object after `prepare` with an accepting primary backend, the initial mode set to
Video through the environment, and a thermal module that cannot be opened. -/
def preparedVideo : CameraImpl Unit Unit Int :=
  afterOk (prepare acceptAll platformVideoInit fresh) fresh

/-- The object after two successful runs of `prepare` in a row. -/
def preparedTwice : CameraImpl Unit Unit Int :=
  afterOk (prepare acceptAll platformNoThermal prepared) fresh

/-- The setting ids of the registry, in registry order. -/
def setting_ids {β γ F : Type} (s : CameraImpl β γ F) : List String :=
  s._settings.map (fun it => it.setting_id)

/-- The object holds a primary backend instance (`_mav_camera` is not null). -/
def Live {β γ F : Type} (s : CameraImpl β γ F) : Prop :=
  ∃ b, s._mav_camera = some b

/-- The run returns, without a fault, and the state it ends in holds a primary backend
instance. -/
def ReturnsLive {β γ F A : Type} (o : Outcome β γ F A) : Prop :=
  ∃ a s1, o = .ok (a, s1) ∧ Live s1

/-- A platform on which the primary module cannot be opened. -/
def platformNoPrimary : Platform Unit Unit :=
  { dlopen := fun _ => none
    dlsym := fun _ _ => true
    create_qcom_camera := some ()
    create_boson_extension_api := some ()
    getenv := fun _ => none }

/-! ## Video stream information -/

/-- Type `Camera::VideoStreamSettings` (camera.h 213-221); the `uint32_t` fields are natural
numbers below 2^32. -/
structure Camera.VideoStreamSettings (F : Type) where
  frame_rate_hz : F
  horizontal_resolution_pix : Nat
  vertical_resolution_pix : Nat
  bit_rate_b_s : Nat
  rotation_deg : Nat
  uri : String
  horizontal_fov_deg : F
  deriving DecidableEq, Repr

/-- Type `Camera::VideoStreamInfo::VideoStreamStatus` (camera.h 246-249). -/
inductive Camera.VideoStreamInfo.VideoStreamStatus
  | NotRunning
  | InProgress
  deriving DecidableEq, Repr

/-- Type `Camera::VideoStreamInfo::VideoStreamSpectrum` (camera.h 263-267). -/
inductive Camera.VideoStreamInfo.VideoStreamSpectrum
  | Unknown
  | VisibleLight
  | Infrared
  deriving DecidableEq, Repr

/-- Type `Camera::VideoStreamInfo` (camera.h 241-281). -/
structure Camera.VideoStreamInfo (F : Type) where
  stream_id : Int
  settings : Camera.VideoStreamSettings F
  status : Camera.VideoStreamInfo.VideoStreamStatus
  spectrum : Camera.VideoStreamInfo.VideoStreamSpectrum
  deriving DecidableEq, Repr

section facade

variable {β γ F : Type}

/-- Member function `CameraImpl::video_stream_info` (camera_impl.cpp 319-342): one stream record
when the primary instance is there, none otherwise.  The preview size goes from `int32_t`
into `uint32_t` fields, the frame rate from `int` into a float. -/
def video_stream_info (W : Deps β γ F) (s : CameraImpl β γ F) :
    Outcome β γ F (List (Camera.VideoStreamInfo F)) :=
  match s._mav_camera with
  | some _ =>
    match callCam repGet .get_preview_resolution
        (fun b => W.cam.get_preview_resolution b) s with
    | .error e => .error e
    | .ok (r, s1) =>
      .ok ([{ stream_id := 1
              settings :=
                { frame_rate_hz := W.fl.ofInt s._framerate
                  horizontal_resolution_pix := (r.2.1 % 4294967296).toNat
                  vertical_resolution_pix := (r.2.2 % 4294967296).toNat
                  bit_rate_b_s := 0
                  rotation_deg := 0
                  uri := "rtsp://192.168.251.1/live"
                  horizontal_fov_deg := W.fl.zero }
              status := Camera.VideoStreamInfo.VideoStreamStatus.InProgress
              spectrum := Camera.VideoStreamInfo.VideoStreamSpectrum.VisibleLight }], s1)
  | none => .ok ([], s)

/-! ## Sequences of facade operations -/

/-- One event on a `CameraImpl` object: a call of one of its public member functions with
its arguments, or (last constructor) a run of the storage callback that `prepare`
registered, with the snapshot the backend pushes.  For `start_video` and `status` the
argument is the reading of the steady clock at the call, in nanoseconds.  The variants with
the ending `_async` hand the same values to a callback of the caller and are left out. -/
inductive FacadeOp (β γ F : Type)
  | prepare (P : Platform β γ)
  | take_photo
  | start_photo_interval (interval_s : F)
  | stop_photo_interval
  | start_video (now : Nat)
  | stop_video
  | start_video_streaming (stream_id : Int)
  | stop_video_streaming (stream_id : Int)
  | set_mode (mode : Camera.Mode)
  | list_photos (photos_range : Camera.PhotosRange)
  | mode
  | information
  | video_stream_info
  | capture_info
  | status (now : Nat)
  | current_settings
  | possible_setting_options
  | set_setting (setting : Camera.Setting)
  | get_setting (setting : Camera.Setting)
  | format_storage (storage_id : Int)
  | select_camera (camera_id : Int)
  | reset_settings
  | set_timestamp (timestamp : Int)
  | storage_information (storage_information : mav_camera.StorageInformation F)

/-- The result code of a run, picked out of the returned value by `f`: `none` for a member
function that returns no result code. -/
def returning {A : Type} (f : A → Option Camera.Result) (o : Outcome β γ F A) :
    Outcome β γ F (Option Camera.Result) :=
  match o with
  | .error e => .error e
  | .ok (a, s) => .ok (f a, s)

/-- One event applied to the object: the member function is run and its result code, when it
returns one, is kept.  The member functions `mode`, `capture_info`, `current_settings` and
`possible_setting_options` (camera_impl.cpp 259-261, 349-351, 415-417, 424-427) only read. -/
def facade_step (W : Deps β γ F) :
    FacadeOp β γ F → CameraImpl β γ F → Outcome β γ F (Option Camera.Result)
  | .prepare P, s => returning some (prepare W P s)
  | .take_photo, s => returning some (take_photo W s)
  | .start_photo_interval interval_s, s => returning some (start_photo_interval interval_s s)
  | .stop_photo_interval, s => returning some (stop_photo_interval s)
  | .start_video now, s => returning some (start_video W now s)
  | .stop_video, s => returning some (stop_video W s)
  | .start_video_streaming stream_id, s => returning some (start_video_streaming stream_id s)
  | .stop_video_streaming stream_id, s => returning some (stop_video_streaming stream_id s)
  | .set_mode m, s => returning some (set_mode W m s)
  | .list_photos photos_range, s => returning (fun x => some x.1) (list_photos photos_range s)
  | .mode, s => .ok (none, s)
  | .information, s => returning (fun _ => none) (information W s)
  | .video_stream_info, s => returning (fun _ => none) (video_stream_info W s)
  | .capture_info, s => .ok (none, s)
  | .status now, s => returning (fun _ => none) (status W now s)
  | .current_settings, s => .ok (none, s)
  | .possible_setting_options, s => .ok (none, s)
  | .set_setting setting, s => returning some (set_setting W setting s)
  | .get_setting setting, s => returning (fun x => some x.1) (get_setting setting s)
  | .format_storage storage_id, s => returning some (format_storage W storage_id s)
  | .select_camera camera_id, s => returning some (select_camera camera_id s)
  | .reset_settings, s => returning some (reset_settings W s)
  | .set_timestamp timestamp, s => returning some (set_timestamp W timestamp s)
  | .storage_information info, s => .ok (none, storage_information_callback info s)

/-- A sequence of events applied one after the other, oldest first; the run yields the log
of the events with the result code each one returned, and ends at the first fault. -/
def facade_run (W : Deps β γ F) :
    List (FacadeOp β γ F) → CameraImpl β γ F →
      Outcome β γ F (List (FacadeOp β γ F × Option Camera.Result))
  | [], s => .ok ([], s)
  | op :: ops, s =>
    match facade_step W op s with
    | .error e => .error e
    | .ok (r, s1) =>
      match facade_run W ops s1 with
      | .error e => .error e
      | .ok (log, s2) => .ok ((op, r) :: log, s2)

/-- A successful call of `start_video` (with the clock reading it took) or of
`stop_video`. -/
inductive VideoCall
  | started (now : Nat)
  | stopped
  deriving DecidableEq, Repr

/-- What a log entry is as a call of `start_video` or `stop_video` that returned Success;
`none` for every other entry. -/
def successful_video_call : FacadeOp β γ F × Option Camera.Result → Option VideoCall
  | (.start_video now, some .Success) => some (VideoCall.started now)
  | (.stop_video, some .Success) => some VideoCall.stopped
  | _ => none

/-- The most recent call among `start_video` and `stop_video` in a log that returned
Success. -/
def last_successful_video :
    List (FacadeOp β γ F × Option Camera.Result) → Option VideoCall
  | [] => none
  | e :: rest =>
    match last_successful_video rest with
    | some c => some c
    | none => successful_video_call e

/-- The snapshot of the most recent storage push in a sequence of events. -/
def last_storage_push : List (FacadeOp β γ F) → Option (mav_camera.StorageInformation F)
  | [] => none
  | op :: rest =>
    match last_storage_push rest with
    | some info => some info
    | none =>
      match op with
      | .storage_information info => some info
      | _ => none

/-- The event is a call of `start_video`, `stop_video` or `status`. -/
def FacadeOp.is_video_op : FacadeOp β γ F → Bool
  | .start_video _ => true
  | .stop_video => true
  | .status _ => true
  | _ => false

/-- The event is a storage push. -/
def FacadeOp.is_storage_push : FacadeOp β γ F → Bool
  | .storage_information _ => true
  | _ => false

/-- The members that only `start_video`, `stop_video` and the storage callback assign have
the same values in both states: the recording flag, the start time of the recording and the
storage snapshot. -/
def Kept (s s1 : CameraImpl β γ F) : Prop :=
  s1._status.video_on = s._status.video_on ∧
    s1._start_video_time = s._start_video_time ∧
    s1._current_storage_information = s._current_storage_information

/-- The registry and the record of backend calls of the later state start with those of the
earlier state. -/
def Extends (s s1 : CameraImpl β γ F) : Prop :=
  (∃ more, s1._settings = s._settings ++ more) ∧ ∃ new, s1.calls = s.calls ++ new

/-- A run that talks to the backends and at most appends to the registry: the current mode
and the members of `Kept` are as before, the registry and the record of calls are
extended. -/
def Grows (s s1 : CameraImpl β γ F) : Prop :=
  Kept s s1 ∧ s1._current_mode = s._current_mode ∧ Extends s s1

/-- The registry frame: the new registry has the entries of the old one in the same places,
each with the same setting id, description and range flag, and an entry whose id is not
`touched` is the same entry. -/
def RegistryFrame (touched : String → Prop) (old new : List Camera.Setting) : Prop :=
  List.Forall₂ (fun a b => b.setting_id = a.setting_id ∧
    b.setting_description = a.setting_description ∧ b.is_range = a.is_range ∧
    (¬ touched a.setting_id → b = a)) old new

/-- A run on the settings path (`set_mode`, `set_setting`, `reset_settings`): the members of
`Kept` are as before, a current mode other than Unknown stays other than Unknown, and the
registry keeps its entries in place. -/
def Retunes (s s1 : CameraImpl β γ F) : Prop :=
  Kept s s1 ∧
    (s._current_mode ≠ Camera.Mode.Unknown → s1._current_mode ≠ Camera.Mode.Unknown) ∧
    RegistryFrame (fun _ => True) s._settings s1._settings

/-- What one event does to the members that the status record is computed from, and to the
current mode. -/
def StepEffect (op : FacadeOp β γ F) (r : Option Camera.Result) (s s1 : CameraImpl β γ F) :
    Prop :=
  (s._current_mode ≠ Camera.Mode.Unknown → s1._current_mode ≠ Camera.Mode.Unknown) ∧
    s1._current_storage_information =
      (match last_storage_push [op] with
        | some info => info
        | none => s._current_storage_information) ∧
    s1._status.video_on =
      (match successful_video_call (op, r) with
        | some (VideoCall.started _) => true
        | some VideoCall.stopped => false
        | none => s._status.video_on) ∧
    s1._start_video_time =
      (match successful_video_call (op, r) with
        | some (VideoCall.started now) => now
        | _ => s._start_video_time)

end facade

/-! ## Concrete inputs for the loader and the recording claims -/

/-- The primary backend rejects every call, queries included, with Error; the thermal
backend rejects every call. -/
def rejectAll : Deps Unit Unit Int :=
  { cam := policyCam (fun _ => mav_camera.Result.Error)
    ir := constIr 1
    fl := intFloat
    kAutoWhitebalanceValue := -1
    indeterminate_result := fun _ => mav_camera.Result.Unknown }

/-- A platform like `platformNoThermal` on which the environment variable
MAVCAM_INIT_CAMERA_MODE has the given value, or is absent for `none`. -/
def platformEnv (value : Option String) : Platform Unit Unit :=
  { dlopen := fun name => if name = QCOM_CAMERA_LIBERAY then some 1 else none
    dlsym := fun _ _ => true
    create_qcom_camera := some ()
    create_boson_extension_api := none
    getenv := fun name => if name = "MAVCAM_INIT_CAMERA_MODE" then value else none }

/-- The primary backend accepts every call except `stop_video`, which it rejects with
Busy. -/
def rejectStop : Deps Unit Unit Int :=
  { cam := policyCam (fun c =>
      match c with
      | .stop_video => mav_camera.Result.Busy
      | _ => mav_camera.Result.Success)
    ir := constIr 0
    fl := intFloat
    kAutoWhitebalanceValue := -1
    indeterminate_result := fun _ => mav_camera.Result.Unknown }

/-- A storage snapshot that differs from `storage0` in every field. -/
def storage1 : mav_camera.StorageInformation Int :=
  { available_storage_mib := 1000
    total_storage_mib := 4000
    storage_id := 1
    storage_status := mav_camera.StorageInformation.StorageStatus.Formatted
    storage_type := mav_camera.StorageType.Microsd }

/-- A second storage snapshot, different from `storage1` in every field. -/
def storage2 : mav_camera.StorageInformation Int :=
  { available_storage_mib := 750
    total_storage_mib := 8000
    storage_id := 2
    storage_status := mav_camera.StorageInformation.StorageStatus.Unformatted
    storage_type := mav_camera.StorageType.Sd }

/-- The value that a run returned, or `d` when the run ended in a fault. -/
def valueOr {β γ F A : Type} (o : Outcome β γ F A) (d : A) : A :=
  match o with
  | .ok (a, _) => a
  | .error _ => d

/-- A sequence of events for the recording claims: `prepare`, a `start_video` at clock
reading 2 s, and a `stop_video`. -/
def videoEvents : List (FacadeOp Unit Unit Int) :=
  [FacadeOp.prepare platformNoThermal, FacadeOp.start_video 2000000000, FacadeOp.stop_video]

/-- The log of `videoEvents` with a backend that rejects `stop_video`. -/
def videoLog : List (FacadeOp Unit Unit Int × Option Camera.Result) :=
  valueOr (facade_run rejectStop videoEvents fresh) []

/-- The object after `videoEvents` with a backend that rejects `stop_video`. -/
def recording : CameraImpl Unit Unit Int :=
  afterOk (facade_run rejectStop videoEvents fresh) fresh

/-- A sequence of events for the storage claims: two pushes that differ in every field, with
a `status` call in between. -/
def storageEvents : List (FacadeOp Unit Unit Int) :=
  [FacadeOp.storage_information storage1, FacadeOp.status 5,
    FacadeOp.storage_information storage2]

/-- The object after `storageEvents`. -/
def pushedTwice : CameraImpl Unit Unit Int :=
  afterOk (facade_run acceptAll storageEvents fresh) fresh

/-- The prepared object after `set_mode(Photo)` with an accepting backend. -/
def preparedPhoto : CameraImpl Unit Unit Int :=
  afterOk (set_mode acceptAll Camera.Mode.Photo prepared) prepared

/-- The object `preparedPhoto` after `set_mode(Unknown)` with an accepting backend. -/
def preparedUnknown : CameraImpl Unit Unit Int :=
  afterOk (set_mode acceptAll Camera.Mode.Unknown preparedPhoto) preparedPhoto

/-- The prepared object after `set_setting(CAM_ISO, "125")` with an accepting backend. -/
def preparedIso : CameraImpl Unit Unit Int :=
  afterOk (set_setting acceptAll (build_setting kISOName "125") prepared) prepared

/-- The prepared object after `reset_settings` with an accepting backend. -/
def preparedReset : CameraImpl Unit Unit Int :=
  afterOk (reset_settings acceptAll prepared) prepared

/-- The object after `prepare` on a platform whose environment sets MAVCAM_INIT_CAMERA_MODE
to "1x". -/
def preparedEnv1x : CameraImpl Unit Unit Int :=
  afterOk (prepare acceptAll (platformEnv (some "1x")) fresh) fresh

/-- The object after `prepare` on a platform whose environment sets MAVCAM_INIT_CAMERA_MODE
to "01". -/
def preparedEnv01 : CameraImpl Unit Unit Int :=
  afterOk (prepare acceptAll (platformEnv (some "01")) fresh) fresh

/-- The object `preparedRejecting` after `set_setting(CAM_VIDRES, "3")` with a backend that
rejects the resolution call and accepts the frame rate call. -/
def retunedResolution : CameraImpl Unit Unit Int :=
  afterOk (set_setting rejectResolution (build_setting kVideoResolution "3") preparedRejecting)
    preparedRejecting

/-- Like `rejectSetters`, and every read of an uninitialised result finds Success. -/
def rejectSettersGarbage : Deps Unit Unit Int :=
  { rejectSetters with indeterminate_result := fun _ => mav_camera.Result.Success }

/-- The object `preparedRejecting` after `set_setting(CAM_WBMODE, "9")` when the read of the
uninitialised result finds Success. -/
def overwrittenWb : CameraImpl Unit Unit Int :=
  afterOk
    (set_setting rejectSettersGarbage (build_setting kWhitebalanceModeName "9")
      preparedRejecting)
    preparedRejecting

/-! ## Lemmas on the dispatch branches -/

section lemmas

variable {β γ F : Type}

theorem lastAccepted_append (n1 n2 : List (BackendCall F × Reported)) (e : Bool) :
    lastAccepted (n1 ++ n2) e = lastAccepted n2 (lastAccepted n1 e) := by
  simp [lastAccepted, List.foldl_append]

theorem lastAccepted_none (new : List (BackendCall F × Reported))
    (h : ∀ c ∈ new, c.2.accepted = false) :
    lastAccepted new false = false := by
  suffices H : ∀ e, e = false → lastAccepted new e = false from H false rfl
  induction new with
  | nil => intro e he; simpa [lastAccepted] using he
  | cons a t ih =>
    intro e _
    have ha : a.2.accepted = false := h a (List.mem_cons_self _ _)
    have : lastAccepted (a :: t) e = lastAccepted t a.2.accepted := rfl
    rw [this]
    exact ih (fun c hc => h c (List.mem_cons_of_mem _ hc)) _ ha

theorem frame_issued (s s1 : CameraImpl β γ F) (new : List (BackendCall F × Reported))
    (h : Frame s s1 new) : issued s s1 = new := by
  simp [issued, h.2]

theorem callCam_frame {R : Type} (rep : R → Reported) (c : BackendCall F) (f : β → R × β)
    (s s1 : CameraImpl β γ F) (r : R) (h : callCam rep c f s = .ok (r, s1)) :
    Frame s s1 [(c, rep r)] := by
  unfold callCam at h
  cases hb : s._mav_camera with
  | none => simp [hb] at h
  | some x =>
    simp [hb] at h
    obtain ⟨h1, h2⟩ := h
    subst h1 h2
    exact ⟨rfl, rfl⟩

theorem callIr_frame {R : Type} (rep : R → Reported) (c : BackendCall F) (f : γ → R × γ)
    (s s1 : CameraImpl β γ F) (r : R) (h : callIr rep c f s = .ok (r, s1)) :
    Frame s s1 [(c, rep r)] := by
  unfold callIr at h
  cases hb : s._ir_camera with
  | none => simp [hb] at h
  | some x =>
    simp [hb] at h
    obtain ⟨h1, h2⟩ := h
    subst h1 h2
    exact ⟨rfl, rfl⟩

theorem post_of_frame (s s0 s1 : CameraImpl β γ F) (n1 : List (BackendCall F × Reported))
    (b e : Bool) (h0 : Frame s s0 n1) (h1 : Post s0 s1 b (lastAccepted n1 e)) :
    Post s s1 b e := by
  obtain ⟨n2, ⟨hs, hc⟩, hb⟩ := h1
  refine ⟨n1 ++ n2, ⟨hs.trans h0.1, ?_⟩, ?_⟩
  · rw [hc, h0.2, List.append_assoc]
  · rw [lastAccepted_append]; exact hb

theorem post_none (s : CameraImpl β γ F) (e : Bool) : Post s s e e :=
  ⟨[], ⟨rfl, by simp⟩, rfl⟩

theorem post_call (c : BackendCall F) (f : β → mav_camera.Result × β)
    (s s1 : CameraImpl β γ F) (b e : Bool)
    (h : isSuccess (callCam Reported.result c f s) = .ok (b, s1)) : Post s s1 b e := by
  unfold isSuccess at h
  split at h
  · simp at h
  · rename_i r s0 hc
    simp at h
    obtain ⟨h1, h2⟩ := h
    subst h2
    exact ⟨_, callCam_frame _ _ _ _ _ _ hc, by simp [lastAccepted, Reported.accepted, h1]⟩

theorem post_display (W : Deps β γ F) (mode : String) (s s1 : CameraImpl β γ F) (b : Bool)
    (h : set_camera_display_mode W mode s = .ok (b, s1)) : Post s s1 b false := by
  unfold set_camera_display_mode at h
  split_ifs at h
  · exact post_call _ _ _ _ _ _ h
  · exact post_call _ _ _ _ _ _ h
  · exact post_call _ _ _ _ _ _ h
  · exact post_call _ _ _ _ _ _ h
  · simp at h; obtain ⟨h1, h2⟩ := h; subst h1 h2; exact post_none _ _

theorem post_wb (W : Deps β γ F) (mode : String) (s s1 : CameraImpl β γ F) (b : Bool)
    (hm : mode ∈ ["0", "1", "2", "3", "4", "5"])
    (h : set_whitebalance_mode W mode s = .ok (b, s1)) : Post s s1 b false := by
  unfold set_whitebalance_mode at h
  split_ifs at h
  · exact post_call _ _ _ _ _ _ h
  · exact post_call _ _ _ _ _ _ h
  · exact post_call _ _ _ _ _ _ h
  · exact post_call _ _ _ _ _ _ h
  · exact post_call _ _ _ _ _ _ h
  · exact post_call _ _ _ _ _ _ h
  · simp_all

theorem wb_outside (W : Deps β γ F) (mode : String) (s : CameraImpl β γ F)
    (hm : mode ∉ ["0", "1", "2", "3", "4", "5"]) :
    set_whitebalance_mode W mode s =
      .ok (decide (W.indeterminate_result s.indeterminate_reads = mav_camera.Result.Success),
        { s with indeterminate_reads := s.indeterminate_reads + 1 }) := by
  simp only [List.mem_cons, List.mem_singleton, List.mem_nil_iff, or_false, not_or] at hm
  obtain ⟨h0, h1, h2, h3, h4, h5⟩ := hm
  unfold set_whitebalance_mode
  rw [if_neg h0, if_neg h1, if_neg h2, if_neg h3, if_neg h4, if_neg h5]

theorem wb_frame (W : Deps β γ F) (mode : String) (s s1 : CameraImpl β γ F) (b : Bool)
    (h : set_whitebalance_mode W mode s = .ok (b, s1)) : ∃ new, Frame s s1 new := by
  by_cases hm : mode ∈ ["0", "1", "2", "3", "4", "5"]
  · obtain ⟨new, hf, _⟩ := post_wb W mode s s1 b hm h
    exact ⟨new, hf⟩
  · rw [wb_outside W mode s hm] at h
    simp at h
    rw [← h.2]
    exact ⟨[], rfl, by simp⟩

theorem post_vidres (W : Deps β γ F) (value : String) (s s1 : CameraImpl β γ F) (b : Bool)
    (h : set_video_resolution W value s = .ok (b, s1)) : Post s s1 b false := by
  unfold set_video_resolution at h
  simp only at h
  split at h
  · simp at h
  · rename_i r s0 hc
    exact post_of_frame _ _ _ _ _ _ (callCam_frame _ _ _ _ _ _ hc) (post_call _ _ _ _ _ _ h)

theorem post_ir_call (c : BackendCall F) (f : γ → Int × γ) (s s1 : CameraImpl β γ F)
    (b e : Bool)
    (h : (match callIr Reported.status c f s with
      | .error err => (.error err : Outcome β γ F Bool)
      | .ok (result, s0) => .ok (decide (result = 0), s0)) = .ok (b, s1)) :
    Post s s1 b e := by
  split at h
  · simp at h
  · rename_i r s0 hc
    simp at h
    obtain ⟨h1, h2⟩ := h
    subst h2
    exact ⟨_, callIr_frame _ _ _ _ _ _ hc, by simp [lastAccepted, Reported.accepted, h1]⟩

theorem post_palette (W : Deps β γ F) (v : String) (s s1 : CameraImpl β γ F) (b : Bool)
    (h : set_ir_palette W v s = .ok (b, s1)) : Post s s1 b false := by
  unfold set_ir_palette at h
  split at h
  · simp at h
  · split at h
    · exact post_ir_call _ _ _ _ _ _ h
    · simp at h; obtain ⟨h1, h2⟩ := h; subst h1 h2; exact post_none _ _

theorem post_ffc (W : Deps β γ F) (v : String) (s s1 : CameraImpl β γ F) (b : Bool)
    (h : set_ir_FFC W v s = .ok (b, s1)) : Post s s1 b false := by
  unfold set_ir_FFC at h
  split at h
  · exact post_ir_call _ _ _ _ _ _ h
  · simp at h; obtain ⟨h1, h2⟩ := h; subst h1 h2; exact post_none _ _

end lemmas

/-! ## Lemmas on `set_setting` and `set_mode` -/

section lemmas

variable {β γ F : Type}

theorem dispatch_other (W : Deps β γ F)
    (sm : Camera.Mode → CameraImpl β γ F → Outcome β γ F Camera.Result)
    (setting : Camera.Setting) (s s1 : CameraImpl β γ F) (b : Bool)
    (hid : setting.setting_id ≠ kCameraModeName)
    (hwb : setting.setting_id = kWhitebalanceModeName →
      setting.option.option_id ∈ ["0", "1", "2", "3", "4", "5"])
    (h : set_setting_dispatch W sm setting s = .ok (b, s1)) :
    Post s s1 b (decide (setting.setting_id = kExposureMode)) := by
  unfold set_setting_dispatch at h
  rw [if_neg hid] at h
  by_cases he : setting.setting_id = kExposureMode
  · have h1 : setting.setting_id ≠ kCameraDisplayModeName := by rw [he]; decide
    have h2 : setting.setting_id ≠ kPhotoResolution := by rw [he]; decide
    have h3 : setting.setting_id ≠ kWhitebalanceModeName := by rw [he]; decide
    rw [if_neg h1, if_neg h2, if_neg h3, if_pos he] at h
    simp at h
    obtain ⟨hb, hs⟩ := h
    subst hb hs
    simpa [he] using post_none s true
  · simp only [he, decide_False]
    rw [if_neg he] at h
    split_ifs at h
    · exact post_display _ _ _ _ _ h
    · exact post_call _ _ _ _ _ _ h
    · exact post_call _ _ _ _ _ _ h
    · simp at h; obtain ⟨hb, hs⟩ := h; subst hb hs; exact post_none _ _
    · exact post_wb _ _ _ _ _ (hwb (by assumption)) h
    · split at h
      · simp at h
      · exact post_call _ _ _ _ _ _ h
    · split at h
      · simp at h
      · exact post_call _ _ _ _ _ _ h
    · exact post_call _ _ _ _ _ _ h
    · exact post_vidres _ _ _ _ _ h
    · exact post_palette _ _ _ _ _ h
    · exact post_ffc _ _ _ _ _ h
    · simp at h; obtain ⟨hb, hs⟩ := h; subst hb hs; exact post_none _ _

theorem dispatch_wb_outside (W : Deps β γ F)
    (sm : Camera.Mode → CameraImpl β γ F → Outcome β γ F Camera.Result)
    (setting : Camera.Setting) (s : CameraImpl β γ F)
    (hw : setting.setting_id = kWhitebalanceModeName)
    (hout : setting.option.option_id ∉ ["0", "1", "2", "3", "4", "5"]) :
    set_setting_dispatch W sm setting s =
      .ok (decide (W.indeterminate_result s.indeterminate_reads = mav_camera.Result.Success),
        { s with indeterminate_reads := s.indeterminate_reads + 1 }) := by
  have h0 : setting.setting_id ≠ kCameraModeName := by rw [hw]; decide
  have h1 : setting.setting_id ≠ kCameraDisplayModeName := by rw [hw]; decide
  have h2 : setting.setting_id ≠ kPhotoResolution := by rw [hw]; decide
  unfold set_setting_dispatch
  rw [if_neg h0, if_neg h1, if_neg h2, if_pos hw]
  exact wb_outside W _ s hout

theorem dispatch_other_frame (W : Deps β γ F)
    (sm : Camera.Mode → CameraImpl β γ F → Outcome β γ F Camera.Result)
    (setting : Camera.Setting) (s s1 : CameraImpl β γ F) (b : Bool)
    (hid : setting.setting_id ≠ kCameraModeName)
    (h : set_setting_dispatch W sm setting s = .ok (b, s1)) : ∃ new, Frame s s1 new := by
  by_cases hwb : setting.setting_id = kWhitebalanceModeName →
      setting.option.option_id ∈ ["0", "1", "2", "3", "4", "5"]
  · obtain ⟨new, hf, _⟩ := dispatch_other W sm setting s s1 b hid hwb h
    exact ⟨new, hf⟩
  · obtain ⟨hw, hout⟩ := Classical.not_imp.mp hwb
    rw [dispatch_wb_outside W sm setting s hw hout] at h
    simp at h
    rw [← h.2]
    exact ⟨[], rfl, by simp⟩

end lemmas

/-! ## Lemmas on the registry lookup and on the computation of `set_mode` -/

section lemmas

variable {β γ F : Type}

theorem get_setting_loop_update (settings : List Camera.Setting) (setting q : Camera.Setting)
    (hq : q.setting_id = setting.setting_id)
    (hex : ∃ it ∈ settings, it.setting_id = setting.setting_id) :
    get_setting_loop (update_settings settings setting) q =
      (Camera.Result.Success, { q with option := setting.option }) := by
  induction settings with
  | nil => simp at hex
  | cons a t ih =>
    by_cases ha : a.setting_id = setting.setting_id
    · simp [update_settings, get_setting_loop, ha, hq]
    · have hex2 : ∃ it ∈ t, it.setting_id = setting.setting_id := by
        obtain ⟨it, hit, hid⟩ := hex
        rcases List.mem_cons.mp hit with h | h
        · exact absurd (h ▸ hid) ha
        · exact ⟨it, h, hid⟩
      have := ih hex2
      simp only [update_settings] at this
      simp [update_settings, get_setting_loop, ha, hq, this]

theorem get_setting_loop_find (settings : List Camera.Setting) (q : Camera.Setting) :
    get_setting_loop settings q =
      match settings.find? (fun it => decide (it.setting_id = q.setting_id)) with
      | some it => (Camera.Result.Success, { q with option := it.option })
      | none => (Camera.Result.WrongArgument, q) := by
  induction settings with
  | nil => simp [get_setting_loop]
  | cons a t ih =>
    by_cases ha : a.setting_id = q.setting_id
    · simp [get_setting_loop, List.find?, ha]
    · simp [get_setting_loop, List.find?, ha, ih]

theorem set_mode_video (W : Deps β γ F) (s : CameraImpl β γ F) (b : β)
    (hb : s._mav_camera = some b) (hm : s._current_mode ≠ Camera.Mode.Video) :
    set_mode W Camera.Mode.Video s =
      .ok (convert_camera_result_to_mav_result (W.cam.set_mode b mav_camera.Mode.Video).1,
        { s with
          _current_mode := Camera.Mode.Video
          _mav_camera := some (W.cam.set_mode b mav_camera.Mode.Video).2
          calls := s.calls ++ [(BackendCall.set_mode mav_camera.Mode.Video,
            Reported.result (W.cam.set_mode b mav_camera.Mode.Video).1)] }) := by
  simp [set_mode, set_mode_fuel, hm, set_setting_with, set_setting_dispatch, build_setting,
    callCam, hb, kCameraModeName]

theorem set_mode_photo (W : Deps β γ F) (s : CameraImpl β γ F) (b : β)
    (hb : s._mav_camera = some b) (hm : s._current_mode ≠ Camera.Mode.Photo) :
    set_mode W Camera.Mode.Photo s =
      .ok (convert_camera_result_to_mav_result (W.cam.set_mode b mav_camera.Mode.Photo).1,
        { s with
          _current_mode := Camera.Mode.Photo
          _mav_camera := some (W.cam.set_mode b mav_camera.Mode.Photo).2
          calls := s.calls ++ [(BackendCall.set_mode mav_camera.Mode.Photo,
            Reported.result (W.cam.set_mode b mav_camera.Mode.Photo).1)] }) := by
  simp [set_mode, set_mode_fuel, hm, set_setting_with, set_setting_dispatch, build_setting,
    callCam, hb, kCameraModeName]

theorem set_mode_same (W : Deps β γ F) (m : Camera.Mode) (s : CameraImpl β γ F)
    (h : s._current_mode = m) : set_mode W m s = .ok (Camera.Result.Success, s) := by
  simp [set_mode, set_mode_fuel, h]

theorem set_mode_null (W : Deps β γ F) (m : Camera.Mode) (s : CameraImpl β γ F)
    (hb : s._mav_camera = none) (hm : s._current_mode ≠ m)
    (ht : m = Camera.Mode.Photo ∨ m = Camera.Mode.Video) :
    set_mode W m s = .error Fault.null_dereference := by
  rcases ht with ht | ht <;> subst ht <;>
    simp [set_mode, set_mode_fuel, hm, set_setting_with, set_setting_dispatch, build_setting,
      callCam, hb, kCameraModeName]

theorem init_ir_camera_false (W : Deps β γ F) (P : Platform β γ) (s s1 : CameraImpl β γ F)
    (h : init_ir_camera W P s = .ok (false, s1)) : s1._ir_camera = none := by
  unfold init_ir_camera at h
  split at h
  · simp at h
  · rename_i hnull
    split at h
    · simp at h; rw [← h]; exact hnull
    · split_ifs at h
      · simp at h; rw [← h]; exact hnull
      · split at h
        · simp at h
        · split_ifs at h
          · simp at h; rw [← h]
          · split at h
            · simp at h
            · split_ifs at h
              · simp at h; rw [← h]
              · split at h
                · simp at h
                · split_ifs at h
                  · simp at h; rw [← h]
                  · simp at h

theorem set_mode_fuel_stable (W : Deps β γ F) (n : Nat) (m : Camera.Mode)
    (s : CameraImpl β γ F) : set_mode_fuel W (n + 3) m s = set_mode_fuel W 3 m s := by
  by_cases h : s._current_mode = m
  · simp [set_mode_fuel, h]
  · cases m <;> cases hb : s._mav_camera <;>
      simp [set_mode_fuel, h, set_setting_with, set_setting_dispatch, build_setting, callCam,
        hb, kCameraModeName]

theorem set_mode_never_out_of_fuel (W : Deps β γ F) (m : Camera.Mode) (s : CameraImpl β γ F) :
    set_mode W m s ≠ .error Fault.out_of_fuel := by
  by_cases h : s._current_mode = m
  · simp [set_mode, set_mode_fuel, h]
  · cases m <;> cases hb : s._mav_camera <;>
      simp [set_mode, set_mode_fuel, h, set_setting_with, set_setting_dispatch, build_setting,
        callCam, hb, kCameraModeName]

end lemmas

/-! ## Claims on the settings registry -/

section claims

variable {β γ F : Type}

/-- C3: for every setting id outside the eleven ids of the dispatch and every option,
`set_setting` returns Success and leaves the whole state, the record of backend calls and the
registry included, as it was. -/
theorem C3_unrecognised_setting_id (W : Deps β γ F) (setting : Camera.Setting)
    (s : CameraImpl β γ F) (hid : setting.setting_id ∉ dispatched_ids) :
    set_setting W setting s = .ok (Camera.Result.Success, s) := by
  simp only [dispatched_ids, List.mem_cons, List.mem_singleton, not_or, List.mem_nil_iff,
    or_false] at hid
  obtain ⟨h1, h2, h3, h4, h5, h6, h7, h8, h9, h10, h11⟩ := hid
  simp [set_setting, set_setting_with, set_setting_dispatch, h1, h2, h3, h4, h5, h6, h7, h8,
    h9, h10, h11]

/-- C3 (witness): CAM_VIDFMT is outside the dispatch; setting it changes nothing. -/
theorem C3_unrecognised_setting_id_witness :
    (build_setting kVideoFormat "2").setting_id ∉ dispatched_ids ∧
    set_setting acceptAll (build_setting kVideoFormat "2") prepared =
      .ok (Camera.Result.Success, prepared) :=
  ⟨by decide, C3_unrecognised_setting_id acceptAll (build_setting kVideoFormat "2") prepared
    (by decide)⟩

/-- C4: `get_setting` never changes the state; it returns Success with the option of the
first registry entry that carries the requested id (the only one in a registry without
duplicates), and it returns WrongArgument exactly when no entry carries that id. -/
theorem C4_get_setting_lookup (setting : Camera.Setting) (s : CameraImpl β γ F) :
    (∀ it, s._settings.find? (fun e => decide (e.setting_id = setting.setting_id)) = some it →
      get_setting setting s =
        .ok ((Camera.Result.Success, { setting with option := it.option }), s)) ∧
    ((∀ it ∈ s._settings, it.setting_id ≠ setting.setting_id) →
      get_setting setting s = .ok ((Camera.Result.WrongArgument, setting), s)) ∧
    ∃ out, get_setting setting s = .ok (out, s) ∧
      (out.1 = Camera.Result.WrongArgument ↔
        ∀ it ∈ s._settings, it.setting_id ≠ setting.setting_id) ∧
      (out.1 = Camera.Result.Success ↔
        ∃ it ∈ s._settings, it.setting_id = setting.setting_id) := by
  have hloop := get_setting_loop_find s._settings setting
  refine ⟨?_, ?_, get_setting_loop s._settings setting, rfl, ?_, ?_⟩
  · intro it hit
    unfold get_setting
    rw [hloop, hit]
  · intro hno
    have hnone :
        s._settings.find? (fun e => decide (e.setting_id = setting.setting_id)) = none := by
      rw [List.find?_eq_none]
      intro x hx
      simpa using hno x hx
    unfold get_setting
    rw [hloop, hnone]
  · cases hf : s._settings.find? (fun e => decide (e.setting_id = setting.setting_id)) with
    | none =>
      rw [hloop, hf]
      rw [List.find?_eq_none] at hf
      simpa using hf
    | some it =>
      rw [hloop, hf]
      have hmem := List.mem_of_find?_eq_some hf
      have hp := List.find?_some hf
      simp only [decide_eq_true_eq] at hp
      constructor
      · intro h
        simp at h
      · intro h
        exact absurd hp (h it hmem)
  · cases hf : s._settings.find? (fun e => decide (e.setting_id = setting.setting_id)) with
    | none =>
      rw [hloop, hf]
      rw [List.find?_eq_none] at hf
      constructor
      · intro h
        simp at h
      · rintro ⟨x, hx, hxe⟩
        have := hf x hx
        simp [hxe] at this
    | some it =>
      rw [hloop, hf]
      have hmem := List.mem_of_find?_eq_some hf
      have hp := List.find?_some hf
      simp only [decide_eq_true_eq] at hp
      exact ⟨fun _ => ⟨it, hmem, hp⟩, fun _ => rfl⟩

/-- C4 (witness): on the registry that `prepare` builds, CAM_ISO is found with its cached
option "100" and an id without entry gives WrongArgument. -/
theorem C4_get_setting_lookup_witness :
    get_setting (build_setting kISOName "") prepared =
      .ok ((Camera.Result.Success, build_setting kISOName "100"), prepared) ∧
    get_setting (build_setting kIrCamPalette "") prepared =
      .ok ((Camera.Result.WrongArgument, build_setting kIrCamPalette ""), prepared) :=
  ⟨(C4_get_setting_lookup (build_setting kISOName "") prepared).1
      (build_setting kISOName "100") (by decide),
    (C4_get_setting_lookup (build_setting kIrCamPalette "") prepared).2.1 (by decide)⟩

end claims

/-! ## Claims on the mode state machine -/

section claims

variable {β γ F : Type}

/-- C5: when the target equals the current mode, `set_mode` returns Success and leaves the
whole state (mode, registry, record of backend calls) as it was; with a primary backend
instance, two consecutive `set_mode(Video)` calls both return, the second one is such a
no-op, and together they issue at most one backend mode-switch call, whatever the starting
mode and whatever the backend answers.  Without a primary instance no call can be issued:
`set_mode(Video)` from another mode then ends in a null dereference. -/
theorem C5_set_mode_idempotent (W : Deps β γ F) (s : CameraImpl β γ F) :
    (∀ m, s._current_mode = m → set_mode W m s = .ok (Camera.Result.Success, s)) ∧
    (∀ b, s._mav_camera = some b →
      ∃ r1 s1, set_mode W Camera.Mode.Video s = .ok (r1, s1) ∧
        set_mode W Camera.Mode.Video s1 = .ok (Camera.Result.Success, s1) ∧
        mode_switch_calls (issued s s1) ≤ 1 ∧
        (issued s s1).length ≤ 1) ∧
    (s._mav_camera = none → s._current_mode ≠ Camera.Mode.Video →
      set_mode W Camera.Mode.Video s = .error Fault.null_dereference) := by
  refine ⟨fun m hm => set_mode_same W m s hm, ?_, ?_⟩
  · intro b hb
    by_cases hm : s._current_mode = Camera.Mode.Video
    · refine ⟨_, s, set_mode_same W _ s hm, set_mode_same W _ s hm, ?_, ?_⟩ <;>
        simp [issued, mode_switch_calls]
    · refine ⟨_, _, set_mode_video W s b hb hm, set_mode_same W _ _ rfl, ?_, ?_⟩ <;>
        simp [issued, mode_switch_calls]
  · intro hb hm
    exact set_mode_null W _ s hb hm (Or.inr rfl)

/-- C5 (witness): after `prepare` the mode is Unknown; the first `set_mode(Video)` issues one
mode-switch call and the second one none. -/
theorem C5_set_mode_idempotent_witness :
    prepared._mav_camera = some () ∧
    ∃ r1 s1, set_mode acceptAll Camera.Mode.Video prepared = .ok (r1, s1) ∧
      set_mode acceptAll Camera.Mode.Video s1 = .ok (Camera.Result.Success, s1) ∧
      mode_switch_calls (issued prepared s1) ≤ 1 ∧
      (issued prepared s1).length ≤ 1 :=
  ⟨rfl, (C5_set_mode_idempotent acceptAll prepared).2.1 () rfl⟩

/-- C6 (the code at the failing input): on the registry that `prepare` builds, with a backend
that accepts the switch, `set_mode(Video)` returns Success and `mode()` becomes Video, while
the registry entry CAM_MODE keeps the option id "0". -/
theorem C6_mode_entry_not_updated :
    prepare acceptAll platformNoThermal fresh = .ok (Camera.Result.Success, prepared) ∧
    mode prepared ≠ Camera.Mode.Video ∧
    lookup kCameraModeName prepared = (Camera.Result.Success, "0") ∧
    ∃ s1, set_mode acceptAll Camera.Mode.Video prepared = .ok (Camera.Result.Success, s1) ∧
      mode s1 = Camera.Mode.Video ∧
      lookup kCameraModeName s1 = (Camera.Result.Success, "0") := by
  refine ⟨rfl, ?_, ?_, _, rfl, ?_, ?_⟩ <;> decide

/-- C7: with a primary backend instance, for a target Photo or Video that differs from the
current mode, `set_mode` issues exactly one backend call, the mode switch with that same
target, and returns the image under `convert_camera_result_to_mav_result` of what the
backend reported for it. -/
theorem C7_set_mode_translates_backend_outcome (W : Deps β γ F) (s : CameraImpl β γ F)
    (b : β) (target : Camera.Mode) (hb : s._mav_camera = some b)
    (ht : target = Camera.Mode.Photo ∨ target = Camera.Mode.Video)
    (hne : s._current_mode ≠ target) :
    ∃ s1, set_mode W target s =
        .ok (convert_camera_result_to_mav_result
          (W.cam.set_mode b (backend_mode target)).1, s1) ∧
      issued s s1 = [(BackendCall.set_mode (backend_mode target),
        Reported.result (W.cam.set_mode b (backend_mode target)).1)] := by
  rcases ht with ht | ht <;> subst ht
  · exact ⟨_, set_mode_photo W s b hb hne, by simp [issued, backend_mode]⟩
  · exact ⟨_, set_mode_video W s b hb hne, by simp [issued, backend_mode]⟩

/-- C7 (witness): a backend that rejects the switch with Error makes `set_mode(Photo)`
return Error. -/
theorem C7_set_mode_translates_backend_outcome_witness :
    preparedRejecting._mav_camera = some () ∧
    preparedRejecting._current_mode ≠ Camera.Mode.Photo ∧
    ∃ s1, set_mode rejectSetters Camera.Mode.Photo preparedRejecting =
        .ok (Camera.Result.Error, s1) ∧
      issued preparedRejecting s1 = [(BackendCall.set_mode mav_camera.Mode.Photo,
        Reported.result mav_camera.Result.Error)] :=
  ⟨rfl, by decide,
    C7_set_mode_translates_backend_outcome rejectSetters preparedRejecting ()
      Camera.Mode.Photo rfl (Or.inl rfl) (by decide)⟩

/-- C8: with a primary backend instance, for a target Photo or Video that differs from the
current mode, `set_mode` returns what the backend's answer translates to, whether success
or failure, and `mode()` afterwards is the target in either case. -/
theorem C8_mode_not_rolled_back (W : Deps β γ F) (s : CameraImpl β γ F)
    (b : β) (target : Camera.Mode) (hb : s._mav_camera = some b)
    (ht : target = Camera.Mode.Photo ∨ target = Camera.Mode.Video)
    (hne : s._current_mode ≠ target) :
    ∃ s1, set_mode W target s =
        .ok (convert_camera_result_to_mav_result
          (W.cam.set_mode b (backend_mode target)).1, s1) ∧
      mode s1 = target := by
  rcases ht with ht | ht <;> subst ht
  · exact ⟨_, set_mode_photo W s b hb hne, rfl⟩
  · exact ⟨_, set_mode_video W s b hb hne, rfl⟩

/-- C8 (witness): the backend rejects the switch to Video with Error, and `mode()` is Video
all the same. -/
theorem C8_mode_not_rolled_back_witness :
    preparedRejecting._mav_camera = some () ∧
    preparedRejecting._current_mode ≠ Camera.Mode.Video ∧
    ∃ s1, set_mode rejectSetters Camera.Mode.Video preparedRejecting =
        .ok (Camera.Result.Error, s1) ∧
      mode s1 = Camera.Mode.Video :=
  ⟨rfl, by decide,
    C8_mode_not_rolled_back rejectSetters preparedRejecting () Camera.Mode.Video rfl
      (Or.inr rfl) (by decide)⟩

/-! ## Claims on the thermal backend -/

/-- C9 (as stated, refuted): after a `prepare` in which the thermal module could not be
opened, `set_setting(IRCAM_PALETTE, "1")` returns Success, not Error. -/
theorem C9_thermal_palette_counterexample :
    prepare acceptAll platformNoThermal fresh = .ok (Camera.Result.Success, prepared) ∧
    init_ir_camera acceptAll platformNoThermal prepared = .ok (false, prepared) ∧
    stoi "1" = some 1 ∧
    set_setting acceptAll (build_setting kIrCamPalette "1") prepared =
      .ok (Camera.Result.Success, prepared) ∧
    Camera.Result.Success ≠ Camera.Result.Error := by
  refine ⟨rfl, rfl, ?_, rfl, ?_⟩ <;> decide

/-- C9 (amended): in the state that a failed thermal load leaves behind (`init_ir_camera`
returned false, after which `prepare` returns at once), `set_setting` for IRCAM_PALETTE
with a numeric option id returns Success, issues no backend call and changes nothing. -/
theorem C9_thermal_palette_without_thermal_backend (W : Deps β γ F) (P : Platform β γ)
    (s s1 : CameraImpl β γ F) (v : String) (n : Int)
    (hload : init_ir_camera W P s = .ok (false, s1)) (hnum : stoi v = some n) :
    set_setting W (build_setting kIrCamPalette v) s1 = .ok (Camera.Result.Success, s1) := by
  have hir := init_ir_camera_false W P s s1 hload
  simp [set_setting, set_setting_with, set_setting_dispatch, build_setting, set_ir_palette,
    hnum, hir, kIrCamPalette, kCameraModeName, kCameraDisplayModeName, kPhotoResolution,
    kWhitebalanceModeName, kExposureMode, kEVName, kISOName, kShutterSpeedName,
    kVideoResolution]

/-- C9 (witness): the thermal module cannot be opened; setting the palette to "1" returns
Success and leaves the state as it was. -/
theorem C9_thermal_palette_without_thermal_backend_witness :
    init_ir_camera acceptAll platformNoThermal prepared = .ok (false, prepared) ∧
    stoi "1" = some 1 ∧
    set_setting acceptAll (build_setting kIrCamPalette "1") prepared =
      .ok (Camera.Result.Success, prepared) :=
  ⟨rfl, by decide,
    C9_thermal_palette_without_thermal_backend acceptAll platformNoThermal prepared prepared
      "1" 1 rfl (by decide)⟩

/-- C10 (the code at the failing input): the primary module loads and yields an instance,
the thermal module opens and its factory symbol resolves, and the thermal factory yields no
instance.  `init_ir_camera` logs that and calls through the null pointer, so `prepare` ends
in a null dereference instead of returning Success.  At the sibling stage where the thermal
module cannot be opened, `prepare` does return Success, without any thermal entry. -/
theorem C10_prepare_null_thermal_instance :
    (platformNullThermal.dlopen QCOM_CAMERA_LIBERAY = some 1 ∧
      platformNullThermal.dlsym 1 "create_qcom_camera" = true ∧
      platformNullThermal.create_qcom_camera = some () ∧
      platformNullThermal.dlopen BOSON_CAMERA_LIBRARY = some 1 ∧
      platformNullThermal.dlsym 1 "create_boson_extension_api" = true ∧
      platformNullThermal.create_boson_extension_api = none ∧
      prepare acceptAll platformNullThermal fresh = .error Fault.null_dereference) ∧
    (platformNoThermal.dlopen BOSON_CAMERA_LIBRARY = none ∧
      prepare acceptAll platformNoThermal fresh = .ok (Camera.Result.Success, prepared) ∧
      lookup kIrCamPalette prepared = (Camera.Result.WrongArgument, "") ∧
      lookup kIrCamFFC prepared = (Camera.Result.WrongArgument, "")) := by
  refine ⟨⟨rfl, rfl, rfl, rfl, rfl, rfl, rfl⟩, rfl, rfl, ?_, ?_⟩ <;> decide

end claims

/-! ## Lemmas on totality with a primary backend instance -/

section lemmas

variable {β γ F : Type}

theorem callCam_live {R : Type} (rep : R → Reported) (c : BackendCall F) (f : β → R × β)
    (s : CameraImpl β γ F) (h : Live s) : ReturnsLive (callCam rep c f s) := by
  obtain ⟨b, hb⟩ := h
  simp only [ReturnsLive, callCam, hb]
  exact ⟨_, _, rfl, _, rfl⟩

theorem isSuccess_live (o : Outcome β γ F mav_camera.Result) (h : ReturnsLive o) :
    ReturnsLive (isSuccess o) := by
  obtain ⟨r, s1, hc, hl⟩ := h
  simp only [ReturnsLive, isSuccess, hc]
  exact ⟨_, _, rfl, hl⟩

theorem andThen_live {A B : Type} (o : Outcome β γ F A)
    (k : A → CameraImpl β γ F → Outcome β γ F B) (h : ReturnsLive o)
    (hk : ∀ a s, Live s → ReturnsLive (k a s)) : ReturnsLive (andThen o k) := by
  obtain ⟨a, s1, hc, hl⟩ := h
  simp only [andThen, hc]
  exact hk a s1 hl

theorem set_camera_display_mode_live (W : Deps β γ F) (mode : String)
    (s : CameraImpl β γ F) (h : Live s) : ReturnsLive (set_camera_display_mode W mode s) := by
  unfold set_camera_display_mode
  split_ifs
  · exact isSuccess_live _ (callCam_live _ _ _ _ h)
  · exact isSuccess_live _ (callCam_live _ _ _ _ h)
  · exact isSuccess_live _ (callCam_live _ _ _ _ h)
  · exact isSuccess_live _ (callCam_live _ _ _ _ h)
  · exact ⟨false, s, rfl, h⟩

theorem set_whitebalance_mode_live (W : Deps β γ F) (mode : String)
    (s : CameraImpl β γ F) (h : Live s)
    (hm : mode ∈ ["0", "1", "2", "3", "4", "5"]) :
    ReturnsLive (set_whitebalance_mode W mode s) := by
  unfold set_whitebalance_mode
  split_ifs
  · exact isSuccess_live _ (callCam_live _ _ _ _ h)
  · exact isSuccess_live _ (callCam_live _ _ _ _ h)
  · exact isSuccess_live _ (callCam_live _ _ _ _ h)
  · exact isSuccess_live _ (callCam_live _ _ _ _ h)
  · exact isSuccess_live _ (callCam_live _ _ _ _ h)
  · exact isSuccess_live _ (callCam_live _ _ _ _ h)
  · simp_all

theorem set_video_resolution_live (W : Deps β γ F) (value : String)
    (s : CameraImpl β γ F) (h : Live s) : ReturnsLive (set_video_resolution W value s) := by
  obtain ⟨r, s0, hc, hl⟩ := callCam_live Reported.result
    (BackendCall.set_video_resolution (video_resolution_of value).1
      (video_resolution_of value).2.1)
    (fun b => W.cam.set_video_resolution b (video_resolution_of value).1
      (video_resolution_of value).2.1) s h
  simp only [set_video_resolution, hc]
  exact isSuccess_live _ (callCam_live _ _ _ _ hl)

theorem set_ir_palette_live (W : Deps β γ F) (v : String) (n : Int)
    (s : CameraImpl β γ F) (h : Live s) (hn : stoi v = some n) :
    ReturnsLive (set_ir_palette W v s) := by
  unfold set_ir_palette
  rw [hn]
  cases hg : s._ir_camera with
  | none => exact ⟨false, s, rfl, h⟩
  | some g =>
    obtain ⟨b, hb⟩ := h
    simp only [callIr, hg]
    exact ⟨_, _, rfl, b, hb⟩

theorem set_ir_FFC_live (W : Deps β γ F) (v : String)
    (s : CameraImpl β γ F) (h : Live s) : ReturnsLive (set_ir_FFC W v s) := by
  unfold set_ir_FFC
  cases hg : s._ir_camera with
  | none => exact ⟨false, s, rfl, h⟩
  | some g =>
    obtain ⟨b, hb⟩ := h
    simp only [callIr, hg]
    exact ⟨_, _, rfl, b, hb⟩

theorem set_mode_live (W : Deps β γ F) (m : Camera.Mode) (s : CameraImpl β γ F)
    (h : Live s) : ReturnsLive (set_mode W m s) := by
  obtain ⟨b, hb⟩ := h
  by_cases hm : s._current_mode = m
  · exact ⟨_, s, set_mode_same W m s hm, ⟨b, hb⟩⟩
  · cases m <;>
      simp [set_mode, set_mode_fuel, hm, set_setting_with, set_setting_dispatch, build_setting,
        callCam, hb, kCameraModeName, Live, ReturnsLive] <;>
      exact ⟨_, _, ⟨rfl, rfl⟩, _, rfl⟩

theorem set_mode_photo_mode (W : Deps β γ F) (s s1 : CameraImpl β γ F) (r : Camera.Result)
    (h : set_mode W Camera.Mode.Photo s = .ok (r, s1)) :
    s1._current_mode = Camera.Mode.Photo := by
  by_cases hm : s._current_mode = Camera.Mode.Photo
  · rw [set_mode_same W _ s hm] at h
    simp at h
    rw [← h.2]; exact hm
  · cases hb : s._mav_camera with
    | none =>
      rw [set_mode_null W _ s hb hm (Or.inl rfl)] at h
      simp at h
    | some b =>
      rw [set_mode_photo W s b hb hm] at h
      simp at h
      rw [← h.2]

theorem set_setting_dispatch_live (W : Deps β γ F) (setting : Camera.Setting)
    (s : CameraImpl β γ F) (h : Live s)
    (hwb : setting.setting_id = kWhitebalanceModeName →
      setting.option.option_id ∈ ["0", "1", "2", "3", "4", "5"])
    (hev : setting.setting_id = kEVName → ∃ v, W.fl.stof setting.option.option_id = some v)
    (hiso : setting.setting_id = kISOName → ∃ n, stoi setting.option.option_id = some n)
    (hpal : setting.setting_id = kIrCamPalette →
      ∃ n, stoi setting.option.option_id = some n) :
    ReturnsLive (set_setting_dispatch W (set_mode W) setting s) := by
  unfold set_setting_dispatch
  by_cases hmode : setting.setting_id = kCameraModeName
  · rw [if_pos hmode]
    by_cases h0 : setting.option.option_id = "0"
    · obtain ⟨r, s1, hs, hl⟩ := set_mode_live W Camera.Mode.Photo s h
      rw [if_pos h0, hs]
      exact ⟨false, s1, rfl, hl⟩
    · obtain ⟨r, s1, hs, hl⟩ := set_mode_live W Camera.Mode.Video s h
      rw [if_neg h0, hs]
      exact ⟨false, s1, rfl, hl⟩
  rw [if_neg hmode]
  by_cases h1 : setting.setting_id = kCameraDisplayModeName
  · rw [if_pos h1]
    exact set_camera_display_mode_live W _ s h
  rw [if_neg h1]
  by_cases h2 : setting.setting_id = kPhotoResolution
  · rw [if_pos h2]
    by_cases h20 : setting.option.option_id = "0"
    · rw [if_pos h20]
      exact isSuccess_live _ (callCam_live _ _ _ _ h)
    rw [if_neg h20]
    by_cases h21 : setting.option.option_id = "1"
    · rw [if_pos h21]
      exact isSuccess_live _ (callCam_live _ _ _ _ h)
    rw [if_neg h21]
    exact ⟨false, s, rfl, h⟩
  rw [if_neg h2]
  by_cases h3 : setting.setting_id = kWhitebalanceModeName
  · rw [if_pos h3]
    exact set_whitebalance_mode_live W _ s h (hwb h3)
  rw [if_neg h3]
  by_cases h4 : setting.setting_id = kExposureMode
  · rw [if_pos h4]
    exact ⟨true, s, rfl, h⟩
  rw [if_neg h4]
  by_cases h5 : setting.setting_id = kEVName
  · rw [if_pos h5]
    obtain ⟨v, hv⟩ := hev h5
    rw [hv]
    exact isSuccess_live _ (callCam_live _ _ _ _ h)
  rw [if_neg h5]
  by_cases h6 : setting.setting_id = kISOName
  · rw [if_pos h6]
    obtain ⟨n, hn⟩ := hiso h6
    rw [hn]
    exact isSuccess_live _ (callCam_live _ _ _ _ h)
  rw [if_neg h6]
  by_cases h7 : setting.setting_id = kShutterSpeedName
  · rw [if_pos h7]
    exact isSuccess_live _ (callCam_live _ _ _ _ h)
  rw [if_neg h7]
  by_cases h8 : setting.setting_id = kVideoResolution
  · rw [if_pos h8]
    exact set_video_resolution_live W _ s h
  rw [if_neg h8]
  by_cases h9 : setting.setting_id = kIrCamPalette
  · rw [if_pos h9]
    obtain ⟨n, hn⟩ := hpal h9
    exact set_ir_palette_live W _ n s h hn
  rw [if_neg h9]
  by_cases h10 : setting.setting_id = kIrCamFFC
  · rw [if_pos h10]
    exact set_ir_FFC_live W _ s h
  rw [if_neg h10]
  exact ⟨false, s, rfl, h⟩

/-- Totality of `set_setting` with a primary backend instance: it returns Success whenever
the option value passes the conversions of its branch (white balance within "0".."5",
`std::stof` for CAM_EV, `std::stoi` for CAM_ISO and IRCAM_PALETTE). -/
theorem set_setting_live (W : Deps β γ F) (setting : Camera.Setting) (s : CameraImpl β γ F)
    (h : Live s)
    (hwb : setting.setting_id = kWhitebalanceModeName →
      setting.option.option_id ∈ ["0", "1", "2", "3", "4", "5"])
    (hev : setting.setting_id = kEVName → ∃ v, W.fl.stof setting.option.option_id = some v)
    (hiso : setting.setting_id = kISOName → ∃ n, stoi setting.option.option_id = some n)
    (hpal : setting.setting_id = kIrCamPalette →
      ∃ n, stoi setting.option.option_id = some n) :
    ∃ s1, set_setting W setting s = .ok (Camera.Result.Success, s1) ∧ Live s1 := by
  obtain ⟨ok, s0, hd, b, hb⟩ := set_setting_dispatch_live W setting s h hwb hev hiso hpal
  cases ok
  · refine ⟨s0, ?_, b, hb⟩
    simp [set_setting, set_setting_with, hd]
  · refine ⟨{ s0 with _settings := update_settings s0._settings setting }, ?_, b, hb⟩
    simp [set_setting, set_setting_with, hd]

theorem set_video_resolution_calls (W : Deps β γ F) (value : String)
    (s s1 : CameraImpl β γ F) (ok : Bool)
    (h : set_video_resolution W value s = .ok (ok, s1)) :
    (issued s s1).map Prod.fst =
      [BackendCall.set_video_resolution (video_resolution_of value).1
          (video_resolution_of value).2.1,
        BackendCall.set_framerate (video_resolution_of value).2.2] := by
  unfold set_video_resolution at h
  simp only at h
  split at h
  · simp at h
  · rename_i r s0 hc
    unfold isSuccess at h
    split at h
    · simp at h
    · rename_i r2 s2 hc2
      simp at h
      obtain ⟨_, h2⟩ := h
      subst h2
      have f1 := callCam_frame _ _ _ _ _ _ hc
      have f2 := callCam_frame _ _ _ _ _ _ hc2
      simp [issued, f2.2, f1.2]

theorem video_resolution_id_spec (w h fr : Int) :
    video_resolution_id w h fr ∈ ["0", "1", "2", "3"] ∧
    (video_resolution_id w h fr = "1" ↔ w = 3840 ∧ h = 2160 ∧ fr = 30) ∧
    (video_resolution_id w h fr = "2" ↔ w = 1920 ∧ h = 1080 ∧ fr = 60) ∧
    (video_resolution_id w h fr = "3" ↔ w = 1920 ∧ h = 1080 ∧ fr = 30) ∧
    (video_resolution_id w h fr ≠ "1" → video_resolution_id w h fr ≠ "2" →
      video_resolution_id w h fr ≠ "3" → video_resolution_id w h fr = "0") := by
  unfold video_resolution_id
  split_ifs with h0 h1 h2 h3
  · obtain ⟨ha, hb, hc⟩ := h0
    subst ha hb hc
    simp
  · obtain ⟨ha, hb, hc⟩ := h1
    subst ha hb hc
    simp
  · obtain ⟨ha, hb, hc⟩ := h2
    subst ha hb hc
    simp
  · obtain ⟨ha, hb, hc⟩ := h3
    subst ha hb hc
    simp
  · simp
    refine ⟨?_, ?_, ?_⟩ <;> intro ha hb hc
    · exact h1 ⟨ha, hb, hc⟩
    · exact h2 ⟨ha, hb, hc⟩
    · exact h3 ⟨ha, hb, hc⟩

end lemmas

/-! ## Claims on `reset_settings` -/

section claims

variable {β γ F : Type}

/-- C11 (as stated, refuted): on a freshly constructed object, which holds no primary
backend instance, `reset_settings` does not return Success: its first step `set_mode(Photo)`
calls through the null pointer `_mav_camera`. -/
theorem C11_reset_settings_counterexample :
    fresh._mav_camera = none ∧
    reset_settings acceptAll fresh = .error Fault.null_dereference ∧
    ∀ s1, reset_settings acceptAll fresh ≠ .ok (Camera.Result.Success, s1) := by
  refine ⟨rfl, rfl, ?_⟩
  intro s1 h
  have h2 : reset_settings acceptAll fresh = .error Fault.null_dereference := rfl
  rw [h2] at h
  cases h

/-- C11 (amended): in every state that holds a primary backend instance, and whatever the
backends answer to the calls it triggers (failures included), `reset_settings` returns
Success.  The hypothesis on `stof` is the library fact that `std::stof("0")` does not
throw. -/
theorem C11_reset_settings_returns_success (W : Deps β γ F) (s : CameraImpl β γ F)
    (hlive : Live s) (hz : ∃ z, W.fl.stof "0" = some z) :
    ∃ s1, reset_settings W s = .ok (Camera.Result.Success, s1) ∧ Live s1 := by
  have step : ∀ (setting : Camera.Setting) (t : CameraImpl β γ F), Live t →
      (setting.setting_id = kWhitebalanceModeName →
        setting.option.option_id ∈ ["0", "1", "2", "3", "4", "5"]) →
      (setting.setting_id = kEVName →
        ∃ v, W.fl.stof setting.option.option_id = some v) →
      (setting.setting_id = kISOName → ∃ n, stoi setting.option.option_id = some n) →
      (setting.setting_id = kIrCamPalette →
        ∃ n, stoi setting.option.option_id = some n) →
      ReturnsLive (set_setting W setting t) := by
    intro setting t ht h1 h2 h3 h4
    obtain ⟨t1, hs, hl⟩ := set_setting_live W setting t ht h1 h2 h3 h4
    exact ⟨_, t1, hs, hl⟩
  have hdone : ReturnsLive (reset_settings W s) ∧
      ∀ r s1, reset_settings W s = .ok (r, s1) → r = Camera.Result.Success := by
    constructor
    · unfold reset_settings
      refine andThen_live _ _ (set_mode_live W _ s hlive) fun _ s0 h0 => ?_
      refine andThen_live _ _ (set_camera_display_mode_live W _ s0 h0) fun _ s1 h1 => ?_
      refine andThen_live _ _ (step _ s1 h1 (by decide) (fun h => absurd h (by decide))
        (fun h => absurd h (by decide)) (fun h => absurd h (by decide))) fun _ s2 h2 => ?_
      refine andThen_live _ _ (set_whitebalance_mode_live W _ s2 h2 (by decide))
        fun _ s3 h3 => ?_
      refine andThen_live _ _ (step _ s3 h3 (by decide) (fun h => absurd h (by decide))
        (fun h => absurd h (by decide)) (fun h => absurd h (by decide))) fun _ s4 h4 => ?_
      refine andThen_live _ _ (step _ s4 h4 (by decide) (fun h => absurd h (by decide))
        (fun h => absurd h (by decide)) (fun h => absurd h (by decide))) fun _ s5 h5 => ?_
      refine andThen_live _ _ (step _ s5 h5 (by decide) (fun _ => hz)
        (fun h => absurd h (by decide)) (fun h => absurd h (by decide))) fun _ s6 h6 => ?_
      refine andThen_live _ _ (step _ s6 h6 (by decide) (fun h => absurd h (by decide))
        (fun _ => ⟨125, by decide⟩) (fun h => absurd h (by decide))) fun _ s7 h7 => ?_
      refine andThen_live _ _ (step _ s7 h7 (by decide) (fun h => absurd h (by decide))
        (fun h => absurd h (by decide)) (fun h => absurd h (by decide))) fun _ s8 h8 => ?_
      refine andThen_live _ _ (step _ s8 h8 (by decide) (fun h => absurd h (by decide))
        (fun h => absurd h (by decide)) (fun h => absurd h (by decide))) fun _ s9 h9 => ?_
      refine andThen_live _ _ (step _ s9 h9 (by decide) (fun h => absurd h (by decide))
        (fun h => absurd h (by decide)) (fun h => absurd h (by decide))) fun _ s10 h10 => ?_
      exact ⟨_, s10, rfl, h10⟩
    · intro r s1 h
      unfold reset_settings at h
      simp only [andThen] at h
      repeat' split at h
      all_goals first
        | (simp at h; exact h.1.symm)
        | simp at h
  obtain ⟨⟨r, s1, hr, hl⟩, hsucc⟩ := hdone
  have := hsucc r s1 hr
  subst this
  exact ⟨s1, hr, hl⟩

/-- C11 (witness): on the object that `prepare` built, with a primary backend that rejects
every setter, `reset_settings` returns Success. -/
theorem C11_reset_settings_returns_success_witness :
    Live preparedRejecting ∧ (∃ z, rejectSetters.fl.stof "0" = some z) ∧
    ∃ s1, reset_settings rejectSetters preparedRejecting = .ok (Camera.Result.Success, s1) ∧
      Live s1 :=
  ⟨⟨(), rfl⟩, ⟨0, by decide⟩,
    C11_reset_settings_returns_success rejectSetters preparedRejecting ⟨(), rfl⟩
      ⟨0, by decide⟩⟩

/-- C12 (the code at the failing input): `prepare` ran with MAVCAM_INIT_CAMERA_MODE set to
"1", so the registry entry CAM_MODE is "1"; the backend accepts every call.  After
`reset_settings` the mode is Photo and the other eight entries hold the documented defaults,
while CAM_MODE is still "1" and not "0". -/
theorem C12_reset_settings_mode_entry :
    prepare acceptAll platformVideoInit fresh = .ok (Camera.Result.Success, preparedVideo) ∧
    lookup kCameraModeName preparedVideo = (Camera.Result.Success, "1") ∧
    ∃ s1, reset_settings acceptAll preparedVideo = .ok (Camera.Result.Success, s1) ∧
      (∀ c ∈ issued preparedVideo s1, c.2.accepted = true) ∧
      mode s1 = Camera.Mode.Photo ∧
      lookup kCameraModeName s1 = (Camera.Result.Success, "1") ∧
      lookup kCameraDisplayModeName s1 = (Camera.Result.Success, "0") ∧
      lookup kWhitebalanceModeName s1 = (Camera.Result.Success, "0") ∧
      lookup kExposureMode s1 = (Camera.Result.Success, "0") ∧
      lookup kEVName s1 = (Camera.Result.Success, "0") ∧
      lookup kISOName s1 = (Camera.Result.Success, "125") ∧
      lookup kShutterSpeedName s1 = (Camera.Result.Success, "1/100") ∧
      lookup kVideoFormat s1 = (Camera.Result.Success, "1") ∧
      lookup kVideoResolution s1 = (Camera.Result.Success, "0") := by
  refine ⟨rfl, ?_, _, rfl, ?_, ?_, ?_, ?_, ?_, ?_, ?_, ?_, ?_, ?_, ?_⟩ <;> decide

end claims

/-! ## Claims on the result translator and the unsupported operations -/

section claims

variable {β γ F : Type}

/-- C13: `convert_camera_result_to_mav_result` maps each of the nine backend outcome codes to
the uniform code of the same name; it is injective and never yields ProtocolUnsupported. -/
theorem C13_result_translator :
    (convert_camera_result_to_mav_result mav_camera.Result.Success = Camera.Result.Success ∧
      convert_camera_result_to_mav_result mav_camera.Result.Denied = Camera.Result.Denied ∧
      convert_camera_result_to_mav_result mav_camera.Result.Busy = Camera.Result.Busy ∧
      convert_camera_result_to_mav_result mav_camera.Result.Error = Camera.Result.Error ∧
      convert_camera_result_to_mav_result mav_camera.Result.InProgress =
        Camera.Result.InProgress ∧
      convert_camera_result_to_mav_result mav_camera.Result.NoSystem =
        Camera.Result.NoSystem ∧
      convert_camera_result_to_mav_result mav_camera.Result.Timeout = Camera.Result.Timeout ∧
      convert_camera_result_to_mav_result mav_camera.Result.Unknown = Camera.Result.Unknown ∧
      convert_camera_result_to_mav_result mav_camera.Result.WrongArgument =
        Camera.Result.WrongArgument) ∧
    Function.Injective convert_camera_result_to_mav_result ∧
    ∀ r, convert_camera_result_to_mav_result r ≠ Camera.Result.ProtocolUnsupported := by
  refine ⟨⟨rfl, rfl, rfl, rfl, rfl, rfl, rfl, rfl, rfl⟩, ?_, ?_⟩
  · intro a b h
    cases a <;> cases b <;> simp [convert_camera_result_to_mav_result] at h <;> rfl
  · intro r
    cases r <;> simp [convert_camera_result_to_mav_result]

/-- C14: in every state, a state without backend included, and for every argument,
`start_photo_interval`, `stop_photo_interval`, `start_video_streaming`,
`stop_video_streaming`, `list_photos` and `select_camera` return ProtocolUnsupported
(`list_photos` with an empty list) and leave the whole state, the record of backend calls
included, as it was. -/
theorem C14_unsupported_operations (s : CameraImpl β γ F) (interval_s : F)
    (stream_id camera_id : Int) (photos_range : Camera.PhotosRange) :
    start_photo_interval interval_s s = .ok (Camera.Result.ProtocolUnsupported, s) ∧
    stop_photo_interval s = .ok (Camera.Result.ProtocolUnsupported, s) ∧
    start_video_streaming stream_id s = .ok (Camera.Result.ProtocolUnsupported, s) ∧
    stop_video_streaming stream_id s = .ok (Camera.Result.ProtocolUnsupported, s) ∧
    list_photos photos_range s = .ok ((Camera.Result.ProtocolUnsupported, []), s) ∧
    select_camera camera_id s = .ok (Camera.Result.ProtocolUnsupported, s) ∧
    issued s s = [] :=
  ⟨rfl, rfl, rfl, rfl, rfl, rfl, by simp [issued]⟩

/-! ## Claims on the video resolution codec -/

/-- C15: for each option id among "0", "1", "2", "3", with a primary backend instance,
`set_video_resolution` returns after sending one resolution call and one frame rate call;
and in any later state in which the backend answers both queries with Success and reports
the width, height and frame rate that were sent, `get_video_resolution` returns that same
option id. -/
theorem C15_video_resolution_round_trip (W : Deps β γ F) (s : CameraImpl β γ F) (v : String)
    (hv : v ∈ ["0", "1", "2", "3"]) (hlive : Live s) :
    ∃ ok s1 w h fr, set_video_resolution W v s = .ok (ok, s1) ∧
      (issued s s1).map Prod.fst =
        [BackendCall.set_video_resolution w h, BackendCall.set_framerate fr] ∧
      ∀ (s2 : CameraImpl β γ F) (b2 : β), s2._mav_camera = some b2 →
        (W.cam.get_video_resolution b2).1 = (mav_camera.Result.Success, w, h) →
        (W.cam.get_framerate (W.cam.get_video_resolution b2).2).1 =
          (mav_camera.Result.Success, fr) →
        ∃ s3, get_video_resolution W s2 = .ok (v, s3) := by
  obtain ⟨ok, s1, hs, _⟩ := set_video_resolution_live W v s hlive
  refine ⟨ok, s1, (video_resolution_of v).1, (video_resolution_of v).2.1,
    (video_resolution_of v).2.2, hs, set_video_resolution_calls W v s s1 ok hs, ?_⟩
  · intro s2 b2 hb2 hq1 hq2
    have hid : video_resolution_id (video_resolution_of v).1 (video_resolution_of v).2.1
        (video_resolution_of v).2.2 = v := by
      simp only [List.mem_cons, List.mem_singleton, List.mem_nil_iff, or_false] at hv
      rcases hv with hv | hv | hv | hv <;> subst hv <;> decide
    simp only [get_video_resolution, callCam, hb2, hq1, hq2]
    simp [hid]

/-- C15 (witness): option id "1" sends 3840x2160 and frame rate 30, and a backend reporting
3840x2160 at frame rate 30 makes `get_video_resolution` return "1". -/
theorem C15_video_resolution_round_trip_witness :
    "1" ∈ ["0", "1", "2", "3"] ∧ Live prepared ∧
    (∃ ok s1, set_video_resolution acceptAll "1" prepared = .ok (ok, s1) ∧
      (issued prepared s1).map Prod.fst =
        [BackendCall.set_video_resolution 3840 2160, BackendCall.set_framerate 30]) ∧
    (∃ s3, get_video_resolution acceptAll prepared = .ok ("1", s3)) ∧
    ∃ ok s1 w h fr, set_video_resolution acceptAll "1" prepared = .ok (ok, s1) ∧
      (issued prepared s1).map Prod.fst =
        [BackendCall.set_video_resolution w h, BackendCall.set_framerate fr] ∧
      ∀ (s2 : CameraImpl Unit Unit Int) (b2 : Unit), s2._mav_camera = some b2 →
        (acceptAll.cam.get_video_resolution b2).1 = (mav_camera.Result.Success, w, h) →
        (acceptAll.cam.get_framerate (acceptAll.cam.get_video_resolution b2).2).1 =
          (mav_camera.Result.Success, fr) →
        ∃ s3, get_video_resolution acceptAll s2 = .ok ("1", s3) :=
  ⟨by decide, ⟨(), rfl⟩, ⟨_, _, rfl, by decide⟩, ⟨_, rfl⟩,
    C15_video_resolution_round_trip acceptAll prepared "1" (by decide) ⟨(), rfl⟩⟩

end claims

section claims

variable {β γ F : Type}

/-- C16: with a primary backend instance `get_video_resolution` always returns an option id
among "0".."3" (there is no error result): "1", "2", "3" exactly when both queries succeed
and report 3840x2160 at 30, 1920x1080 at 60, 1920x1080 at 30 respectively, and "0" in every
other case, be it 3840x2160 at 60, an unlisted combination or a failed query. -/
theorem C16_get_video_resolution (W : Deps β γ F) (s : CameraImpl β γ F) (b : β)
    (hb : s._mav_camera = some b) :
    ∃ id s1, get_video_resolution W s = .ok (id, s1) ∧
      id ∈ ["0", "1", "2", "3"] ∧
      (id = "1" ↔ (W.cam.get_video_resolution b).1 = (mav_camera.Result.Success, 3840, 2160) ∧
        (W.cam.get_framerate (W.cam.get_video_resolution b).2).1 =
          (mav_camera.Result.Success, 30)) ∧
      (id = "2" ↔ (W.cam.get_video_resolution b).1 = (mav_camera.Result.Success, 1920, 1080) ∧
        (W.cam.get_framerate (W.cam.get_video_resolution b).2).1 =
          (mav_camera.Result.Success, 60)) ∧
      (id = "3" ↔ (W.cam.get_video_resolution b).1 = (mav_camera.Result.Success, 1920, 1080) ∧
        (W.cam.get_framerate (W.cam.get_video_resolution b).2).1 =
          (mav_camera.Result.Success, 30)) ∧
      (id ≠ "1" → id ≠ "2" → id ≠ "3" → id = "0") := by
  have hid := video_resolution_id_spec (W.cam.get_video_resolution b).1.2.1
    (W.cam.get_video_resolution b).1.2.2
    (W.cam.get_framerate (W.cam.get_video_resolution b).2).1.2
  simp only [get_video_resolution, callCam, hb]
  by_cases h1 : (W.cam.get_video_resolution b).1.1 = mav_camera.Result.Success
  · by_cases h2 : (W.cam.get_framerate (W.cam.get_video_resolution b).2).1.1 =
        mav_camera.Result.Success
    · simp only [h1, h2, ne_eq, not_true_eq_false, if_false]
      refine ⟨_, _, rfl, hid.1, ?_, ?_, ?_, hid.2.2.2.2⟩
      · rw [hid.2.1]; simp [Prod.ext_iff, h1, h2]; tauto
      · rw [hid.2.2.1]; simp [Prod.ext_iff, h1, h2]; tauto
      · rw [hid.2.2.2.1]; simp [Prod.ext_iff, h1, h2]; tauto
    · simp only [h1, h2, ne_eq, not_true_eq_false, not_false_eq_true, if_false, if_true]
      refine ⟨_, _, rfl, by decide, ?_, ?_, ?_, fun _ _ _ => rfl⟩ <;>
        simp [Prod.ext_iff, h2]
  · simp only [h1, ne_eq, not_false_eq_true, if_true]
    refine ⟨_, _, rfl, by decide, ?_, ?_, ?_, fun _ _ _ => rfl⟩ <;>
      simp [Prod.ext_iff, h1]

/-- C16 (witness): the backend of `prepared` reports 3840x2160 at 30, which gives "1". -/
theorem C16_get_video_resolution_witness :
    prepared._mav_camera = some () ∧
    ∃ s1, get_video_resolution acceptAll prepared = .ok ("1", s1) := by
  refine ⟨rfl, ?_⟩
  obtain ⟨id, s1, h, _, h1, _⟩ := C16_get_video_resolution acceptAll prepared () rfl
  have : id = "1" := h1.mpr ⟨rfl, rfl⟩
  subst this
  exact ⟨s1, h⟩

/-! ## Claims on initialisation -/

/-- C17 (the code at the failing input): one `prepare` on a fresh object builds a registry
without duplicate ids; a second successful `prepare` appends its ten entries to the ten that
are there, so the registry holds every id twice. -/
theorem C17_second_prepare_duplicates :
    prepare acceptAll platformNoThermal fresh = .ok (Camera.Result.Success, prepared) ∧
    (setting_ids prepared).Nodup ∧
    prepare acceptAll platformNoThermal prepared =
      .ok (Camera.Result.Success, preparedTwice) ∧
    setting_ids preparedTwice = setting_ids prepared ++ setting_ids prepared ∧
    (setting_ids preparedTwice).count kCameraModeName = 2 ∧
    ¬ (setting_ids preparedTwice).Nodup := by
  refine ⟨rfl, ?_, rfl, ?_, ?_, ?_⟩ <;> decide

/-- C18 (the code at the failing input): `prepare` on a fresh object returns Success and
leaves `mode()` at Unknown, both when the initial mode is the default Photo (registry entry
CAM_MODE "0") and when the environment selects Video (registry entry CAM_MODE "1"). -/
theorem C18_mode_unknown_after_prepare :
    (prepare acceptAll platformNoThermal fresh = .ok (Camera.Result.Success, prepared) ∧
      mode prepared = Camera.Mode.Unknown ∧
      lookup kCameraModeName prepared = (Camera.Result.Success, "0")) ∧
    (prepare acceptAll platformVideoInit fresh = .ok (Camera.Result.Success, preparedVideo) ∧
      mode preparedVideo = Camera.Mode.Unknown ∧
      lookup kCameraModeName preparedVideo = (Camera.Result.Success, "1")) := by
  refine ⟨⟨rfl, rfl, ?_⟩, rfl, rfl, ?_⟩ <;> decide

/-- C19: if the primary module cannot be opened, or its factory symbol does not resolve, or
the factory yields no instance, `prepare` returns Error, and afterwards the object holds
neither a primary instance nor a module handle and its registry is what it was before the
call. -/
theorem C19_prepare_primary_load_failure (W : Deps β γ F) (P : Platform β γ)
    (s : CameraImpl β γ F)
    (hfail : P.dlopen QCOM_CAMERA_LIBERAY = none ∨
      (∃ h, P.dlopen QCOM_CAMERA_LIBERAY = some h ∧ P.dlsym h "create_qcom_camera" = false) ∨
      (∃ h, P.dlopen QCOM_CAMERA_LIBERAY = some h ∧ P.dlsym h "create_qcom_camera" = true ∧
        P.create_qcom_camera = none)) :
    ∃ s1, prepare W P s = .ok (Camera.Result.Error, s1) ∧
      s1._mav_camera = none ∧ s1._plugin_handle = none ∧ s1._settings = s._settings := by
  have hclose : (close_camera s)._settings = s._settings := by
    unfold close_camera
    cases h : s._mav_camera <;> simp [h]
  have hnull : (close_camera s)._mav_camera = none := by
    unfold close_camera
    cases h : s._mav_camera <;> simp [h]
  rcases hfail with h | ⟨h, h1, h2⟩ | ⟨h, h1, h2, h3⟩
  · refine ⟨{ close_camera s with _plugin_handle := none }, ?_, hnull, rfl, hclose⟩
    simp [prepare, h]
  · refine ⟨{ close_camera s with _plugin_handle := none }, ?_, hnull, rfl, hclose⟩
    simp [prepare, h1, h2]
  · refine ⟨{ close_camera s with _plugin_handle := none, _mav_camera := none }, ?_, rfl, rfl,
      hclose⟩
    simp [prepare, h1, h2, h3]

/-- C19 (witness): the primary module cannot be opened; `prepare` on the prepared object
returns Error, drops the instance and the handle, and keeps the ten registry entries. -/
theorem C19_prepare_primary_load_failure_witness :
    platformNoPrimary.dlopen QCOM_CAMERA_LIBERAY = none ∧
    prepared._mav_camera = some () ∧
    ∃ s1, prepare acceptAll platformNoPrimary prepared = .ok (Camera.Result.Error, s1) ∧
      s1._mav_camera = none ∧ s1._plugin_handle = none ∧
      s1._settings = prepared._settings :=
  ⟨rfl, rfl, C19_prepare_primary_load_failure acceptAll platformNoPrimary prepared
    (Or.inl rfl)⟩

/-- C20 (the code at the failing inputs): when the thermal factory yields no instance,
`init_ir_camera` does not return false, it ends in a null dereference; when the thermal
module loads and the UART initialisation fails (every entry of the thermal backend of
`thermalFailing` returns status 1), it returns false with the instance released and the
module handle still held. -/
theorem C20_secondary_loader_failures :
    (platformNullThermal.dlopen BOSON_CAMERA_LIBRARY = some 1 ∧
      platformNullThermal.dlsym 1 "create_boson_extension_api" = true ∧
      platformNullThermal.create_boson_extension_api = none ∧
      init_ir_camera acceptAll platformNullThermal fresh = .error Fault.null_dereference) ∧
    (platformBoth.dlopen BOSON_CAMERA_LIBRARY = some 1 ∧
      platformBoth.create_boson_extension_api = some () ∧
      ∃ s1, init_ir_camera thermalFailing platformBoth fresh = .ok (false, s1) ∧
        s1._ir_camera = none ∧ s1._ir_camera_handle = some 1) := by
  refine ⟨⟨rfl, rfl, rfl, rfl⟩, rfl, rfl, _, rfl, rfl, rfl⟩

end claims

/-! ## Lemmas on what a run leaves untouched -/

section lemmas

variable {β γ F : Type}

theorem andThen_ok {A B : Type} (o : Outcome β γ F A)
    (k : A → CameraImpl β γ F → Outcome β γ F B) (b : B) (s1 : CameraImpl β γ F)
    (h : andThen o k = .ok (b, s1)) : ∃ a s0, o = .ok (a, s0) ∧ k a s0 = .ok (b, s1) := by
  unfold andThen at h
  split at h
  · simp at h
  · rename_i a s0
    exact ⟨a, s0, rfl, h⟩

theorem callCam_inv {R : Type} (rep : R → Reported) (c : BackendCall F) (f : β → R × β)
    (s s1 : CameraImpl β γ F) (r : R) (h : callCam rep c f s = .ok (r, s1)) :
    ∃ b, s._mav_camera = some b ∧ r = (f b).1 ∧
      s1 = { s with _mav_camera := some (f b).2, calls := s.calls ++ [(c, rep (f b).1)] } := by
  unfold callCam at h
  cases hb : s._mav_camera with
  | none => simp [hb] at h
  | some x =>
    simp [hb] at h
    exact ⟨x, rfl, h.1.symm, h.2.symm⟩

theorem callIr_inv {R : Type} (rep : R → Reported) (c : BackendCall F) (f : γ → R × γ)
    (s s1 : CameraImpl β γ F) (r : R) (h : callIr rep c f s = .ok (r, s1)) :
    ∃ g, s._ir_camera = some g ∧ r = (f g).1 ∧
      s1 = { s with _ir_camera := some (f g).2, calls := s.calls ++ [(c, rep (f g).1)] } := by
  unfold callIr at h
  cases hb : s._ir_camera with
  | none => simp [hb] at h
  | some x =>
    simp [hb] at h
    exact ⟨x, rfl, h.1.symm, h.2.symm⟩

theorem kept_refl (s : CameraImpl β γ F) : Kept s s :=
  ⟨rfl, rfl, rfl⟩

theorem kept_trans (s s0 s1 : CameraImpl β γ F) (h0 : Kept s s0) (h1 : Kept s0 s1) :
    Kept s s1 :=
  ⟨h1.1.trans h0.1, h1.2.1.trans h0.2.1, h1.2.2.trans h0.2.2⟩

theorem extends_refl (s : CameraImpl β γ F) : Extends s s :=
  ⟨⟨[], by simp⟩, ⟨[], by simp⟩⟩

theorem extends_trans (s s0 s1 : CameraImpl β γ F) (h0 : Extends s s0) (h1 : Extends s0 s1) :
    Extends s s1 := by
  obtain ⟨⟨m0, hm0⟩, ⟨n0, hn0⟩⟩ := h0
  obtain ⟨⟨m1, hm1⟩, ⟨n1, hn1⟩⟩ := h1
  exact ⟨⟨m0 ++ m1, by rw [hm1, hm0, List.append_assoc]⟩,
    ⟨n0 ++ n1, by rw [hn1, hn0, List.append_assoc]⟩⟩

theorem grows_refl (s : CameraImpl β γ F) : Grows s s :=
  ⟨kept_refl s, rfl, extends_refl s⟩

theorem grows_trans (s s0 s1 : CameraImpl β γ F) (h0 : Grows s s0) (h1 : Grows s0 s1) :
    Grows s s1 :=
  ⟨kept_trans _ _ _ h0.1 h1.1, h1.2.1.trans h0.2.1, extends_trans _ _ _ h0.2.2 h1.2.2⟩

theorem callCam_grows {R : Type} (rep : R → Reported) (c : BackendCall F) (f : β → R × β)
    (s s1 : CameraImpl β γ F) (r : R) (h : callCam rep c f s = .ok (r, s1)) : Grows s s1 := by
  obtain ⟨b, _, _, hs⟩ := callCam_inv _ _ _ _ _ _ h
  subst hs
  exact ⟨⟨rfl, rfl, rfl⟩, rfl, ⟨[], by simp⟩, ⟨_, rfl⟩⟩

theorem callIr_grows {R : Type} (rep : R → Reported) (c : BackendCall F) (f : γ → R × γ)
    (s s1 : CameraImpl β γ F) (r : R) (h : callIr rep c f s = .ok (r, s1)) : Grows s s1 := by
  obtain ⟨g, _, _, hs⟩ := callIr_inv _ _ _ _ _ _ h
  subst hs
  exact ⟨⟨rfl, rfl, rfl⟩, rfl, ⟨[], by simp⟩, ⟨_, rfl⟩⟩

theorem emplace_back_grows (setting : Camera.Setting) (s : CameraImpl β γ F) :
    Grows s (emplace_back setting s) :=
  ⟨⟨rfl, rfl, rfl⟩, rfl, ⟨_, rfl⟩, ⟨[], by simp [emplace_back]⟩⟩

theorem isSuccess_grows (o : Outcome β γ F mav_camera.Result) (s s1 : CameraImpl β γ F)
    (b : Bool) (ho : ∀ r s0, o = .ok (r, s0) → Grows s s0)
    (h : isSuccess o = .ok (b, s1)) : Grows s s1 := by
  unfold isSuccess at h
  split at h
  · simp at h
  · rename_i r s0
    simp at h
    rw [← h.2]
    exact ho r s0 rfl

theorem call_grows (c : BackendCall F) (f : β → mav_camera.Result × β)
    (s s1 : CameraImpl β γ F) (b : Bool)
    (h : isSuccess (callCam Reported.result c f s) = .ok (b, s1)) : Grows s s1 :=
  isSuccess_grows _ _ _ _ (fun _ _ hc => callCam_grows _ _ _ _ _ _ hc) h

theorem set_camera_display_mode_grows (W : Deps β γ F) (mode : String)
    (s s1 : CameraImpl β γ F) (b : Bool)
    (h : set_camera_display_mode W mode s = .ok (b, s1)) : Grows s s1 := by
  unfold set_camera_display_mode at h
  split_ifs at h
  · exact call_grows _ _ _ _ _ h
  · exact call_grows _ _ _ _ _ h
  · exact call_grows _ _ _ _ _ h
  · exact call_grows _ _ _ _ _ h
  · simp at h; rw [← h.2]; exact grows_refl s

theorem set_whitebalance_mode_grows (W : Deps β γ F) (mode : String)
    (s s1 : CameraImpl β γ F) (b : Bool)
    (h : set_whitebalance_mode W mode s = .ok (b, s1)) : Grows s s1 := by
  unfold set_whitebalance_mode at h
  split_ifs at h
  · exact call_grows _ _ _ _ _ h
  · exact call_grows _ _ _ _ _ h
  · exact call_grows _ _ _ _ _ h
  · exact call_grows _ _ _ _ _ h
  · exact call_grows _ _ _ _ _ h
  · exact call_grows _ _ _ _ _ h
  · simp at h
    rw [← h.2]
    exact ⟨⟨rfl, rfl, rfl⟩, rfl, ⟨[], by simp⟩, ⟨[], by simp⟩⟩

theorem set_video_resolution_grows (W : Deps β γ F) (value : String)
    (s s1 : CameraImpl β γ F) (b : Bool)
    (h : set_video_resolution W value s = .ok (b, s1)) : Grows s s1 := by
  unfold set_video_resolution at h
  simp only at h
  split at h
  · simp at h
  · rename_i r s0 hc
    exact grows_trans _ _ _ (callCam_grows _ _ _ _ _ _ hc) (call_grows _ _ _ _ _ h)

theorem ir_call_grows (c : BackendCall F) (f : γ → Int × γ) (s s1 : CameraImpl β γ F)
    (b : Bool)
    (h : (match callIr Reported.status c f s with
      | .error err => (.error err : Outcome β γ F Bool)
      | .ok (result, s0) => .ok (decide (result = 0), s0)) = .ok (b, s1)) :
    Grows s s1 := by
  split at h
  · simp at h
  · rename_i r s0 hc
    simp at h
    rw [← h.2]
    exact callIr_grows _ _ _ _ _ _ hc

theorem set_ir_palette_grows (W : Deps β γ F) (v : String) (s s1 : CameraImpl β γ F)
    (b : Bool) (h : set_ir_palette W v s = .ok (b, s1)) : Grows s s1 := by
  unfold set_ir_palette at h
  split at h
  · simp at h
  · split at h
    · exact ir_call_grows _ _ _ _ _ h
    · simp at h; rw [← h.2]; exact grows_refl s

theorem set_ir_FFC_grows (W : Deps β γ F) (v : String) (s s1 : CameraImpl β γ F)
    (b : Bool) (h : set_ir_FFC W v s = .ok (b, s1)) : Grows s s1 := by
  unfold set_ir_FFC at h
  split at h
  · exact ir_call_grows _ _ _ _ _ h
  · simp at h; rw [← h.2]; exact grows_refl s

theorem dispatch_other_grows (W : Deps β γ F)
    (sm : Camera.Mode → CameraImpl β γ F → Outcome β γ F Camera.Result)
    (setting : Camera.Setting) (s s1 : CameraImpl β γ F) (b : Bool)
    (hid : setting.setting_id ≠ kCameraModeName)
    (h : set_setting_dispatch W sm setting s = .ok (b, s1)) : Grows s s1 := by
  unfold set_setting_dispatch at h
  rw [if_neg hid] at h
  by_cases he : setting.setting_id = kExposureMode
  · have h1 : setting.setting_id ≠ kCameraDisplayModeName := by rw [he]; decide
    have h2 : setting.setting_id ≠ kPhotoResolution := by rw [he]; decide
    have h3 : setting.setting_id ≠ kWhitebalanceModeName := by rw [he]; decide
    rw [if_neg h1, if_neg h2, if_neg h3, if_pos he] at h
    simp at h
    rw [← h.2]
    exact grows_refl s
  · rw [if_neg he] at h
    split_ifs at h
    · exact set_camera_display_mode_grows _ _ _ _ _ h
    · exact call_grows _ _ _ _ _ h
    · exact call_grows _ _ _ _ _ h
    · simp at h; rw [← h.2]; exact grows_refl s
    · exact set_whitebalance_mode_grows _ _ _ _ _ h
    · split at h
      · simp at h
      · exact call_grows _ _ _ _ _ h
    · split at h
      · simp at h
      · exact call_grows _ _ _ _ _ h
    · exact call_grows _ _ _ _ _ h
    · exact set_video_resolution_grows _ _ _ _ _ h
    · exact set_ir_palette_grows _ _ _ _ _ h
    · exact set_ir_FFC_grows _ _ _ _ _ h
    · simp at h; rw [← h.2]; exact grows_refl s

end lemmas

/-! ## Lemmas on the loader -/

section lemmas

variable {β γ F : Type}

theorem get_camera_display_mode_grows (W : Deps β γ F) (s s1 : CameraImpl β γ F) (v : String)
    (h : get_camera_display_mode W s = .ok (v, s1)) : Grows s s1 := by
  unfold get_camera_display_mode at h
  split at h
  · simp at h
  · rename_i r s0 hc
    have hg := callCam_grows _ _ _ _ _ _ hc
    split_ifs at h
    · split at h <;> (simp at h; rw [← h.2]; exact hg)

theorem get_whitebalance_mode_grows (W : Deps β γ F) (s s1 : CameraImpl β γ F) (v : String)
    (h : get_whitebalance_mode W s = .ok (v, s1)) : Grows s s1 := by
  unfold get_whitebalance_mode at h
  split at h
  · simp at h
  · rename_i r s0 hc
    have hg := callCam_grows _ _ _ _ _ _ hc
    split_ifs at h <;> (simp at h; rw [← h.2]; exact hg)

theorem get_ev_value_grows (W : Deps β γ F) (s s1 : CameraImpl β γ F) (v : String)
    (h : get_ev_value W s = .ok (v, s1)) : Grows s s1 := by
  unfold get_ev_value at h
  split at h
  · simp at h
  · rename_i r s0 hc
    have hg := callCam_grows _ _ _ _ _ _ hc
    split_ifs at h <;> (simp at h; rw [← h.2]; exact hg)

theorem get_iso_value_grows (W : Deps β γ F) (s s1 : CameraImpl β γ F) (v : String)
    (h : get_iso_value W s = .ok (v, s1)) : Grows s s1 := by
  unfold get_iso_value at h
  split at h
  · simp at h
  · rename_i r s0 hc
    have hg := callCam_grows _ _ _ _ _ _ hc
    split_ifs at h <;> (simp at h; rw [← h.2]; exact hg)

theorem get_shutter_speed_value_grows (W : Deps β γ F) (s s1 : CameraImpl β γ F)
    (v : String) (h : get_shutter_speed_value W s = .ok (v, s1)) : Grows s s1 := by
  unfold get_shutter_speed_value at h
  split at h
  · simp at h
  · rename_i r s0 hc
    have hg := callCam_grows _ _ _ _ _ _ hc
    simp only at h
    split_ifs at h
    · simp at h; rw [← h.2]; exact hg
    · simp at h; rw [← h.2]; exact hg
    · split at h
      · simp at h; rw [← h.2]; exact hg
      · simp at h

theorem get_video_resolution_grows (W : Deps β γ F) (s s1 : CameraImpl β γ F) (v : String)
    (h : get_video_resolution W s = .ok (v, s1)) : Grows s s1 := by
  unfold get_video_resolution at h
  split at h
  · simp at h
  · rename_i r s0 hc
    have hg := callCam_grows _ _ _ _ _ _ hc
    split_ifs at h
    · simp at h; rw [← h.2]; exact hg
    · split at h
      · simp at h
      · rename_i r2 s2 hc2
        have hg2 := grows_trans _ _ _ hg (callCam_grows _ _ _ _ _ _ hc2)
        split_ifs at h <;> (simp at h; rw [← h.2]; exact hg2)

theorem grows_of_fields (s s1 : CameraImpl β γ F)
    (h1 : s1._status = s._status) (h2 : s1._start_video_time = s._start_video_time)
    (h3 : s1._current_storage_information = s._current_storage_information)
    (h4 : s1._current_mode = s._current_mode) (h5 : s1._settings = s._settings)
    (h6 : s1.calls = s.calls) : Grows s s1 :=
  ⟨⟨by rw [h1], h2, h3⟩, h4, ⟨[], by simp [h5]⟩, ⟨[], by simp [h6]⟩⟩

theorem init_ir_camera_grows (W : Deps β γ F) (P : Platform β γ) (s s1 : CameraImpl β γ F)
    (b : Bool) (h : init_ir_camera W P s = .ok (b, s1)) : Grows s s1 := by
  unfold init_ir_camera at h
  split at h
  · simp at h; rw [← h.2]; exact grows_refl s
  · split at h
    · simp at h; rw [← h.2]; exact grows_of_fields _ _ rfl rfl rfl rfl rfl rfl
    · split_ifs at h
      · simp at h; rw [← h.2]; exact grows_of_fields _ _ rfl rfl rfl rfl rfl rfl
      · split at h
        · simp at h
        · rename_i r1 t1 hc1
          have c1 := callIr_grows _ _ _ _ _ _ hc1
          have g1 : Grows s t1 :=
            grows_trans _ _ _ (grows_of_fields _ _ rfl rfl rfl rfl rfl rfl) c1
          split_ifs at h
          · simp at h; rw [← h.2]
            exact grows_trans _ _ _ g1 (grows_of_fields _ _ rfl rfl rfl rfl rfl rfl)
          · split at h
            · simp at h
            · rename_i r2 t2 hc2
              have g2 : Grows s t2 := grows_trans _ _ _ g1 (callIr_grows _ _ _ _ _ _ hc2)
              split_ifs at h
              · simp at h; rw [← h.2]
                exact grows_trans _ _ _ g2 (grows_of_fields _ _ rfl rfl rfl rfl rfl rfl)
              · split at h
                · simp at h
                · rename_i r3 t3 hc3
                  have g3 : Grows s t3 :=
                    grows_trans _ _ _ g2 (callIr_grows _ _ _ _ _ _ hc3)
                  split_ifs at h
                  · simp at h; rw [← h.2]
                    exact grows_trans _ _ _ g3
                      (grows_of_fields _ _ rfl rfl rfl rfl rfl rfl)
                  · simp at h; rw [← h.2]; exact g3

theorem prepare_ir_settings_grows (W : Deps β γ F) (s s1 : CameraImpl β γ F)
    (r : Camera.Result) (h : prepare_ir_settings W s = .ok (r, s1)) :
    r = Camera.Result.Success ∧ Grows s s1 := by
  unfold prepare_ir_settings at h
  obtain ⟨a, s0, hc, hk⟩ := andThen_ok _ _ _ _ h
  simp at hk
  refine ⟨hk.1.symm, ?_⟩
  rw [← hk.2]
  exact grows_trans _ _ _ (callIr_grows _ _ _ _ _ _ hc)
    (grows_trans _ _ _ (emplace_back_grows _ _) (emplace_back_grows _ _))

theorem prepare_configure_inv (W : Deps β γ F) (P : Platform β γ) (s s1 : CameraImpl β γ F)
    (r : Camera.Result) (h : prepare_configure W P s = .ok (r, s1)) :
    r = Camera.Result.Success ∧ Kept s s1 ∧ s1._current_mode = s._current_mode ∧
      ∃ b more new, s._mav_camera = some b ∧
        s1._settings = s._settings ++
          build_setting kCameraModeName
            (if (prepare_options P s).init_mode = mav_camera.Mode.Photo then "0" else "1") ::
            more ∧
        s1.calls = s.calls ++
          (BackendCall.set_log_path "/data/camera/qcom_cam.log", Reported.nothing) ::
          (BackendCall.open_ (prepare_options P s),
            Reported.result (W.cam.open_ (W.cam.set_log_path b "/data/camera/qcom_cam.log")
              (prepare_options P s)).1) :: new := by
  unfold prepare_configure at h
  obtain ⟨_, t0, hc0, h⟩ := andThen_ok _ _ _ _ h
  obtain ⟨ro, t1, hc1, h⟩ := andThen_ok _ _ _ _ h
  obtain ⟨_, t2, hc2, h⟩ := andThen_ok _ _ _ _ h
  obtain ⟨dm, t3, hc3, h⟩ := andThen_ok _ _ _ _ h
  obtain ⟨wb, t4, hc4, h⟩ := andThen_ok _ _ _ _ h
  obtain ⟨ev, t5, hc5, h⟩ := andThen_ok _ _ _ _ h
  obtain ⟨iso, t6, hc6, h⟩ := andThen_ok _ _ _ _ h
  obtain ⟨sh, t7, hc7, h⟩ := andThen_ok _ _ _ _ h
  obtain ⟨vr, t8, hc8, h⟩ := andThen_ok _ _ _ _ h
  obtain ⟨ir, t9, hc9, h⟩ := andThen_ok _ _ _ _ h
  -- the state after the entry for the camera mode, written out
  obtain ⟨b, hb, _, ht0⟩ := callCam_inv _ _ _ _ _ _ hc0
  obtain ⟨b1, hb1, hro, ht1⟩ := callCam_inv _ _ _ _ _ _ hc1
  have hopt : prepare_options P t0 = prepare_options P s := by rw [ht0]; rfl
  rw [hopt] at hc1 hc2 ht1 hro
  have hb1e : b1 = W.cam.set_log_path b "/data/camera/qcom_cam.log" := by
    rw [ht0] at hb1
    simpa using hb1.symm
  subst hb1e
  -- everything after that entry only grows the state
  have g2 := callCam_grows _ _ _ _ _ _ hc2
  have g3 := get_camera_display_mode_grows _ _ _ _ hc3
  have g4 := get_whitebalance_mode_grows _ _ _ _ hc4
  have g5 := get_ev_value_grows _ _ _ _ hc5
  have g6 := get_iso_value_grows _ _ _ _ hc6
  have g7 := get_shutter_speed_value_grows _ _ _ _ hc7
  have g8 := get_video_resolution_grows _ _ _ _ hc8
  have g9 := init_ir_camera_grows _ _ _ _ _ hc9
  have e := fun (x : Camera.Setting) (t : CameraImpl β γ F) => emplace_back_grows x t
  have gt9 := grows_trans _ _ _ g2 (grows_trans _ _ _ g3 (grows_trans _ _ _
    (grows_trans _ _ _ (e _ _) (grows_trans _ _ _ (e _ _) g4)) (grows_trans _ _ _
    (grows_trans _ _ _ (e _ _) (grows_trans _ _ _ (e _ _) g5)) (grows_trans _ _ _
    (grows_trans _ _ _ (e _ _) g6) (grows_trans _ _ _
    (grows_trans _ _ _ (e _ _) g7) (grows_trans _ _ _
    (grows_trans _ _ _ (e _ _) (grows_trans _ _ _ (e _ _) g8))
    (grows_trans _ _ _ (e _ _) g9)))))))
  have hfin : r = Camera.Result.Success ∧ Grows t9 s1 := by
    split_ifs at h
    · exact prepare_ir_settings_grows _ _ _ _ h
    · simp at h; rw [← h.2]; exact ⟨h.1.symm, grows_refl _⟩
  have gall := grows_trans _ _ _ gt9 hfin.2
  obtain ⟨⟨k1, k2, k3⟩, km, ⟨more, hmore⟩, ⟨new, hnew⟩⟩ := gall
  refine ⟨hfin.1, ?_, ?_, b, more, new, hb, ?_, ?_⟩
  · refine ⟨?_, ?_, ?_⟩
    · rw [k1]; split_ifs <;> rw [ht1, ht0] <;> rfl
    · rw [k2]; split_ifs <;> rw [ht1, ht0] <;> rfl
    · rw [k3]; split_ifs <;> rw [ht1, ht0] <;> rfl
  · rw [km]; split_ifs <;> rw [ht1, ht0] <;> rfl
  · rw [hmore]; split_ifs <;> rw [ht1, ht0] <;> simp [emplace_back]
  · rw [hnew]; split_ifs <;> rw [ht1, ht0] <;> simp [emplace_back, repVoid]

end lemmas

/-! ## Lemmas on the settings path -/

section lemmas

variable {β γ F : Type}

theorem close_camera_fields (s : CameraImpl β γ F) :
    (close_camera s)._settings = s._settings ∧ (close_camera s)._framerate = s._framerate ∧
      (close_camera s)._current_mode = s._current_mode ∧ Kept s (close_camera s) ∧
      ∃ new, (close_camera s).calls = s.calls ++ new := by
  unfold close_camera
  cases h : s._mav_camera with
  | none => exact ⟨rfl, rfl, rfl, ⟨rfl, rfl, rfl⟩, [], by simp⟩
  | some b => exact ⟨rfl, rfl, rfl, ⟨rfl, rfl, rfl⟩, _, rfl⟩

theorem prepare_inv (W : Deps β γ F) (P : Platform β γ) (s s1 : CameraImpl β γ F)
    (r : Camera.Result) (h : prepare W P s = .ok (r, s1)) :
    Kept s s1 ∧ s1._current_mode = s._current_mode := by
  obtain ⟨_, _, hm, hk, _⟩ := close_camera_fields s
  unfold prepare at h
  split at h
  · simp at h; rw [← h.2]; exact ⟨hk, hm⟩
  · split_ifs at h
    · simp at h; rw [← h.2]; exact ⟨hk, hm⟩
    · split at h
      · simp at h; rw [← h.2]; exact ⟨hk, hm⟩
      · obtain ⟨_, k, m, _⟩ := prepare_configure_inv _ _ _ _ _ h
        exact ⟨kept_trans _ _ _ hk k, m.trans hm⟩

theorem set_mode_unknown (W : Deps β γ F) (s : CameraImpl β γ F) (b : β)
    (hb : s._mav_camera = some b) (hm : s._current_mode ≠ Camera.Mode.Unknown) :
    set_mode W Camera.Mode.Unknown s =
      .ok (convert_camera_result_to_mav_result
          (W.cam.set_mode (W.cam.set_mode b mav_camera.Mode.Video).2 mav_camera.Mode.Video).1,
        { s with
          _current_mode := Camera.Mode.Video
          _mav_camera := some
            (W.cam.set_mode (W.cam.set_mode b mav_camera.Mode.Video).2 mav_camera.Mode.Video).2
          calls := s.calls ++
            [(BackendCall.set_mode mav_camera.Mode.Video,
                Reported.result (W.cam.set_mode b mav_camera.Mode.Video).1),
              (BackendCall.set_mode mav_camera.Mode.Video,
                Reported.result (W.cam.set_mode (W.cam.set_mode b mav_camera.Mode.Video).2
                  mav_camera.Mode.Video).1)] }) := by
  simp [set_mode, set_mode_fuel, hm, set_setting_with, set_setting_dispatch, build_setting,
    callCam, hb, kCameraModeName]

theorem set_mode_inv (W : Deps β γ F) (m : Camera.Mode) (s s1 : CameraImpl β γ F)
    (r : Camera.Result) (h : set_mode W m s = .ok (r, s1)) :
    (s._current_mode = m ∧ r = Camera.Result.Success ∧ s1 = s) ∨
    (s._current_mode ≠ m ∧ ∃ b, s._mav_camera = some b ∧
      ((m = Camera.Mode.Photo ∧ s1 =
          { s with
            _current_mode := Camera.Mode.Photo
            _mav_camera := some (W.cam.set_mode b mav_camera.Mode.Photo).2
            calls := s.calls ++ [(BackendCall.set_mode mav_camera.Mode.Photo,
              Reported.result (W.cam.set_mode b mav_camera.Mode.Photo).1)] }) ∨
        (m = Camera.Mode.Video ∧ s1 =
          { s with
            _current_mode := Camera.Mode.Video
            _mav_camera := some (W.cam.set_mode b mav_camera.Mode.Video).2
            calls := s.calls ++ [(BackendCall.set_mode mav_camera.Mode.Video,
              Reported.result (W.cam.set_mode b mav_camera.Mode.Video).1)] }) ∨
        (m = Camera.Mode.Unknown ∧ s1 =
          { s with
            _current_mode := Camera.Mode.Video
            _mav_camera := some (W.cam.set_mode (W.cam.set_mode b mav_camera.Mode.Video).2
              mav_camera.Mode.Video).2
            calls := s.calls ++
              [(BackendCall.set_mode mav_camera.Mode.Video,
                  Reported.result (W.cam.set_mode b mav_camera.Mode.Video).1),
                (BackendCall.set_mode mav_camera.Mode.Video,
                  Reported.result (W.cam.set_mode (W.cam.set_mode b mav_camera.Mode.Video).2
                    mav_camera.Mode.Video).1)] }))) := by
  by_cases hm : s._current_mode = m
  · rw [set_mode_same W m s hm] at h
    simp at h
    exact Or.inl ⟨hm, h.1.symm, h.2.symm⟩
  · refine Or.inr ⟨hm, ?_⟩
    cases hb : s._mav_camera with
    | none =>
      exfalso
      cases m <;>
        simp [set_mode, set_mode_fuel, hm, set_setting_with, set_setting_dispatch,
          build_setting, callCam, hb, kCameraModeName] at h
    | some b =>
      refine ⟨b, rfl, ?_⟩
      cases m with
      | Unknown =>
        rw [set_mode_unknown W s b hb hm] at h
        simp at h
        exact Or.inr (Or.inr ⟨rfl, h.2.symm⟩)
      | Photo =>
        rw [set_mode_photo W s b hb hm] at h
        simp at h
        exact Or.inl ⟨rfl, h.2.symm⟩
      | Video =>
        rw [set_mode_video W s b hb hm] at h
        simp at h
        exact Or.inr (Or.inl ⟨rfl, h.2.symm⟩)

theorem registryFrame_refl (touched : String → Prop) (l : List Camera.Setting) :
    RegistryFrame touched l l := by
  unfold RegistryFrame
  induction l with
  | nil => exact List.Forall₂.nil
  | cons a t ih => exact List.Forall₂.cons ⟨rfl, rfl, rfl, fun _ => rfl⟩ ih

theorem registryFrame_mono (t1 t2 : String → Prop) (h : ∀ id, t1 id → t2 id)
    (l l1 : List Camera.Setting) (hf : RegistryFrame t1 l l1) : RegistryFrame t2 l l1 := by
  unfold RegistryFrame at hf ⊢
  exact List.Forall₂.imp
    (fun a b hab => ⟨hab.1, hab.2.1, hab.2.2.1, fun hn => hab.2.2.2 (fun ht => hn (h _ ht))⟩) hf

theorem registryFrame_trans (touched : String → Prop) (l l1 l2 : List Camera.Setting)
    (h1 : RegistryFrame touched l l1) (h2 : RegistryFrame touched l1 l2) :
    RegistryFrame touched l l2 := by
  unfold RegistryFrame at h1 h2 ⊢
  induction h1 generalizing l2 with
  | nil => cases h2; exact List.Forall₂.nil
  | cons hab _ ih =>
    cases h2 with
    | cons hbc hrest =>
      refine List.Forall₂.cons ⟨hbc.1.trans hab.1, hbc.2.1.trans hab.2.1,
        hbc.2.2.1.trans hab.2.2.1, fun hn => ?_⟩ (ih _ hrest)
      have e1 := hab.2.2.2 hn
      rw [e1] at hbc
      exact hbc.2.2.2 hn

theorem registryFrame_update (settings : List Camera.Setting) (setting : Camera.Setting) :
    RegistryFrame (fun id => id = setting.setting_id) settings
      (update_settings settings setting) := by
  unfold RegistryFrame update_settings
  induction settings with
  | nil => exact List.Forall₂.nil
  | cons a t ih =>
    refine List.Forall₂.cons ?_ ih
    by_cases ha : a.setting_id = setting.setting_id
    · simp [ha]
    · simp [ha]

theorem registryFrame_ids (touched : String → Prop) (l l1 : List Camera.Setting)
    (h : RegistryFrame touched l l1) :
    l1.map (fun it => it.setting_id) = l.map (fun it => it.setting_id) := by
  unfold RegistryFrame at h
  induction h with
  | nil => rfl
  | cons hab _ ih => simp [hab.1, ih]

theorem set_setting_with_state (W : Deps β γ F)
    (sm : Camera.Mode → CameraImpl β γ F → Outcome β γ F Camera.Result)
    (setting : Camera.Setting) (s s1 : CameraImpl β γ F) (r : Camera.Result)
    (h : set_setting_with W sm setting s = .ok (r, s1)) :
    r = Camera.Result.Success ∧ ∃ b s0, set_setting_dispatch W sm setting s = .ok (b, s0) ∧
      s1 = (if b then { s0 with _settings := update_settings s0._settings setting } else s0) := by
  unfold set_setting_with at h
  split at h
  · simp at h
  · rename_i b s0 hd
    split_ifs at h with hb
    · simp at h
      exact ⟨h.1.symm, b, s0, hd, by rw [← h.2]; simp [hb]⟩
    · simp at h
      exact ⟨h.1.symm, b, s0, hd, by rw [← h.2]; simp [hb]⟩

theorem retunes_refl (s : CameraImpl β γ F) : Retunes s s :=
  ⟨kept_refl s, fun h => h, registryFrame_refl _ _⟩

theorem retunes_trans (s s0 s1 : CameraImpl β γ F) (h0 : Retunes s s0) (h1 : Retunes s0 s1) :
    Retunes s s1 :=
  ⟨kept_trans _ _ _ h0.1 h1.1, fun h => h1.2.1 (h0.2.1 h),
    registryFrame_trans _ _ _ _ h0.2.2 h1.2.2⟩

theorem retunes_of_grows (s s1 : CameraImpl β γ F) (h : Grows s s1)
    (hs : s1._settings = s._settings) : Retunes s s1 :=
  ⟨h.1, fun hm => by rw [h.2.1]; exact hm, by rw [hs]; exact registryFrame_refl _ _⟩

theorem set_mode_retunes (W : Deps β γ F) (m : Camera.Mode) (s s1 : CameraImpl β γ F)
    (r : Camera.Result) (h : set_mode W m s = .ok (r, s1)) :
    Retunes s s1 ∧ s1._settings = s._settings := by
  rcases set_mode_inv W m s s1 r h with ⟨_, _, hs⟩ | ⟨_, b, _, hc⟩
  · subst hs; exact ⟨retunes_refl _, rfl⟩
  · rcases hc with ⟨_, hs⟩ | ⟨_, hs⟩ | ⟨_, hs⟩ <;> subst hs <;>
      exact ⟨⟨⟨rfl, rfl, rfl⟩, fun _ => by simp, registryFrame_refl _ _⟩, rfl⟩

theorem set_setting_frame (W : Deps β γ F) (setting : Camera.Setting)
    (s s1 : CameraImpl β γ F) (r : Camera.Result)
    (h : set_setting W setting s = .ok (r, s1)) :
    Kept s s1 ∧
      (s._current_mode ≠ Camera.Mode.Unknown → s1._current_mode ≠ Camera.Mode.Unknown) ∧
      RegistryFrame (fun id => id = setting.setting_id) s._settings s1._settings := by
  obtain ⟨_, b, s0, hd, hs1⟩ := set_setting_with_state _ _ _ _ _ _ h
  have key : Kept s s0 ∧
      (s._current_mode ≠ Camera.Mode.Unknown → s0._current_mode ≠ Camera.Mode.Unknown) ∧
      s0._settings = s._settings := by
    by_cases hid : setting.setting_id = kCameraModeName
    · unfold set_setting_dispatch at hd
      rw [if_pos hid] at hd
      split at hd
      · simp at hd
      · rename_i r0 t0 hc
        simp at hd
        rw [← hd.2]
        split_ifs at hc
        · obtain ⟨hr, hset⟩ := set_mode_retunes _ _ _ _ _ hc
          exact ⟨hr.1, hr.2.1, hset⟩
        · obtain ⟨hr, hset⟩ := set_mode_retunes _ _ _ _ _ hc
          exact ⟨hr.1, hr.2.1, hset⟩
    · have hg := dispatch_other_grows W _ _ _ _ _ hid hd
      obtain ⟨new, hf⟩ := dispatch_other_frame W _ _ _ _ _ hid hd
      exact ⟨hg.1, fun hm => by rw [hg.2.1]; exact hm, hf.1⟩
  obtain ⟨k, km, kset⟩ := key
  cases b with
  | false =>
    simp at hs1
    subst hs1
    exact ⟨k, km, by rw [kset]; exact registryFrame_refl _ _⟩
  | true =>
    simp at hs1
    subst hs1
    exact ⟨k, km, by simpa [kset] using registryFrame_update s._settings setting⟩

theorem set_setting_retunes (W : Deps β γ F) (setting : Camera.Setting)
    (s s1 : CameraImpl β γ F) (r : Camera.Result)
    (h : set_setting W setting s = .ok (r, s1)) : Retunes s s1 := by
  obtain ⟨k, km, kf⟩ := set_setting_frame W setting s s1 r h
  exact ⟨k, km, registryFrame_mono _ _ (fun _ _ => trivial) _ _ kf⟩

theorem reset_settings_retunes (W : Deps β γ F) (s s1 : CameraImpl β γ F)
    (r : Camera.Result) (h : reset_settings W s = .ok (r, s1)) : Retunes s s1 := by
  unfold reset_settings at h
  obtain ⟨_, t0, hc0, h⟩ := andThen_ok _ _ _ _ h
  obtain ⟨_, t1, hc1, h⟩ := andThen_ok _ _ _ _ h
  obtain ⟨_, t2, hc2, h⟩ := andThen_ok _ _ _ _ h
  obtain ⟨_, t3, hc3, h⟩ := andThen_ok _ _ _ _ h
  obtain ⟨_, t4, hc4, h⟩ := andThen_ok _ _ _ _ h
  obtain ⟨_, t5, hc5, h⟩ := andThen_ok _ _ _ _ h
  obtain ⟨_, t6, hc6, h⟩ := andThen_ok _ _ _ _ h
  obtain ⟨_, t7, hc7, h⟩ := andThen_ok _ _ _ _ h
  obtain ⟨_, t8, hc8, h⟩ := andThen_ok _ _ _ _ h
  obtain ⟨_, t9, hc9, h⟩ := andThen_ok _ _ _ _ h
  obtain ⟨_, t10, hc10, h⟩ := andThen_ok _ _ _ _ h
  simp at h
  rw [← h.2]
  have g0 := (set_mode_retunes _ _ _ _ _ hc0).1
  have g1 := retunes_of_grows _ _ (set_camera_display_mode_grows _ _ _ _ _ hc1)
    (post_display _ _ _ _ _ hc1).choose_spec.1.1
  have g2 := set_setting_retunes _ _ _ _ _ hc2
  have g3 := retunes_of_grows _ _ (set_whitebalance_mode_grows _ _ _ _ _ hc3)
    (wb_frame _ _ _ _ _ hc3).choose_spec.1
  have g4 := set_setting_retunes _ _ _ _ _ hc4
  have g5 := set_setting_retunes _ _ _ _ _ hc5
  have g6 := set_setting_retunes _ _ _ _ _ hc6
  have g7 := set_setting_retunes _ _ _ _ _ hc7
  have g8 := set_setting_retunes _ _ _ _ _ hc8
  have g9 := set_setting_retunes _ _ _ _ _ hc9
  have g10 := set_setting_retunes _ _ _ _ _ hc10
  exact retunes_trans _ _ _ g0 (retunes_trans _ _ _ g1 (retunes_trans _ _ _ g2
    (retunes_trans _ _ _ g3 (retunes_trans _ _ _ g4 (retunes_trans _ _ _ g5
    (retunes_trans _ _ _ g6 (retunes_trans _ _ _ g7 (retunes_trans _ _ _ g8
    (retunes_trans _ _ _ g9 g10)))))))))

end lemmas

/-! ## Lemmas on sequences of facade operations -/

section lemmas

variable {β γ F : Type}

theorem returning_ok {A : Type} (f : A → Option Camera.Result) (o : Outcome β γ F A)
    (r : Option Camera.Result) (s1 : CameraImpl β γ F) (h : returning f o = .ok (r, s1)) :
    ∃ a, o = .ok (a, s1) ∧ r = f a := by
  unfold returning at h
  split at h
  · simp at h
  · rename_i a s0
    simp at h
    exact ⟨a, by rw [h.2], h.1.symm⟩

theorem translated_call_grows (c : BackendCall F) (f : β → mav_camera.Result × β)
    (s s1 : CameraImpl β γ F) (r : Camera.Result)
    (h : (match callCam Reported.result c f s with
      | .error e => (.error e : Outcome β γ F Camera.Result)
      | .ok (result, s0) => .ok (convert_camera_result_to_mav_result result, s0)) =
        .ok (r, s1)) : Grows s s1 := by
  split at h
  · simp at h
  · rename_i r0 s0 hc
    simp at h
    rw [← h.2]
    exact callCam_grows _ _ _ _ _ _ hc

theorem set_timestamp_grows (W : Deps β γ F) (timestamp : Int) (s s1 : CameraImpl β γ F)
    (r : Camera.Result) (h : set_timestamp W timestamp s = .ok (r, s1)) : Grows s s1 := by
  unfold set_timestamp at h
  split at h
  · split at h
    · simp at h
    · rename_i r0 s0 hc
      simp at h
      rw [← h.2]
      exact callCam_grows _ _ _ _ _ _ hc
  · simp at h; rw [← h.2]; exact grows_refl s

theorem information_grows (W : Deps β γ F) (s s1 : CameraImpl β γ F)
    (info : Camera.Information F) (h : information W s = .ok (info, s1)) : Grows s s1 := by
  unfold information at h
  split at h
  · split at h
    · simp at h
    · rename_i r0 s0 hc
      have hg := callCam_grows _ _ _ _ _ _ hc
      split_ifs at h <;> (simp at h; rw [← h.2]; exact hg)
  · simp at h; rw [← h.2]; exact grows_refl s

theorem video_stream_info_grows (W : Deps β γ F) (s s1 : CameraImpl β γ F)
    (info : List (Camera.VideoStreamInfo F)) (h : video_stream_info W s = .ok (info, s1)) :
    Grows s s1 := by
  unfold video_stream_info at h
  split at h
  · split at h
    · simp at h
    · rename_i r0 s0 hc
      simp at h
      rw [← h.2]
      exact callCam_grows _ _ _ _ _ _ hc
  · simp at h; rw [← h.2]; exact grows_refl s

theorem start_video_inv (W : Deps β γ F) (now : Nat) (s s1 : CameraImpl β γ F)
    (r : Camera.Result) (h : start_video W now s = .ok (r, s1)) :
    s1._current_mode = s._current_mode ∧
      s1._current_storage_information = s._current_storage_information ∧
      (r = Camera.Result.Success → s1._status.video_on = true ∧ s1._start_video_time = now) ∧
      (r ≠ Camera.Result.Success → s1._status.video_on = s._status.video_on ∧
        s1._start_video_time = s._start_video_time) := by
  unfold start_video at h
  split at h
  · simp at h
  · rename_i r0 s0 hc
    obtain ⟨b, _, _, hs0⟩ := callCam_inv _ _ _ _ _ _ hc
    split_ifs at h with hr
    · simp at h
      obtain ⟨h1, h2⟩ := h
      subst h2 hs0
      exact ⟨rfl, rfl, fun _ => ⟨rfl, rfl⟩, fun hn => absurd (h1 ▸ hr) hn⟩
    · simp at h
      obtain ⟨h1, h2⟩ := h
      subst h2 hs0
      exact ⟨rfl, rfl, fun hn => absurd (h1 ▸ hn) hr, fun _ => ⟨rfl, rfl⟩⟩

theorem stop_video_inv (W : Deps β γ F) (s s1 : CameraImpl β γ F)
    (r : Camera.Result) (h : stop_video W s = .ok (r, s1)) :
    s1._current_mode = s._current_mode ∧
      s1._current_storage_information = s._current_storage_information ∧
      s1._start_video_time = s._start_video_time ∧
      (r = Camera.Result.Success → s1._status.video_on = false) ∧
      (r ≠ Camera.Result.Success → s1._status.video_on = s._status.video_on) := by
  unfold stop_video at h
  split at h
  · simp at h
  · rename_i r0 s0 hc
    obtain ⟨b, _, _, hs0⟩ := callCam_inv _ _ _ _ _ _ hc
    split_ifs at h with hr
    · simp at h
      obtain ⟨h1, h2⟩ := h
      subst h2 hs0
      exact ⟨rfl, rfl, rfl, fun _ => rfl, fun hn => absurd (h1 ▸ hr) hn⟩
    · simp at h
      obtain ⟨h1, h2⟩ := h
      subst h2 hs0
      exact ⟨rfl, rfl, rfl, fun hn => absurd (h1 ▸ hn) hr, fun _ => rfl⟩

theorem effect_of_kept (op : FacadeOp β γ F) (r : Option Camera.Result)
    (s s1 : CameraImpl β γ F) (hk : Kept s s1)
    (hm : s._current_mode ≠ Camera.Mode.Unknown → s1._current_mode ≠ Camera.Mode.Unknown)
    (hv : successful_video_call (op, r) = none) (hp : last_storage_push [op] = none) :
    StepEffect op r s s1 := by
  unfold StepEffect
  rw [hv, hp]
  exact ⟨hm, hk.2.2, hk.1, hk.2.1⟩

theorem effect_of_grows (op : FacadeOp β γ F) (r : Option Camera.Result)
    (s s1 : CameraImpl β γ F) (hg : Grows s s1)
    (hv : successful_video_call (op, r) = none) (hp : last_storage_push [op] = none) :
    StepEffect op r s s1 :=
  effect_of_kept op r s s1 hg.1 (fun h => by rw [hg.2.1]; exact h) hv hp

theorem effect_of_retunes (op : FacadeOp β γ F) (r : Option Camera.Result)
    (s s1 : CameraImpl β γ F) (hg : Retunes s s1)
    (hv : successful_video_call (op, r) = none) (hp : last_storage_push [op] = none) :
    StepEffect op r s s1 :=
  effect_of_kept op r s s1 hg.1 hg.2.1 hv hp

theorem facade_step_effect (W : Deps β γ F) (op : FacadeOp β γ F) (r : Option Camera.Result)
    (s s1 : CameraImpl β γ F) (h : facade_step W op s = .ok (r, s1)) :
    StepEffect op r s s1 := by
  cases op with
  | prepare P =>
    obtain ⟨a, ha, _⟩ := returning_ok _ _ _ _ h
    obtain ⟨k, m⟩ := prepare_inv _ _ _ _ _ ha
    exact effect_of_kept _ _ _ _ k (fun hm => by rw [m]; exact hm) rfl rfl
  | take_photo =>
    obtain ⟨a, ha, _⟩ := returning_ok _ _ _ _ h
    exact effect_of_grows _ _ _ _ (translated_call_grows _ _ _ _ _ ha) rfl rfl
  | start_photo_interval i =>
    simp [facade_step, returning, start_photo_interval] at h
    rw [← h.2]
    exact effect_of_grows _ _ _ _ (grows_refl s) rfl rfl
  | stop_photo_interval =>
    simp [facade_step, returning, stop_photo_interval] at h
    rw [← h.2]
    exact effect_of_grows _ _ _ _ (grows_refl s) rfl rfl
  | start_video now =>
    obtain ⟨a, ha, hr⟩ := returning_ok _ _ _ _ h
    obtain ⟨hm, hst, hyes, hno⟩ := start_video_inv _ _ _ _ _ ha
    subst hr
    refine ⟨fun hx => by rw [hm]; exact hx, hst, ?_, ?_⟩
    · by_cases hs : a = Camera.Result.Success
      · subst hs; exact (hyes rfl).1
      · rw [(hno hs).1]; cases a <;> first | exact absurd rfl hs | rfl
    · by_cases hs : a = Camera.Result.Success
      · subst hs; exact (hyes rfl).2
      · rw [(hno hs).2]; cases a <;> first | exact absurd rfl hs | rfl
  | stop_video =>
    obtain ⟨a, ha, hr⟩ := returning_ok _ _ _ _ h
    obtain ⟨hm, hst, htime, hyes, hno⟩ := stop_video_inv _ _ _ _ ha
    subst hr
    refine ⟨fun hx => by rw [hm]; exact hx, hst, ?_, ?_⟩
    · by_cases hs : a = Camera.Result.Success
      · subst hs; exact hyes rfl
      · rw [hno hs]; cases a <;> first | exact absurd rfl hs | rfl
    · rw [htime]; cases a <;> rfl
  | start_video_streaming i =>
    simp [facade_step, returning, start_video_streaming] at h
    rw [← h.2]
    exact effect_of_grows _ _ _ _ (grows_refl s) rfl rfl
  | stop_video_streaming i =>
    simp [facade_step, returning, stop_video_streaming] at h
    rw [← h.2]
    exact effect_of_grows _ _ _ _ (grows_refl s) rfl rfl
  | set_mode m =>
    obtain ⟨a, ha, _⟩ := returning_ok _ _ _ _ h
    exact effect_of_retunes _ _ _ _ (set_mode_retunes _ _ _ _ _ ha).1 rfl rfl
  | list_photos range =>
    simp [facade_step, returning, list_photos] at h
    rw [← h.2]
    exact effect_of_grows _ _ _ _ (grows_refl s) rfl rfl
  | mode =>
    simp [facade_step] at h
    rw [← h.2]
    exact effect_of_grows _ _ _ _ (grows_refl s) rfl rfl
  | information =>
    obtain ⟨a, ha, _⟩ := returning_ok _ _ _ _ h
    exact effect_of_grows _ _ _ _ (information_grows _ _ _ _ ha) rfl rfl
  | video_stream_info =>
    obtain ⟨a, ha, _⟩ := returning_ok _ _ _ _ h
    exact effect_of_grows _ _ _ _ (video_stream_info_grows _ _ _ _ ha) rfl rfl
  | capture_info =>
    simp [facade_step] at h
    rw [← h.2]
    exact effect_of_grows _ _ _ _ (grows_refl s) rfl rfl
  | status now =>
    simp [facade_step, returning, status] at h
    rw [← h.2]
    exact effect_of_kept _ _ _ _ ⟨rfl, rfl, rfl⟩ (fun hm => hm) rfl rfl
  | current_settings =>
    simp [facade_step] at h
    rw [← h.2]
    exact effect_of_grows _ _ _ _ (grows_refl s) rfl rfl
  | possible_setting_options =>
    simp [facade_step] at h
    rw [← h.2]
    exact effect_of_grows _ _ _ _ (grows_refl s) rfl rfl
  | set_setting setting =>
    obtain ⟨a, ha, _⟩ := returning_ok _ _ _ _ h
    exact effect_of_retunes _ _ _ _ (set_setting_retunes _ _ _ _ _ ha) rfl rfl
  | get_setting setting =>
    simp [facade_step, returning, get_setting] at h
    rw [← h.2]
    exact effect_of_grows _ _ _ _ (grows_refl s) rfl rfl
  | format_storage i =>
    obtain ⟨a, ha, _⟩ := returning_ok _ _ _ _ h
    exact effect_of_grows _ _ _ _ (translated_call_grows _ _ _ _ _ ha) rfl rfl
  | select_camera i =>
    simp [facade_step, returning, select_camera] at h
    rw [← h.2]
    exact effect_of_grows _ _ _ _ (grows_refl s) rfl rfl
  | reset_settings =>
    obtain ⟨a, ha, _⟩ := returning_ok _ _ _ _ h
    exact effect_of_retunes _ _ _ _ (reset_settings_retunes _ _ _ _ ha) rfl rfl
  | set_timestamp t =>
    obtain ⟨a, ha, _⟩ := returning_ok _ _ _ _ h
    exact effect_of_grows _ _ _ _ (set_timestamp_grows _ _ _ _ _ ha) rfl rfl
  | storage_information info =>
    simp [facade_step] at h
    rw [← h.2]
    exact ⟨fun hm => hm, rfl, rfl, rfl⟩

theorem facade_run_cons (W : Deps β γ F) (op : FacadeOp β γ F) (ops : List (FacadeOp β γ F))
    (s s2 : CameraImpl β γ F) (log : List (FacadeOp β γ F × Option Camera.Result))
    (h : facade_run W (op :: ops) s = .ok (log, s2)) :
    ∃ r s1 rest, facade_step W op s = .ok (r, s1) ∧ facade_run W ops s1 = .ok (rest, s2) ∧
      log = (op, r) :: rest := by
  unfold facade_run at h
  split at h
  · simp at h
  · rename_i r s1 hstep
    split at h
    · simp at h
    · rename_i rest s2' hrun
      simp at h
      exact ⟨r, s1, rest, hstep, by rw [← h.2]; exact hrun, h.1.symm⟩

theorem facade_run_mode (W : Deps β γ F) (ops : List (FacadeOp β γ F)) :
    ∀ (s s1 : CameraImpl β γ F) (log : List (FacadeOp β γ F × Option Camera.Result)),
      facade_run W ops s = .ok (log, s1) → s._current_mode ≠ Camera.Mode.Unknown →
        s1._current_mode ≠ Camera.Mode.Unknown := by
  induction ops with
  | nil =>
    intro s s1 log h hm
    simp [facade_run] at h
    rw [← h.2]; exact hm
  | cons op ops ih =>
    intro s s2 log h hm
    obtain ⟨r, s1, rest, hstep, hrun, _⟩ := facade_run_cons _ _ _ _ _ _ h
    exact ih s1 s2 rest hrun ((facade_step_effect _ _ _ _ _ hstep).1 hm)

theorem facade_run_storage (W : Deps β γ F) (ops : List (FacadeOp β γ F)) :
    ∀ (s s1 : CameraImpl β γ F) (log : List (FacadeOp β γ F × Option Camera.Result)),
      facade_run W ops s = .ok (log, s1) →
        s1._current_storage_information =
          (match last_storage_push ops with
            | some info => info
            | none => s._current_storage_information) := by
  induction ops with
  | nil =>
    intro s s1 log h
    simp [facade_run] at h
    rw [← h.2]; rfl
  | cons op ops ih =>
    intro s s2 log h
    obtain ⟨r, s1, rest, hstep, hrun, _⟩ := facade_run_cons _ _ _ _ _ _ h
    have h1 := (facade_step_effect _ _ _ _ _ hstep).2.1
    have h2 := ih s1 s2 rest hrun
    rw [h2]
    cases hl : last_storage_push ops with
    | some info => simp [last_storage_push, hl]
    | none =>
      simp only [last_storage_push, hl] at h1 ⊢
      exact h1

theorem facade_run_video (W : Deps β γ F) (ops : List (FacadeOp β γ F)) :
    ∀ (s s1 : CameraImpl β γ F) (log : List (FacadeOp β γ F × Option Camera.Result)),
      facade_run W ops s = .ok (log, s1) →
        s1._status.video_on =
          (match last_successful_video log with
            | some (VideoCall.started _) => true
            | some VideoCall.stopped => false
            | none => s._status.video_on) ∧
        s1._start_video_time =
          (match last_successful_video log with
            | some (VideoCall.started now) => now
            | _ => s1._start_video_time) ∧
        (last_successful_video log = none → s1._start_video_time = s._start_video_time) := by
  induction ops with
  | nil =>
    intro s s1 log h
    simp [facade_run] at h
    obtain ⟨h1, h2⟩ := h
    subst h1 h2
    exact ⟨rfl, rfl, fun _ => rfl⟩
  | cons op ops ih =>
    intro s s2 log h
    obtain ⟨r, s1, rest, hstep, hrun, hlog⟩ := facade_run_cons _ _ _ _ _ _ h
    obtain ⟨_, _, hv, ht⟩ := facade_step_effect _ _ _ _ _ hstep
    obtain ⟨i1, i2, i3⟩ := ih s1 s2 rest hrun
    subst hlog
    cases hl : last_successful_video rest with
    | some c =>
      rw [hl] at i1 i2
      simp only [last_successful_video, hl]
      cases c <;> exact ⟨i1, i2, fun hn => by simp at hn⟩
    | none =>
      rw [hl] at i1
      have i3' := i3 hl
      simp only [last_successful_video, hl]
      refine ⟨by rw [i1, hv], ?_, fun hn => by rw [i3', ht, hn]⟩
      cases hc : successful_video_call (op, r) with
      | none => rfl
      | some c =>
        cases c with
        | started now => rw [i3', ht, hc]
        | stopped => rfl

end lemmas

/-! ## Lemmas on runs that always return -/

section lemmas

variable {β γ F : Type}

theorem facade_run_video_ops_live (W : Deps β γ F) (ops : List (FacadeOp β γ F)) :
    ∀ s : CameraImpl β γ F, Live s → (∀ op ∈ ops, FacadeOp.is_video_op op = true) →
      ∃ log s1, facade_run W ops s = .ok (log, s1) ∧ Live s1 := by
  induction ops with
  | nil => intro s hl _; exact ⟨[], s, rfl, hl⟩
  | cons op ops ih =>
    intro s hl hops
    have hop := hops op (List.mem_cons_self _ _)
    have hrest : ∀ o ∈ ops, FacadeOp.is_video_op o = true :=
      fun o ho => hops o (List.mem_cons_of_mem _ ho)
    have hstep : ∃ r s1, facade_step W op s = .ok (r, s1) ∧ Live s1 := by
      obtain ⟨b, hb⟩ := hl
      cases op <;> simp [FacadeOp.is_video_op] at hop
      · simp only [facade_step, returning, start_video, callCam, hb]
        split_ifs
        · exact ⟨_, _, rfl, _, rfl⟩
        · exact ⟨_, _, rfl, _, rfl⟩
      · simp only [facade_step, returning, stop_video, callCam, hb]
        split_ifs
        · exact ⟨_, _, rfl, _, rfl⟩
        · exact ⟨_, _, rfl, _, rfl⟩
      · exact ⟨_, _, rfl, b, hb⟩
    obtain ⟨r, s1, hs, hl1⟩ := hstep
    obtain ⟨log, s2, hrun, hl2⟩ := ih s1 hl1 hrest
    exact ⟨(op, r) :: log, s2, by simp [facade_run, hs, hrun], hl2⟩

theorem facade_run_pushes (W : Deps β γ F) (ops : List (FacadeOp β γ F)) :
    ∀ s : CameraImpl β γ F, (∀ op ∈ ops, FacadeOp.is_storage_push op = true) →
      ∃ log s1, facade_run W ops s = .ok (log, s1) := by
  induction ops with
  | nil => intro s _; exact ⟨[], s, rfl⟩
  | cons op ops ih =>
    intro s hops
    have hop := hops op (List.mem_cons_self _ _)
    have hrest : ∀ o ∈ ops, FacadeOp.is_storage_push o = true :=
      fun o ho => hops o (List.mem_cons_of_mem _ ho)
    cases op <;> simp [FacadeOp.is_storage_push] at hop
    rename_i info
    obtain ⟨log, s2, hrun⟩ := ih (storage_information_callback info s) hrest
    exact ⟨(FacadeOp.storage_information info, none) :: log, s2,
      by simp [facade_run, facade_step, hrun]⟩

theorem last_storage_push_map (infos : List (mav_camera.StorageInformation F)) :
    last_storage_push (infos.map (fun i => (FacadeOp.storage_information i : FacadeOp β γ F))) =
      infos.getLast? := by
  induction infos with
  | nil => rfl
  | cons a t ih =>
    simp only [List.map_cons, last_storage_push, ih]
    cases t with
    | nil => rfl
    | cons b u =>
      rw [List.getLast?_cons_cons]
      cases h : (b :: u).getLast? with
      | none => simp at h
      | some x => rfl

end lemmas

/-! ## Lemmas on the recursion depth and on the video resolution branch -/

section lemmas

variable {β γ F : Type}

theorem set_mode_fuel_two (W : Deps β γ F) (n : Nat) (m : Camera.Mode) (s : CameraImpl β γ F)
    (hm : m ≠ Camera.Mode.Unknown) :
    set_mode_fuel W (n + 2) m s = set_mode_fuel W 2 m s ∧
      set_mode_fuel W 2 m s ≠ .error Fault.out_of_fuel := by
  by_cases h : s._current_mode = m
  · simp [set_mode_fuel, h]
  · cases m with
    | Unknown => exact absurd rfl hm
    | Photo =>
      cases hb : s._mav_camera <;>
        simp [set_mode_fuel, h, set_setting_with, set_setting_dispatch, build_setting, callCam,
          hb, kCameraModeName]
    | Video =>
      cases hb : s._mav_camera <;>
        simp [set_mode_fuel, h, set_setting_with, set_setting_dispatch, build_setting, callCam,
          hb, kCameraModeName]

theorem set_setting_mode_fuel_two (W : Deps β γ F) (n : Nat) (setting : Camera.Setting)
    (s : CameraImpl β γ F) (hid : setting.setting_id = kCameraModeName) :
    set_setting_with W (set_mode_fuel W (n + 2)) setting s =
        set_setting_with W (set_mode_fuel W 2) setting s ∧
      set_setting_with W (set_mode_fuel W 2) setting s ≠ .error Fault.out_of_fuel := by
  have hp := set_mode_fuel_two W n Camera.Mode.Photo s (by decide)
  have hv := set_mode_fuel_two W n Camera.Mode.Video s (by decide)
  unfold set_setting_with set_setting_dispatch
  rw [if_pos hid, if_pos hid]
  by_cases h0 : setting.option.option_id = "0"
  · rw [if_pos h0, if_pos h0, hp.1]
    refine ⟨rfl, ?_⟩
    cases hr : set_mode_fuel W 2 Camera.Mode.Photo s with
    | error e =>
      have : e ≠ Fault.out_of_fuel := fun he => hp.2 (by rw [hr, he])
      simpa using this
    | ok v => simp
  · rw [if_neg h0, if_neg h0, hv.1]
    refine ⟨rfl, ?_⟩
    cases hr : set_mode_fuel W 2 Camera.Mode.Video s with
    | error e =>
      have : e ≠ Fault.out_of_fuel := fun he => hv.2 (by rw [hr, he])
      simpa using this
    | ok v => simp

theorem set_mode_switch_calls (W : Deps β γ F) (m : Camera.Mode) (s s1 : CameraImpl β γ F)
    (r : Camera.Result) (h : set_mode W m s = .ok (r, s1)) :
    mode_switch_calls (issued s s1) ≤ 2 ∧ (issued s s1).length ≤ 2 ∧
      ∀ c ∈ issued s s1, ∃ t, c.1 = BackendCall.set_mode t := by
  rcases set_mode_inv W m s s1 r h with ⟨_, _, hs⟩ | ⟨_, b, _, hc⟩
  · subst hs; simp [issued, mode_switch_calls]
  · rcases hc with ⟨_, hs⟩ | ⟨_, hs⟩ | ⟨_, hs⟩ <;> subst hs <;>
      simp [issued, mode_switch_calls]

theorem dispatch_video_resolution (W : Deps β γ F)
    (sm : Camera.Mode → CameraImpl β γ F → Outcome β γ F Camera.Result)
    (setting : Camera.Setting) (s : CameraImpl β γ F)
    (hid : setting.setting_id = kVideoResolution) :
    set_setting_dispatch W sm setting s =
      set_video_resolution W setting.option.option_id s := by
  have h1 : setting.setting_id ≠ kCameraModeName := by rw [hid]; decide
  have h2 : setting.setting_id ≠ kCameraDisplayModeName := by rw [hid]; decide
  have h3 : setting.setting_id ≠ kPhotoResolution := by rw [hid]; decide
  have h4 : setting.setting_id ≠ kWhitebalanceModeName := by rw [hid]; decide
  have h5 : setting.setting_id ≠ kExposureMode := by rw [hid]; decide
  have h6 : setting.setting_id ≠ kEVName := by rw [hid]; decide
  have h7 : setting.setting_id ≠ kISOName := by rw [hid]; decide
  have h8 : setting.setting_id ≠ kShutterSpeedName := by rw [hid]; decide
  unfold set_setting_dispatch
  rw [if_neg h1, if_neg h2, if_neg h3, if_neg h4, if_neg h5, if_neg h6, if_neg h7, if_neg h8,
    if_pos hid]

theorem set_setting_video_resolution (W : Deps β γ F) (setting : Camera.Setting)
    (s : CameraImpl β γ F) (b : β) (hid : setting.setting_id = kVideoResolution)
    (hb : s._mav_camera = some b) :
    set_setting W setting s =
      .ok (Camera.Result.Success,
        { s with
          _mav_camera := some
            (W.cam.set_framerate
              (W.cam.set_video_resolution b (video_resolution_of setting.option.option_id).1
                (video_resolution_of setting.option.option_id).2.1).2
              (video_resolution_of setting.option.option_id).2.2).2
          calls := s.calls ++
            [(BackendCall.set_video_resolution (video_resolution_of setting.option.option_id).1
                (video_resolution_of setting.option.option_id).2.1,
              Reported.result
                (W.cam.set_video_resolution b (video_resolution_of setting.option.option_id).1
                  (video_resolution_of setting.option.option_id).2.1).1),
              (BackendCall.set_framerate (video_resolution_of setting.option.option_id).2.2,
                Reported.result
                  (W.cam.set_framerate
                    (W.cam.set_video_resolution b
                      (video_resolution_of setting.option.option_id).1
                      (video_resolution_of setting.option.option_id).2.1).2
                    (video_resolution_of setting.option.option_id).2.2).1)]
          _settings :=
            if (W.cam.set_framerate
                (W.cam.set_video_resolution b (video_resolution_of setting.option.option_id).1
                  (video_resolution_of setting.option.option_id).2.1).2
                (video_resolution_of setting.option.option_id).2.2).1 =
                mav_camera.Result.Success then
              update_settings s._settings setting
            else s._settings }) := by
  unfold set_setting set_setting_with
  rw [dispatch_video_resolution W _ setting s hid]
  simp only [set_video_resolution, callCam, hb, isSuccess]
  by_cases hr : (W.cam.set_framerate
      (W.cam.set_video_resolution b (video_resolution_of setting.option.option_id).1
        (video_resolution_of setting.option.option_id).2.1).2
      (video_resolution_of setting.option.option_id).2.2).1 = mav_camera.Result.Success
  · simp [hr]
  · simp [hr]

theorem video_resolution_of_other (v : String) (hv : v ∉ ["0", "1", "2", "3"]) :
    video_resolution_of v = (0, 0, 0) := by
  simp only [List.mem_cons, List.mem_singleton, List.mem_nil_iff, or_false, not_or] at hv
  obtain ⟨h0, h1, h2, h3⟩ := hv
  simp [video_resolution_of, h0, h1, h2, h3]

end lemmas

/-! ## Claims on the status and information records -/

section claims

variable {β γ F : Type}

/-- C21: take an object whose recording flag is off, as it is after construction, and any
sequence of events that runs to its end.  Then `status` returns, and in the record it
returns `video_on` is true exactly when the most recent call among `start_video` and
`stop_video` that returned Success was a `start_video` (calls with another result count for
nothing); `recording_time_s` is 0 when `video_on` is false, and otherwise it is the
difference between the clock reading of `status` and the one of that `start_video`, cast to
whole seconds.  A sequence of `start_video`, `stop_video` and `status` calls on an object
with a primary backend instance always runs to its end. -/
theorem C21_video_status (W : Deps β γ F) (ops : List (FacadeOp β γ F))
    (s : CameraImpl β γ F) (h0 : s._status.video_on = false) :
    (Live s → (∀ op ∈ ops, FacadeOp.is_video_op op = true) →
      ∃ log s1, facade_run W ops s = .ok (log, s1)) ∧
    ∀ log s1 (now : Nat), facade_run W ops s = .ok (log, s1) →
      ∃ st s2, status W now s1 = .ok (st, s2) ∧
        (st.video_on = true ↔ ∃ t, last_successful_video log = some (VideoCall.started t)) ∧
        (st.video_on = false → st.recording_time_s = W.fl.zero) ∧
        (∀ t, last_successful_video log = some (VideoCall.started t) →
          st.recording_time_s =
            W.fl.ofInt (Int.tdiv ((now : Int) - (t : Int)) 1000000000)) := by
  refine ⟨fun hl hops => ?_, fun log s1 now hrun => ?_⟩
  · obtain ⟨log, s1, hrun, _⟩ := facade_run_video_ops_live W ops s hl hops
    exact ⟨log, s1, hrun⟩
  · obtain ⟨hv, ht, _⟩ := facade_run_video W ops s s1 log hrun
    refine ⟨_, _, rfl, ?_, ?_, ?_⟩
    · show s1._status.video_on = true ↔ _
      rw [hv]
      cases hl : last_successful_video log with
      | none => simp [h0]
      | some c => cases c <;> simp
    · intro hoff
      have hoff' : s1._status.video_on = false := hoff
      simp [hoff']
    · intro t hl
      rw [hl] at hv ht
      have hon : s1._status.video_on = true := hv
      have htime : s1._start_video_time = t := ht
      simp [hon, htime]

/-- C21 (witness): after `prepare`, a `start_video` at clock reading 2 s that succeeds and a
`stop_video` that the backend rejects with Busy, `status` at clock reading 9.5 s reports
`video_on` true and a recording time of 7 whole seconds. -/
theorem C21_video_status_witness :
    fresh._status.video_on = false ∧
    facade_run rejectStop videoEvents fresh = .ok (videoLog, recording) ∧
    videoLog.map Prod.snd = [some Camera.Result.Success, some Camera.Result.Success,
      some Camera.Result.Busy] ∧
    last_successful_video videoLog = some (VideoCall.started 2000000000) ∧
    ∃ st s2, status rejectStop 9500000000 recording = .ok (st, s2) ∧ st.video_on = true ∧
      st.recording_time_s = 7 := by
  have h0 : fresh._status.video_on = false := rfl
  have hl : last_successful_video videoLog = some (VideoCall.started 2000000000) := rfl
  refine ⟨h0, rfl, rfl, hl, ?_⟩
  obtain ⟨st, s2, h1, h2, _, h4⟩ :=
    (C21_video_status rejectStop videoEvents fresh h0).2 videoLog recording 9500000000 rfl
  exact ⟨st, s2, h1, h2.2 ⟨_, hl⟩, by rw [h4 _ hl]; rfl⟩

/-- C22: last value wins.  In a sequence of events that runs to its end and holds at least
one storage push, `status` afterwards reports the storage id, the available and the total
capacity of the most recent push, and the storage status and storage type of that push
carried over by the two switches, which map every value to the value of the same name.  A
sequence of pushes alone always runs to its end, and its most recent push is its last
element. -/
theorem C22_storage_last_value_wins (W : Deps β γ F) (ops : List (FacadeOp β γ F))
    (s : CameraImpl β γ F) :
    ((∀ op ∈ ops, FacadeOp.is_storage_push op = true) →
      ∃ log s1, facade_run W ops s = .ok (log, s1)) ∧
    (∀ log s1 info (now : Nat), facade_run W ops s = .ok (log, s1) →
      last_storage_push ops = some info →
      ∃ st s2, status W now s1 = .ok (st, s2) ∧
        st.storage_id = info.storage_id ∧
        st.available_storage_mib = info.available_storage_mib ∧
        st.total_storage_mib = info.total_storage_mib ∧
        st.storage_status = convert_storage_status info.storage_status ∧
        st.storage_type = convert_storage_type info.storage_type) ∧
    (∀ infos : List (mav_camera.StorageInformation F),
      last_storage_push
          (infos.map (fun i => (FacadeOp.storage_information i : FacadeOp β γ F))) =
        infos.getLast?) ∧
    (convert_storage_status .Formatted = .Formatted ∧
      convert_storage_status .Unformatted = .Unformatted ∧
      convert_storage_status .NotAvailable = .NotAvailable ∧
      convert_storage_status .NotSupported = .NotSupported) ∧
    (convert_storage_type .Hd = .Hd ∧ convert_storage_type .Microsd = .Microsd ∧
      convert_storage_type .Other = .Other ∧ convert_storage_type .Sd = .Sd ∧
      convert_storage_type .Unknown = .Unknown ∧
      convert_storage_type .UsbStick = .UsbStick) := by
  refine ⟨facade_run_pushes W ops s, fun log s1 info now hrun hlast => ?_,
    last_storage_push_map, ⟨rfl, rfl, rfl, rfl⟩, ⟨rfl, rfl, rfl, rfl, rfl, rfl⟩⟩
  have hst := facade_run_storage W ops s s1 log hrun
  rw [hlast] at hst
  have hst' : s1._current_storage_information = info := hst
  refine ⟨_, _, rfl, ?_, ?_, ?_, ?_, ?_⟩ <;> simp [hst']

/-- C22 (witness): two pushes that differ in every field, with a `status` call in between;
the record that `status` returns afterwards shows the second push in all five fields. -/
theorem C22_storage_last_value_wins_witness :
    (∃ log, facade_run acceptAll storageEvents fresh = .ok (log, pushedTwice)) ∧
    last_storage_push storageEvents = some storage2 ∧
    ∃ st s2, status acceptAll 7 pushedTwice = .ok (st, s2) ∧
      st.storage_id = 2 ∧ st.available_storage_mib = 750 ∧ st.total_storage_mib = 8000 ∧
      st.storage_status = Camera.Status.StorageStatus.Unformatted ∧
      st.storage_type = Camera.Status.StorageType.Sd :=
  ⟨⟨_, rfl⟩, rfl,
    (C22_storage_last_value_wins acceptAll storageEvents fresh).2.1 _ pushedTwice storage2 7
      rfl rfl⟩

/-- C24: `information` always returns, and the record it returns always carries exactly the
flags CaptureImage, CaptureVideo, HasModes, HasVideoStream, in this order; when there is no
primary backend instance, or the query of the backend does not report Success, the record is
the fallback: vendor "Unknown", model "Unknown", firmware "0.0.0", every numeric field 0 and
an empty definition URI. -/
theorem C24_information (W : Deps β γ F) (s : CameraImpl β γ F) :
    ∃ info s1, information W s = .ok (info, s1) ∧
      info.camera_cap_flags =
        [Camera.Information.CameraCapFlags.CaptureImage,
          Camera.Information.CameraCapFlags.CaptureVideo,
          Camera.Information.CameraCapFlags.HasModes,
          Camera.Information.CameraCapFlags.HasVideoStream] ∧
      ((s._mav_camera = none ∨
          ∃ b, s._mav_camera = some b ∧
            (W.cam.get_information b).1.1 ≠ mav_camera.Result.Success) →
        info =
          { vendor_name := "Unknown"
            model_name := "Unknown"
            firmware_version := "0.0.0"
            focal_length_mm := W.fl.zero
            horizontal_sensor_size_mm := W.fl.zero
            vertical_sensor_size_mm := W.fl.zero
            horizontal_resolution_px := 0
            vertical_resolution_px := 0
            lens_id := 0
            definition_file_version := 0
            definition_file_uri := ""
            camera_cap_flags :=
              [Camera.Information.CameraCapFlags.CaptureImage,
                Camera.Information.CameraCapFlags.CaptureVideo,
                Camera.Information.CameraCapFlags.HasModes,
                Camera.Information.CameraCapFlags.HasVideoStream] }) := by
  cases hb : s._mav_camera with
  | none =>
    refine ⟨information_fallback W.fl, s, by simp [information, hb], rfl, fun _ => rfl⟩
  | some b =>
    by_cases hq : (W.cam.get_information b).1.1 = mav_camera.Result.Success
    · refine ⟨information_of (W.cam.get_information b).1.2, _,
        by simp only [information, hb, callCam, hq, if_true]; rfl, rfl, fun h => ?_⟩
      rcases h with h | ⟨b2, hb2, hn⟩
      · simp at h
      · simp at hb2
        subst hb2
        exact absurd hq hn
    · refine ⟨information_fallback W.fl, _,
        by simp only [information, hb, callCam, hq, if_false]; rfl, rfl, fun _ => rfl⟩

/-- C24 (witness): on the object right after construction, which has no backend instance,
and on a prepared object whose backend rejects the query, `information` returns the fallback
record with the four flags. -/
theorem C24_information_witness :
    (∃ s1, information acceptAll fresh =
      .ok ({ vendor_name := "Unknown"
             model_name := "Unknown"
             firmware_version := "0.0.0"
             focal_length_mm := 0
             horizontal_sensor_size_mm := 0
             vertical_sensor_size_mm := 0
             horizontal_resolution_px := 0
             vertical_resolution_px := 0
             lens_id := 0
             definition_file_version := 0
             definition_file_uri := ""
             camera_cap_flags :=
               [Camera.Information.CameraCapFlags.CaptureImage,
                 Camera.Information.CameraCapFlags.CaptureVideo,
                 Camera.Information.CameraCapFlags.HasModes,
                 Camera.Information.CameraCapFlags.HasVideoStream] }, s1)) ∧
    (∃ info s1, information rejectAll prepared = .ok (info, s1) ∧
      info.vendor_name = "Unknown" ∧ info.firmware_version = "0.0.0" ∧
      info.camera_cap_flags.length = 4) ∧
    ∃ info s1, information acceptAll prepared = .ok (info, s1) ∧
      info.camera_cap_flags =
        [Camera.Information.CameraCapFlags.CaptureImage,
          Camera.Information.CameraCapFlags.CaptureVideo,
          Camera.Information.CameraCapFlags.HasModes,
          Camera.Information.CameraCapFlags.HasVideoStream] := by
  refine ⟨⟨_, rfl⟩, ⟨_, _, rfl, rfl, rfl, rfl⟩, ?_⟩
  obtain ⟨info, s1, h1, h2, _⟩ := C24_information acceptAll prepared
  exact ⟨info, s1, h1, h2⟩

end claims

/-! ## Claims on the registry frame, the loader and the mode recursion -/

section claims

variable {β γ F : Type}

/-- C25: registry frame.  Whenever `set_setting`, `set_mode`, `reset_settings` or
`get_setting` returns, the registry has the same setting ids in the same places as before
(nothing added, removed, reordered or renamed), and every entry keeps its description and
range flag; `set_setting(s)` leaves every entry whose id differs from `s.setting_id` as it
was, so it changes at most the option of the entries with that id; `set_mode` leaves the
whole registry as it was, and `get_setting` always returns and leaves the whole state. -/
theorem C25_registry_frame (W : Deps β γ F) (s : CameraImpl β γ F) :
    (∀ setting r s1, set_setting W setting s = .ok (r, s1) →
      setting_ids s1 = setting_ids s ∧
      RegistryFrame (fun id => id = setting.setting_id) s._settings s1._settings) ∧
    (∀ m r s1, set_mode W m s = .ok (r, s1) → s1._settings = s._settings) ∧
    (∀ r s1, reset_settings W s = .ok (r, s1) →
      setting_ids s1 = setting_ids s ∧
      RegistryFrame (fun _ => True) s._settings s1._settings) ∧
    (∀ setting, ∃ out, get_setting setting s = .ok (out, s)) := by
  refine ⟨fun setting r s1 h => ?_, fun m r s1 h => ?_, fun r s1 h => ?_, fun setting => ?_⟩
  · have hf := (set_setting_frame W setting s s1 r h).2.2
    exact ⟨registryFrame_ids _ _ _ hf, hf⟩
  · exact (set_mode_retunes W m s s1 r h).2
  · have hf := (reset_settings_retunes W s s1 r h).2.2
    exact ⟨registryFrame_ids _ _ _ hf, hf⟩
  · exact ⟨_, rfl⟩

/-- C25 (witness): on the registry that `prepare` builds, `set_setting(CAM_ISO, "125")` and
`reset_settings` with an accepting backend keep the ten setting ids in place; the first one
changes the CAM_ISO option from "100" to "125" and nothing else.  The same holds for
`set_setting(CAM_WBMODE, "9")`, which forwards nothing and overwrites the CAM_WBMODE option
when the read of the uninitialised `result` finds Success. -/
theorem C25_registry_frame_witness :
    set_setting rejectSettersGarbage (build_setting kWhitebalanceModeName "9")
      preparedRejecting = .ok (Camera.Result.Success, overwrittenWb) ∧
    lookup kWhitebalanceModeName preparedRejecting = (Camera.Result.Success, "1") ∧
    lookup kWhitebalanceModeName overwrittenWb = (Camera.Result.Success, "9") ∧
    (setting_ids overwrittenWb = setting_ids preparedRejecting ∧
      RegistryFrame (fun id => id = (build_setting kWhitebalanceModeName "9").setting_id)
        preparedRejecting._settings overwrittenWb._settings) ∧
    set_setting acceptAll (build_setting kISOName "125") prepared =
      .ok (Camera.Result.Success, preparedIso) ∧
    reset_settings acceptAll prepared = .ok (Camera.Result.Success, preparedReset) ∧
    setting_ids prepared =
      [kCameraModeName, kCameraDisplayModeName, kPhotoResolution, kWhitebalanceModeName,
        kExposureMode, kEVName, kISOName, kShutterSpeedName, kVideoFormat, kVideoResolution] ∧
    lookup kISOName prepared = (Camera.Result.Success, "100") ∧
    lookup kISOName preparedIso = (Camera.Result.Success, "125") ∧
    (setting_ids preparedIso = setting_ids prepared ∧
      RegistryFrame (fun id => id = (build_setting kISOName "125").setting_id)
        prepared._settings preparedIso._settings) ∧
    (setting_ids preparedReset = setting_ids prepared ∧
      RegistryFrame (fun _ => True) prepared._settings preparedReset._settings) :=
  ⟨rfl, by decide, by decide,
    (C25_registry_frame rejectSettersGarbage preparedRejecting).1
      (build_setting kWhitebalanceModeName "9") Camera.Result.Success overwrittenWb rfl,
    rfl, rfl, by decide, by decide, by decide,
    (C25_registry_frame acceptAll prepared).1 (build_setting kISOName "125")
      Camera.Result.Success preparedIso rfl,
    (C25_registry_frame acceptAll prepared).2.2.1 Camera.Result.Success preparedReset rfl⟩

/-- C26: the initial mode in the options that `prepare` hands to the backend is Video exactly
when the environment variable MAVCAM_INIT_CAMERA_MODE is present and its first character is
the digit 1, and Photo in every other case; whenever `prepare` returns after the primary
module was loaded, it has issued `open` with these options right after the log path call,
and the first entry it appended to the registry is CAM_MODE with "1" for Video and "0" for
Photo. -/
theorem C26_initial_mode (W : Deps β γ F) (P : Platform β γ) (s : CameraImpl β γ F) :
    ((prepare_options P s).init_mode = mav_camera.Mode.Video ↔
      ∃ v, P.getenv "MAVCAM_INIT_CAMERA_MODE" = some v ∧ v.toList.head? = some '1') ∧
    ((prepare_options P s).init_mode ≠ mav_camera.Mode.Video →
      (prepare_options P s).init_mode = mav_camera.Mode.Photo) ∧
    ∀ h b0 r s1, P.dlopen QCOM_CAMERA_LIBERAY = some h →
      P.dlsym h "create_qcom_camera" = true → P.create_qcom_camera = some b0 →
      prepare W P s = .ok (r, s1) →
      ∃ ro closing more new,
        s1.calls = s.calls ++ closing ++
          (BackendCall.set_log_path "/data/camera/qcom_cam.log", Reported.nothing) ::
          (BackendCall.open_ (prepare_options P s), Reported.result ro) :: new ∧
        s1._settings = s._settings ++
          build_setting kCameraModeName
            (if (prepare_options P s).init_mode = mav_camera.Mode.Video then "1" else "0") ::
            more := by
  refine ⟨?_, ?_, ?_⟩
  · show init_camera_mode (P.getenv "MAVCAM_INIT_CAMERA_MODE") = mav_camera.Mode.Video ↔ _
    unfold init_camera_mode
    cases he : P.getenv "MAVCAM_INIT_CAMERA_MODE" with
    | none => simp
    | some v =>
      simp only [Option.some.injEq, exists_eq_left']
      split_ifs with h0 h1
      · rw [h0]; simp
      · simp only [true_iff]; exact h1
      · simp only [reduceCtorEq, false_iff]; exact h1
  · intro hn
    cases hm : (prepare_options P s).init_mode with
    | Photo => rfl
    | Video => exact absurd hm hn
  · intro h b0 r s1 hopen hsym hfac hret
    obtain ⟨hset, hfr, _, _, closing, hclose⟩ := close_camera_fields s
    unfold prepare at hret
    rw [hopen] at hret
    simp only [hsym, hfac] at hret
    obtain ⟨_, _, _, b, more, new, _, hs, hc⟩ := prepare_configure_inv _ _ _ _ _ hret
    have hopt : prepare_options P
        { close_camera s with _plugin_handle := some h, _mav_camera := some b0 } =
        prepare_options P s := by
      simp [prepare_options, hfr]
    rw [hopt] at hs hc
    refine ⟨(W.cam.open_ (W.cam.set_log_path b "/data/camera/qcom_cam.log")
      (prepare_options P s)).1, closing, more, new, ?_, ?_⟩
    · rw [hc]
      show (close_camera s).calls ++ _ = _
      rw [hclose]
    · rw [hs]
      show (close_camera s)._settings ++ _ = _
      rw [hset]
      cases hm : (prepare_options P s).init_mode <;> simp

/-- C26 (witness): with the variable set to "1x" the options carry Video and the CAM_MODE
entry is "1"; with the variable set to "01" the options carry Photo and the entry is "0". -/
theorem C26_initial_mode_witness :
    (prepare acceptAll (platformEnv (some "1x")) fresh =
        .ok (Camera.Result.Success, preparedEnv1x) ∧
      (prepare_options (platformEnv (some "1x")) fresh).init_mode = mav_camera.Mode.Video ∧
      lookup kCameraModeName preparedEnv1x = (Camera.Result.Success, "1")) ∧
    (prepare acceptAll (platformEnv (some "01")) fresh =
        .ok (Camera.Result.Success, preparedEnv01) ∧
      (prepare_options (platformEnv (some "01")) fresh).init_mode = mav_camera.Mode.Photo ∧
      lookup kCameraModeName preparedEnv01 = (Camera.Result.Success, "0")) ∧
    (prepare_options (platformEnv (some "")) fresh).init_mode = mav_camera.Mode.Photo ∧
    (prepare_options (platformEnv none) fresh).init_mode = mav_camera.Mode.Photo ∧
    ∃ ro closing more new,
      preparedEnv1x.calls = fresh.calls ++ closing ++
        (BackendCall.set_log_path "/data/camera/qcom_cam.log", Reported.nothing) ::
        (BackendCall.open_ (prepare_options (platformEnv (some "1x")) fresh),
          Reported.result ro) :: new ∧
      preparedEnv1x._settings = fresh._settings ++
        build_setting kCameraModeName
          (if (prepare_options (platformEnv (some "1x")) fresh).init_mode =
            mav_camera.Mode.Video then "1" else "0") :: more :=
  ⟨⟨rfl, (C26_initial_mode acceptAll (platformEnv (some "1x")) fresh).1.2 ⟨"1x", rfl, rfl⟩,
      by decide⟩,
    ⟨rfl, rfl, by decide⟩, rfl, rfl,
    (C26_initial_mode acceptAll (platformEnv (some "1x")) fresh).2.2 1 ()
      Camera.Result.Success preparedEnv1x rfl rfl rfl rfl⟩

/-- C27: the mutual recursion of `set_mode` and `set_setting(CAM_MODE, .)` is bounded, for
every current mode, every target mode and every option id: a top-level `set_mode` never
needs more than three nested activations of `set_mode` (with room for three it never hits
the bound, and more room changes nothing) and issues at most two backend calls, all of them
mode switches; a top-level `set_setting` with the id CAM_MODE never needs more than two
nested activations of `set_mode`; on an object with a primary backend instance both
return. -/
theorem C27_recursion_depth (W : Deps β γ F) (m : Camera.Mode) (setting : Camera.Setting)
    (s : CameraImpl β γ F) (hid : setting.setting_id = kCameraModeName) :
    set_mode_fuel W 3 m s ≠ .error Fault.out_of_fuel ∧
    (∀ n, set_mode_fuel W (n + 3) m s = set_mode_fuel W 3 m s) ∧
    (∀ r s1, set_mode W m s = .ok (r, s1) →
      mode_switch_calls (issued s s1) ≤ 2 ∧ (issued s s1).length ≤ 2) ∧
    set_setting_with W (set_mode_fuel W 2) setting s ≠ .error Fault.out_of_fuel ∧
    (∀ n, set_setting_with W (set_mode_fuel W (n + 2)) setting s =
      set_setting_with W (set_mode_fuel W 2) setting s) ∧
    (Live s → (∃ r s1, set_mode W m s = .ok (r, s1)) ∧
      ∃ s2, set_setting W setting s = .ok (Camera.Result.Success, s2)) := by
  refine ⟨set_mode_never_out_of_fuel W m s, fun n => set_mode_fuel_stable W n m s,
    fun r s1 h => ?_, (set_setting_mode_fuel_two W 0 setting s hid).2,
    fun n => (set_setting_mode_fuel_two W n setting s hid).1, fun hl => ?_⟩
  · have hc := set_mode_switch_calls W m s s1 r h
    exact ⟨hc.1, hc.2.1⟩
  · obtain ⟨r, s1, hm, _⟩ := set_mode_live W m s hl
    obtain ⟨s2, hs, _⟩ := set_setting_live W setting s hl
      (fun h => absurd (hid.symm.trans h) (by decide))
      (fun h => absurd (hid.symm.trans h) (by decide))
      (fun h => absurd (hid.symm.trans h) (by decide))
      (fun h => absurd (hid.symm.trans h) (by decide))
    exact ⟨⟨r, s1, hm⟩, s2, hs⟩

/-- C27 (witness): from Photo, `set_mode(Unknown)` runs out of room with two nested
activations and returns with three, after two mode-switch calls; `set_setting(CAM_MODE, "1")`
runs out of room with one nested activation and returns with two. -/
theorem C27_recursion_depth_witness :
    mode preparedPhoto = Camera.Mode.Photo ∧
    set_mode_fuel acceptAll 2 Camera.Mode.Unknown preparedPhoto = .error Fault.out_of_fuel ∧
    set_mode acceptAll Camera.Mode.Unknown preparedPhoto =
      .ok (Camera.Result.Success, preparedUnknown) ∧
    mode_switch_calls (issued preparedPhoto preparedUnknown) = 2 ∧
    set_setting_with acceptAll (set_mode_fuel acceptAll 1) (build_setting kCameraModeName "1")
      preparedPhoto = .error Fault.out_of_fuel ∧
    (set_mode_fuel acceptAll 3 Camera.Mode.Unknown preparedPhoto ≠ .error Fault.out_of_fuel ∧
      set_setting_with acceptAll (set_mode_fuel acceptAll 2)
        (build_setting kCameraModeName "1") preparedPhoto ≠ .error Fault.out_of_fuel) := by
  have h := C27_recursion_depth acceptAll Camera.Mode.Unknown
    (build_setting kCameraModeName "1") preparedPhoto rfl
  exact ⟨rfl, rfl, rfl, by decide, rfl, h.1, h.2.2.2.1⟩

/-- C28: once `mode()` is Photo or Video it is Photo or Video after every sequence of events
that runs to its end; `set_mode(Unknown)` from Photo or Video ends with `mode()` equal to
Video whenever it returns, and it does return on an object with a primary backend
instance. -/
theorem C28_mode_never_unknown_again (W : Deps β γ F) (s : CameraImpl β γ F)
    (hm : mode s = Camera.Mode.Photo ∨ mode s = Camera.Mode.Video) :
    (∀ ops log s1, facade_run W ops s = .ok (log, s1) →
      mode s1 = Camera.Mode.Photo ∨ mode s1 = Camera.Mode.Video) ∧
    (∀ r s1, set_mode W Camera.Mode.Unknown s = .ok (r, s1) → mode s1 = Camera.Mode.Video) ∧
    (Live s → ∃ r s1, set_mode W Camera.Mode.Unknown s = .ok (r, s1) ∧
      mode s1 = Camera.Mode.Video) := by
  have hne : s._current_mode ≠ Camera.Mode.Unknown := by
    unfold mode at hm
    rcases hm with h | h <;> rw [h] <;> decide
  have hset : ∀ r s1, set_mode W Camera.Mode.Unknown s = .ok (r, s1) →
      mode s1 = Camera.Mode.Video := by
    intro r s1 h
    rcases set_mode_inv W _ s s1 r h with ⟨he, _, _⟩ | ⟨_, b, _, hc⟩
    · exact absurd he hne
    · rcases hc with ⟨hx, _⟩ | ⟨hx, _⟩ | ⟨_, hs⟩
      · exact absurd hx (by decide)
      · exact absurd hx (by decide)
      · subst hs; rfl
  refine ⟨fun ops log s1 h => ?_, hset, fun hl => ?_⟩
  · have h1 := facade_run_mode W ops s s1 log h hne
    unfold mode
    cases hc : s1._current_mode with
    | Unknown => exact absurd hc h1
    | Photo => exact Or.inl rfl
    | Video => exact Or.inr rfl
  · obtain ⟨r, s1, h, _⟩ := set_mode_live W Camera.Mode.Unknown s hl
    exact ⟨r, s1, h, hset r s1 h⟩

/-- C28 (witness): from Photo, `set_mode(Unknown)` ends in Video, and a sequence of events
that asks for Unknown, runs `prepare` again and resets the settings ends in Photo. -/
theorem C28_mode_never_unknown_again_witness :
    mode preparedPhoto = Camera.Mode.Photo ∧
    set_mode acceptAll Camera.Mode.Unknown preparedPhoto =
      .ok (Camera.Result.Success, preparedUnknown) ∧
    mode preparedUnknown = Camera.Mode.Video ∧
    (∀ ops log s1, facade_run acceptAll ops preparedPhoto = .ok (log, s1) →
      mode s1 = Camera.Mode.Photo ∨ mode s1 = Camera.Mode.Video) :=
  ⟨rfl, rfl,
    (C28_mode_never_unknown_again acceptAll preparedPhoto (Or.inl rfl)).2.1
      Camera.Result.Success preparedUnknown rfl,
    (C28_mode_never_unknown_again acceptAll preparedPhoto (Or.inl rfl)).1⟩

/-- C29: on an object with a primary backend instance, `set_setting(CAM_VIDRES, v)` returns
Success after issuing exactly two backend calls, the resolution call and then the frame rate
call, with the width, height and frame rate selected by `v` (all 0 when `v` is outside
"0".."3"); the registry afterwards is the registry with the CAM_VIDRES option overwritten by
`v` when the frame rate call reported Success, and the registry as it was otherwise, whatever
the resolution call reported. -/
theorem C29_video_resolution_cache (W : Deps β γ F) (setting : Camera.Setting)
    (s : CameraImpl β γ F) (hid : setting.setting_id = kVideoResolution) (hl : Live s) :
    ∃ r1 r2 s1, set_setting W setting s = .ok (Camera.Result.Success, s1) ∧
      issued s s1 =
        [(BackendCall.set_video_resolution (video_resolution_of setting.option.option_id).1
            (video_resolution_of setting.option.option_id).2.1, Reported.result r1),
          (BackendCall.set_framerate (video_resolution_of setting.option.option_id).2.2,
            Reported.result r2)] ∧
      s1._settings =
        (if r2 = mav_camera.Result.Success then update_settings s._settings setting
          else s._settings) ∧
      (r2 = mav_camera.Result.Success →
        (∃ it ∈ s._settings, it.setting_id = kVideoResolution) →
        lookup kVideoResolution s1 = (Camera.Result.Success, setting.option.option_id)) ∧
      (r2 ≠ mav_camera.Result.Success →
        lookup kVideoResolution s1 = lookup kVideoResolution s) ∧
      (setting.option.option_id ∉ ["0", "1", "2", "3"] →
        video_resolution_of setting.option.option_id = (0, 0, 0)) := by
  obtain ⟨b, hb⟩ := hl
  refine ⟨(W.cam.set_video_resolution b (video_resolution_of setting.option.option_id).1
      (video_resolution_of setting.option.option_id).2.1).1,
    (W.cam.set_framerate
      (W.cam.set_video_resolution b (video_resolution_of setting.option.option_id).1
        (video_resolution_of setting.option.option_id).2.1).2
      (video_resolution_of setting.option.option_id).2.2).1, _,
    set_setting_video_resolution W setting s b hid hb, ?_, rfl, ?_, ?_,
    video_resolution_of_other _⟩
  · simp [issued]
  · intro hr hex
    simp only [hr, if_true, lookup]
    rw [get_setting_loop_update s._settings setting (build_setting kVideoResolution "")
      (by rw [hid]; rfl) (by rw [hid]; exact hex)]
  · intro hr
    simp only [hr, if_false, lookup]

/-- C29 (witness): on the registry that `prepare` builds, with a backend that rejects the
resolution call and accepts the frame rate call, `set_setting(CAM_VIDRES, "3")` issues both
calls and the cached option changes from "1" to "3". -/
theorem C29_video_resolution_cache_witness :
    (build_setting kVideoResolution "3").setting_id = kVideoResolution ∧
    Live preparedRejecting ∧
    set_setting rejectResolution (build_setting kVideoResolution "3") preparedRejecting =
      .ok (Camera.Result.Success, retunedResolution) ∧
    issued preparedRejecting retunedResolution =
      [(BackendCall.set_video_resolution 1920 1080, Reported.result mav_camera.Result.Error),
        (BackendCall.set_framerate 30, Reported.result mav_camera.Result.Success)] ∧
    lookup kVideoResolution preparedRejecting = (Camera.Result.Success, "1") ∧
    lookup kVideoResolution retunedResolution = (Camera.Result.Success, "3") ∧
    ∃ r1 r2 s1,
      set_setting rejectResolution (build_setting kVideoResolution "3") preparedRejecting =
        .ok (Camera.Result.Success, s1) ∧
      issued preparedRejecting s1 =
        [(BackendCall.set_video_resolution 1920 1080, Reported.result r1),
          (BackendCall.set_framerate 30, Reported.result r2)] ∧
      s1._settings =
        (if r2 = mav_camera.Result.Success then
          update_settings preparedRejecting._settings (build_setting kVideoResolution "3")
        else preparedRejecting._settings) := by
  obtain ⟨r1, r2, s1, h1, h2, h3, _⟩ := C29_video_resolution_cache rejectResolution
    (build_setting kVideoResolution "3") preparedRejecting rfl ⟨(), rfl⟩
  exact ⟨rfl, ⟨(), rfl⟩, rfl, by decide, by decide, by decide, r1, r2, s1, h1, h2, h3⟩

/-- C30 (the code at the failing input): the primary module loads and its factory returns an
instance, but the backend rejects `open` and also the preview query that `prepare` issues
next; `prepare` then does not return Success, it ends in the `return 0;` of
`get_camera_display_mode`, which builds a `std::string` from a null pointer.  When only
`open` and the setters are rejected and the queries succeed, `prepare` does return Success
with the ten registry entries. -/
theorem C30_prepare_failing_open :
    platformNoThermal.dlopen QCOM_CAMERA_LIBERAY = some 1 ∧
    platformNoThermal.dlsym 1 "create_qcom_camera" = true ∧
    platformNoThermal.create_qcom_camera = some () ∧
    prepare rejectAll platformNoThermal fresh = .error Fault.undefined_behaviour ∧
    prepare rejectSetters platformNoThermal fresh =
      .ok (Camera.Result.Success, preparedRejecting) ∧
    (BackendCall.open_ (prepare_options platformNoThermal fresh),
      Reported.result mav_camera.Result.Error) ∈ preparedRejecting.calls ∧
    setting_ids preparedRejecting =
      [kCameraModeName, kCameraDisplayModeName, kPhotoResolution, kWhitebalanceModeName,
        kExposureMode, kEVName, kISOName, kShutterSpeedName, kVideoFormat, kVideoResolution] := by
  refine ⟨rfl, rfl, rfl, rfl, rfl, ?_, ?_⟩ <;> decide

end claims

end mavcam
